import Mathlib

/-!
# problab-scaffold: the two demo game logics

Shallow embedding of `internal/logic/demo_0.go` (logic "demo_normal", type
`game0000`) and `internal/logic/demo_1.go` (logic "demo_cascade", type
`game0001`).

* Go `int` values are `Int`; the counters of the extension state never leave
  the 64-bit range (they are bounded by the length of a screen), the one
  product the code forms (`ScatterPay * betMult`) is wrapped to 64 bits.
* A Go slice is the list of its elements; `s[:0]` is the empty list and
  `append` adds at the end.
* A run-time panic (index out of range) is an explicit `none` result; the
  state reached when the panic happens is still returned.
* The services of the external SDK (`buf`, `slot`, `ops`, `spec`) are the
  fields of `Substrate`; every call into them is appended to a call log.
-/

namespace Problab

/-! ## Data model -/

/-- Screen of symbol ids (Go `[]int16`), in index order. -/
abbrev Screen := List Int

/-- Symbol kind `spec.SymbolType`; the SDK enumerates the kinds as small numbers. -/
abbrev SymbolType := Nat

/-- Extension state of `game0000` (`type ext0000 struct`). -/
structure ext0000 where
  Triggered : Bool
  ScatterCount : Int
  ScatterHitMap : List Int
  isSim : Bool
deriving DecidableEq, Repr

/-- Extension state of `game0001` (`type ext0001 struct`). -/
structure ext0001 where
  Triggered : Bool
  ScatterCount : Int
  ScatterHitMap : List Int
  isSim : Bool
deriving DecidableEq, Repr

/-- Fixed configuration of `game0000` (`type fixed0000 struct`). -/
structure fixed0000 where
  FreeRound : Int
  DemoB : List Int
  DemoC : String
  symboltypes : List SymbolType

/-- Fixed configuration of `game0001` (`type fixed0001 struct`).  Both scratch
buffers are allocated by `buildGame0001` with `Columns` entries and no code
ever re-slices them, which is recorded by `sameLen`. -/
structure fixed0001 where
  MaxStep : Int
  FreeRounds : Int
  Trigger : Int
  ScatterPay : Int
  fillReelsIdx : List Int
  screenFillPos : List Int
  symbolTypes : List SymbolType
  sameLen : fillReelsIdx.length = screenFillPos.length

/-- Logic unit "demo_normal" (`type game0000 struct`). -/
structure game0000 where
  fixed : fixed0000
  ext : ext0000

/-- Logic unit "demo_cascade" (`type game0001 struct`). -/
structure game0001 where
  fixed : fixed0001
  ext : ext0001

/-! ## Extension state lifecycle -/

/-- `game0000.newext`: `make([]int, 0, screensize)` panics for a negative capacity. -/
def game0000.newext (screensize : Int) (isSim : Bool) : Option ext0000 :=
  if screensize < 0 then none
  else some { Triggered := false, ScatterCount := 0, ScatterHitMap := [], isSim := isSim }

/-- `game0001.newext`. -/
def game0001.newext (screensize : Int) (isSim : Bool) : Option ext0001 :=
  if screensize < 0 then none
  else some { Triggered := false, ScatterCount := 0, ScatterHitMap := [], isSim := isSim }

/-- `ext0000.Reset`. -/
def ext0000.Reset (e : ext0000) : ext0000 :=
  { e with Triggered := false, ScatterCount := 0, ScatterHitMap := [] }

/-- `ext0001.Reset`. -/
def ext0001.Reset (e : ext0001) : ext0001 :=
  { e with Triggered := false, ScatterCount := 0, ScatterHitMap := [] }

/-- `ext0000.Snapshot`: `nil` in simulation mode, otherwise a fresh record whose hit
list is a copy; the copy is built without `isSim`, which is then the zero value. -/
def ext0000.Snapshot (e : ext0000) : Option ext0000 :=
  if e.isSim then none
  else some { Triggered := e.Triggered, ScatterCount := e.ScatterCount,
              ScatterHitMap := e.ScatterHitMap, isSim := false }

/-- `ext0001.Snapshot`. -/
def ext0001.Snapshot (e : ext0001) : Option ext0001 :=
  if e.isSim then none
  else some { Triggered := e.Triggered, ScatterCount := e.ScatterCount,
              ScatterHitMap := e.ScatterHitMap, isSim := false }

/-! ## Trigger evaluator -/

/-- The scan loop shared by both `trigger` functions,
`for i := 0; i < len(screen); i++ { if symtype[screen[i]] == scatter { count++; hits = append(hits, i) } }`,
entered at index `i` with the cells from `i` on still to visit.  The first component
is `false` when `symtype[screen[i]]` is out of range: the loop stops there with the
counters as they are. -/
def scanLoop (scatter : SymbolType) (symtype : List SymbolType) :
    List Int → Nat → Int × List Int → Bool × (Int × List Int)
  | [], _, acc => (true, acc)
  | x :: rest, i, (cnt, hits) =>
    if x < 0 then (false, (cnt, hits))
    else
      match symtype[x.toNat]? with
      | none => (false, (cnt, hits))
      | some t =>
        if t = scatter then
          scanLoop scatter symtype rest (i + 1) (cnt + 1, hits ++ [(i : Int)])
        else
          scanLoop scatter symtype rest (i + 1) (cnt, hits)

/-- `game0000.trigger`.  `scatter` is the SDK constant `spec.SymbolTypeScatter`.
The code is `none` when the scan panics. -/
def game0000.trigger (scatter : SymbolType) (g : game0000) (screen : Screen) :
    Option Int × game0000 :=
  let ext := g.ext.Reset
  match scanLoop scatter g.fixed.symboltypes screen 0 (ext.ScatterCount, ext.ScatterHitMap) with
  | (false, (c, h)) =>
    (none, { g with ext := { ext with ScatterCount := c, ScatterHitMap := h } })
  | (true, (c, h)) =>
    if c > 2 then
      (some 1, { g with ext := { ext with ScatterCount := c, ScatterHitMap := h,
                                          Triggered := true } })
    else
      (some 0, { g with ext := { ext with ScatterCount := c, ScatterHitMap := h } })

/-- `game0001.trigger`: the comparison is `ScatterCount >= fixed.Trigger`. -/
def game0001.trigger (scatter : SymbolType) (g : game0001) (screen : Screen) :
    Option Int × game0001 :=
  let ext := g.ext.Reset
  match scanLoop scatter g.fixed.symbolTypes screen 0 (ext.ScatterCount, ext.ScatterHitMap) with
  | (false, (c, h)) =>
    (none, { g with ext := { ext with ScatterCount := c, ScatterHitMap := h } })
  | (true, (c, h)) =>
    if c ≥ g.fixed.Trigger then
      (some 1, { g with ext := { ext with ScatterCount := c, ScatterHitMap := h,
                                          Triggered := true } })
    else
      (some 0, { g with ext := { ext with ScatterCount := c, ScatterHitMap := h } })

/-! ## The external SDK -/

/-- Action kinds `buf.FinishAct` and `buf.FinishStep`. -/
inductive ActKind
  | FinishAct
  | FinishStep
deriving DecidableEq, Repr

/-- The `extend` argument of `AddAct`: a Go interface value holding the live
extension state of one of the two logics (recorded by value at the time of the call). -/
inductive Extend
  | e0000 (e : ext0000)
  | e0001 (e : ext0001)
deriving DecidableEq, Repr

/-- The request `buf.SpinRequest`; the logic reads only `BetMult`. -/
structure SpinRequest where
  BetMult : Int
deriving DecidableEq, Repr

/-- The services the logic calls, over an abstract SDK state `σ`, with `R` the
mode result handed out by `YieldResult` and `S` the spin record handed out by
`StartNewSpin`.  The first argument `mode` of a service is the index into
`gh.GameModeHandlerList` of the handler whose generator, calculator or
`GameModeResult` is used.  `Clear`, `Gravity` and `FillScreen` mutate the slices
they are given in place: they return the new contents and cannot change the
length of the two scratch buffers. -/
structure Substrate (σ R S : Type) where
  StartNewSpin : SpinRequest → σ → S × σ
  AppendModeResult : S → R → σ → σ
  End : S → σ → σ
  GenScreen : Nat → σ → Screen × σ
  Cols : Nat → Int
  Rows : Nat → Int
  CalcScreen : Nat → Int → Screen → σ → σ
  HitMapTmp : Nat → σ → List Int
  GetTmpWin : Nat → σ → Int
  AddAct : Nat → ActKind → String → Option Screen → Option Extend → σ → σ
  FinishStep : Nat → σ → σ
  FinishRound : Nat → σ → σ
  UpdateTmpWin : Nat → Int → σ → σ
  /-- The field write `gmr.Trigger = v`. -/
  SetTrigger : Nat → Int → σ → σ
  YieldResult : Nat → σ → R × σ
  /-- The field read `base.Trigger`. -/
  Trigger : R → σ → Int
  /-- The call `fillReelSet.Reels[i].ReelLUT.Pick(gh.Core)` for reel `i` of the mode. -/
  Pick : Nat → Nat → σ → Int × σ
  Clear : Screen → List Int → Screen
  Gravity : Screen → Int → Int → List Int → Screen × List Int
  /-- The call `ops.FillScreen(screen, fillReelSet, screenFillPos, fillReelsIdx, cols)`
  with the reel set of the mode; returns screen, `screenFillPos`, `fillReelsIdx`. -/
  FillScreen : Screen → Nat → List Int → List Int → Int → Screen × List Int × List Int
  Gravity_len : ∀ s c r p, (Gravity s c r p).2.length = p.length
  FillScreen_pos_len : ∀ s m p x c, (FillScreen s m p x c).2.1.length = p.length
  FillScreen_idx_len : ∀ s m p x c, (FillScreen s m p x c).2.2.length = x.length

/-- One call into the SDK, with its arguments and, for a call that returns a
value, the value returned. -/
inductive Call (R S : Type)
  | StartNewSpin (r : SpinRequest) (sr : S)
  | AppendModeResult (sr : S) (res : R)
  | End (sr : S)
  | GenScreen (mode : Nat) (screen : Screen)
  | AddAct (mode : Nat) (kind : ActKind) (label : String) (screen : Option Screen)
      (ext : Option Extend)
  | Pick (mode : Nat) (reel : Nat) (v : Int)
  | CalcScreen (mode : Nat) (betMult : Int) (screen : Screen)
  | HitMapTmp (mode : Nat) (hit : List Int)
  | GetTmpWin (mode : Nat) (win : Int)
  | FinishStep (mode : Nat)
  | Clear (screen : Screen) (hit : List Int)
  | Gravity (screen : Screen) (cols rows : Int) (fillPos : List Int)
  | FillScreen (screen : Screen) (mode : Nat) (fillPos fillIdx : List Int) (cols : Int)
  | SetTrigger (mode : Nat) (v : Int)
  | UpdateTmpWin (mode : Nat) (v : Int)
  | FinishRound (mode : Nat)
  | YieldResult (mode : Nat) (res : R)
deriving DecidableEq, Repr

/-- Recognisers of the calls that the properties count. -/
def Call.isGenScreen {R S : Type} : Call R S → Bool
  | .GenScreen _ _ => true
  | _ => false

def Call.isCalcScreen {R S : Type} : Call R S → Bool
  | .CalcScreen _ _ _ => true
  | _ => false

def Call.isFinishRound {R S : Type} : Call R S → Bool
  | .FinishRound _ => true
  | _ => false

def Call.isFinishStep {R S : Type} : Call R S → Bool
  | .FinishStep _ => true
  | _ => false

/-- The three in-place screen transforms of `ops`. -/
def Call.isTransform {R S : Type} : Call R S → Bool
  | .Clear _ _ => true
  | .Gravity _ _ _ _ => true
  | .FillScreen _ _ _ _ _ => true
  | _ => false

/-- An `AddAct` whose label is "clear", "gravity" or "fillscreen". -/
def Call.isTransformAct {R S : Type} : Call R S → Bool
  | .AddAct _ _ label _ _ => label = "clear" || label = "gravity" || label = "fillscreen"
  | _ => false

def Call.isStartNewSpin {R S : Type} : Call R S → Bool
  | .StartNewSpin _ _ => true
  | _ => false

def Call.isEnd {R S : Type} : Call R S → Bool
  | .End _ => true
  | _ => false

def Call.isAppendModeResult {R S : Type} : Call R S → Bool
  | .AppendModeResult _ _ => true
  | _ => false

/-- State of the SDK together with the log of the calls made so far, oldest first. -/
structure Run (σ R S : Type) where
  world : σ
  calls : List (Call R S)

section Calls
variable {σ R S : Type} (E : Substrate σ R S)

/-- Each wrapper performs one call on the SDK state and logs it. -/
def Run.StartNewSpin (run : Run σ R S) (r : SpinRequest) : S × Run σ R S :=
  ((E.StartNewSpin r run.world).1,
   ⟨(E.StartNewSpin r run.world).2, run.calls ++ [.StartNewSpin r (E.StartNewSpin r run.world).1]⟩)

def Run.AppendModeResult (run : Run σ R S) (sr : S) (res : R) : Run σ R S :=
  ⟨E.AppendModeResult sr res run.world, run.calls ++ [.AppendModeResult sr res]⟩

def Run.End (run : Run σ R S) (sr : S) : Run σ R S :=
  ⟨E.End sr run.world, run.calls ++ [.End sr]⟩

def Run.GenScreen (run : Run σ R S) (mode : Nat) : Screen × Run σ R S :=
  ((E.GenScreen mode run.world).1,
   ⟨(E.GenScreen mode run.world).2, run.calls ++ [.GenScreen mode (E.GenScreen mode run.world).1]⟩)

def Run.AddAct (run : Run σ R S) (mode : Nat) (kind : ActKind) (label : String)
    (screen : Option Screen) (ext : Option Extend) : Run σ R S :=
  ⟨E.AddAct mode kind label screen ext run.world, run.calls ++ [.AddAct mode kind label screen ext]⟩

def Run.Pick (run : Run σ R S) (mode reel : Nat) : Int × Run σ R S :=
  ((E.Pick mode reel run.world).1,
   ⟨(E.Pick mode reel run.world).2, run.calls ++ [.Pick mode reel (E.Pick mode reel run.world).1]⟩)

def Run.CalcScreen (run : Run σ R S) (mode : Nat) (betMult : Int) (screen : Screen) :
    Run σ R S :=
  ⟨E.CalcScreen mode betMult screen run.world, run.calls ++ [.CalcScreen mode betMult screen]⟩

def Run.HitMapTmp (run : Run σ R S) (mode : Nat) : List Int × Run σ R S :=
  (E.HitMapTmp mode run.world, ⟨run.world, run.calls ++ [.HitMapTmp mode (E.HitMapTmp mode run.world)]⟩)

def Run.GetTmpWin (run : Run σ R S) (mode : Nat) : Int × Run σ R S :=
  (E.GetTmpWin mode run.world, ⟨run.world, run.calls ++ [.GetTmpWin mode (E.GetTmpWin mode run.world)]⟩)

def Run.FinishStep (run : Run σ R S) (mode : Nat) : Run σ R S :=
  ⟨E.FinishStep mode run.world, run.calls ++ [.FinishStep mode]⟩

def Run.FinishRound (run : Run σ R S) (mode : Nat) : Run σ R S :=
  ⟨E.FinishRound mode run.world, run.calls ++ [.FinishRound mode]⟩

def Run.UpdateTmpWin (run : Run σ R S) (mode : Nat) (v : Int) : Run σ R S :=
  ⟨E.UpdateTmpWin mode v run.world, run.calls ++ [.UpdateTmpWin mode v]⟩

def Run.SetTrigger (run : Run σ R S) (mode : Nat) (v : Int) : Run σ R S :=
  ⟨E.SetTrigger mode v run.world, run.calls ++ [.SetTrigger mode v]⟩

def Run.YieldResult (run : Run σ R S) (mode : Nat) : R × Run σ R S :=
  ((E.YieldResult mode run.world).1,
   ⟨(E.YieldResult mode run.world).2, run.calls ++ [.YieldResult mode (E.YieldResult mode run.world).1]⟩)

/-- The transforms of `ops` do not touch the SDK state; the call is logged with its arguments. -/
def Run.logOp (run : Run σ R S) (c : Call R S) : Run σ R S :=
  ⟨run.world, run.calls ++ [c]⟩

end Calls

/-! ## Go integer arithmetic -/

/-- Result of a Go `int` operation whose exact value is `x`: two's complement on 64 bits. -/
def wrapInt (x : Int) : Int := (x + 2 ^ 63) % 2 ^ 64 - 2 ^ 63

/-! ## Logic "demo_normal" -/

section Game0000
variable {σ R S : Type} (E : Substrate σ R S) (scatter : SymbolType)

/-- `game0000.getBaseResult`.  The result is `none` when `trigger` panics; the logic
unit and the run are then the ones reached at the panic. -/
def game0000.getBaseResult (g : game0000) (betMult : Int) (run : Run σ R S) :
    Option R × game0000 × Run σ R S :=
  let g : game0000 := { g with ext := g.ext.Reset }
  -- 1. Generate screen
  let screen := (run.GenScreen E 0).1
  let run := (run.GenScreen E 0).2
  let run := run.AddAct E 0 .FinishAct "screen" (some screen) none
  -- 2. Calculate win
  let run := run.CalcScreen E 0 betMult screen
  let win := (run.GetTmpWin E 0).1
  let run := (run.GetTmpWin E 0).2
  let run := if win > 0 then run.AddAct E 0 .FinishAct "win" none none else run
  -- 3. Check trigger condition
  match game0000.trigger scatter g screen with
  | (none, g) => (none, g, run)
  | (some t, g) =>
    let run := run.SetTrigger E 0 t
    let run := if t > 0 then run.AddAct E 0 .FinishAct "trigger" none (some (.e0000 g.ext))
               else run
    -- 4. Commit round result
    let run := run.FinishRound E 0
    (some (run.YieldResult E 0).1, g, (run.YieldResult E 0).2)

/-- Body of the loop of `game0000.getFreeResult`: one free round. -/
def game0000.freeRound (betMult : Int) (run : Run σ R S) : Run σ R S :=
  let screen := (run.GenScreen E 1).1
  let run := (run.GenScreen E 1).2
  let run := run.AddAct E 1 .FinishAct "screen" (some screen) none
  let run := run.CalcScreen E 1 betMult screen
  let win := (run.GetTmpWin E 1).1
  let run := (run.GetTmpWin E 1).2
  let run := if win > 0 then run.AddAct E 1 .FinishAct "win" none none else run
  run.FinishRound E 1

/-- The loop `for i := 0; i < round; i++` of `game0000.getFreeResult` with `n`
iterations left. -/
def game0000.freeLoop (betMult : Int) : Nat → Run σ R S → Run σ R S
  | 0, run => run
  | n + 1, run => game0000.freeLoop betMult n (game0000.freeRound E betMult run)

/-- `game0000.getFreeResult`; the loop runs `round` times, not at all for `round <= 0`. -/
def game0000.getFreeResult (g : game0000) (betMult : Int) (run : Run σ R S) :
    R × game0000 × Run σ R S :=
  let round := g.fixed.FreeRound
  let g : game0000 := { g with ext := g.ext.Reset }
  let run := game0000.freeLoop E betMult round.toNat run
  ((run.YieldResult E 1).1, g, (run.YieldResult E 1).2)

/-- `game0000.GetResult`. -/
def game0000.GetResult (g : game0000) (r : SpinRequest) (run : Run σ R S) :
    Option S × game0000 × Run σ R S :=
  let sr := (run.StartNewSpin E r).1
  let run := (run.StartNewSpin E r).2
  match game0000.getBaseResult E scatter g r.BetMult run with
  | (none, g, run) => (none, g, run)
  | (some base, g, run) =>
    let run := run.AppendModeResult E sr base
    if E.Trigger base run.world ≠ 0 then
      let free := game0000.getFreeResult E g r.BetMult run
      let run := free.2.2.AppendModeResult E sr free.1
      (some sr, free.2.1, run.End E sr)
    else
      (some sr, g, run.End E sr)

end Game0000

/-! ## Logic "demo_cascade" -/

/-- Replace the contents of the two scratch buffers. -/
def fixed0001.withScratch (fix : fixed0001) (idx pos : List Int)
    (h : idx.length = pos.length) : fixed0001 :=
  { fix with fillReelsIdx := idx, screenFillPos := pos, sameLen := h }

/-- The loop of `resetIdx`, `for i := 0; i < len(screenFillPos); i++`, at index `i`
with `k` iterations left, on the pair (screenFillPos, fillReelsIdx). -/
def game0001.resetLoop : Nat → Nat → List Int × List Int → List Int × List Int
  | 0, _, b => b
  | k + 1, i, b => game0001.resetLoop k (i + 1) (b.1.set i 0, b.2.set i 0)

/-- `game0001.resetIdx`.  Every index written is in range of both buffers, which
have the same length. -/
def game0001.resetIdx (fix : fixed0001) : fixed0001 :=
  fix.withScratch
    (game0001.resetLoop fix.screenFillPos.length 0 (fix.screenFillPos, fix.fillReelsIdx)).2
    (game0001.resetLoop fix.screenFillPos.length 0 (fix.screenFillPos, fix.fillReelsIdx)).1
    (by
      have key : ∀ (k i : Nat) (b : List Int × List Int),
          (game0001.resetLoop k i b).1.length = b.1.length ∧
          (game0001.resetLoop k i b).2.length = b.2.length := by
        intro k
        induction k with
        | zero => intro i b; simp [game0001.resetLoop]
        | succ k ih => intro i b; simp [game0001.resetLoop, ih]
      rw [(key _ _ _).1, (key _ _ _).2]
      exact fix.sameLen)

section Game0001
variable {σ R S : Type} (E : Substrate σ R S) (scatter : SymbolType)

/-- The loop `for i := range fix.fillReelsIdx { fix.fillReelsIdx[i] = ...Pick(gh.Core) }`
at index `i` with `k` iterations left. -/
def game0001.pickLoop (mode : Nat) : Nat → Nat → List Int → Run σ R S → List Int × Run σ R S
  | 0, _, idx, run => (idx, run)
  | k + 1, i, idx, run =>
    game0001.pickLoop mode k (i + 1) (idx.set i (run.Pick E mode i).1) (run.Pick E mode i).2

/-- The pick loop on the fixed configuration. -/
def game0001.pickReels (mode : Nat) (fix : fixed0001) (run : Run σ R S) :
    fixed0001 × Run σ R S :=
  (fix.withScratch (game0001.pickLoop E mode fix.fillReelsIdx.length 0 fix.fillReelsIdx run).1
      fix.screenFillPos
      (by
        have key : ∀ (k i : Nat) (idx : List Int) (run : Run σ R S),
            (game0001.pickLoop E mode k i idx run).1.length = idx.length := by
          intro k
          induction k with
          | zero => intro i idx run; simp [game0001.pickLoop]
          | succ k ih => intro i idx run; simp [game0001.pickLoop, ih]
        rw [key]
        exact fix.sameLen),
   (game0001.pickLoop E mode fix.fillReelsIdx.length 0 fix.fillReelsIdx run).2)

/-- One winning pass after the win check: steps 4 to 7 of the cascade loop. -/
def game0001.cascadeStep (mode : Nat) (hit : List Int) (screen : Screen) (fix : fixed0001)
    (run : Run σ R S) : Screen × fixed0001 × Run σ R S :=
  -- 4. Record win action
  let run := run.AddAct E mode .FinishAct "win" none none
  -- 5. Clear hit symbols from the screen
  let run := run.logOp (.Clear screen hit)
  let screen := E.Clear screen hit
  let run := run.AddAct E mode .FinishStep "clear" (some screen) none
  -- 6. Apply gravity
  let run := run.logOp (.Gravity screen (E.Cols mode) (E.Rows mode) fix.screenFillPos)
  let gr := E.Gravity screen (E.Cols mode) (E.Rows mode) fix.screenFillPos
  let fix := fix.withScratch fix.fillReelsIdx gr.2
    (by rw [E.Gravity_len]; exact fix.sameLen)
  let screen := gr.1
  let run := run.AddAct E mode .FinishStep "gravity" (some screen) none
  -- 7. Refill screen using reel set
  let run := run.logOp (.FillScreen screen mode fix.screenFillPos fix.fillReelsIdx (E.Cols mode))
  let fl := E.FillScreen screen mode fix.screenFillPos fix.fillReelsIdx (E.Cols mode)
  let fix := fix.withScratch fl.2.2 fl.2.1
    (by rw [E.FillScreen_pos_len, E.FillScreen_idx_len]; exact fix.sameLen)
  let screen := fl.1
  let run := run.AddAct E mode .FinishStep "fillscreen" (some screen) none
  (screen, fix, run)

/-- The loop `for range maxStep` of `getBaseResult` (mode 0) and of `getFreeResult`
(mode 1) with `n` iterations left; the two loop bodies are the same text. -/
def game0001.cascade (mode : Nat) (betMult : Int) :
    Nat → Screen → fixed0001 → Run σ R S → Screen × fixed0001 × Run σ R S
  | 0, screen, fix, run => (screen, fix, run)
  | n + 1, screen, fix, run =>
    -- 2. Calculate wins for the current screen
    let run := run.CalcScreen E mode betMult screen
    let hit := (run.HitMapTmp E mode).1
    let run := (run.HitMapTmp E mode).2
    -- 3. Stop cascading when no win occurs
    let win := (run.GetTmpWin E mode).1
    let run := (run.GetTmpWin E mode).2
    if win = 0 then
      (screen, fix, run.FinishStep E mode)
    else
      let st := game0001.cascadeStep E mode hit screen fix run
      game0001.cascade mode betMult n st.1 st.2.1 st.2.2

/-- `game0001.getBaseResult`; the outer loop `for i := 0; i < 1; i++` runs its body
once.  The result is `none` when `trigger` panics. -/
def game0001.getBaseResult (g : game0001) (r : SpinRequest) (run : Run σ R S) :
    Option R × game0001 × Run σ R S :=
  let maxStep := g.fixed.MaxStep
  let betMult := r.BetMult
  let fix := game0001.resetIdx g.fixed
  -- 1. Generate the initial screen
  let screen := (run.GenScreen E 0).1
  let run := (run.GenScreen E 0).2
  let run := run.AddAct E 0 .FinishAct "gen_screen" (some screen) none
  let pk := game0001.pickReels E 0 fix run
  let cs := game0001.cascade E 0 betMult maxStep.toNat screen pk.1 pk.2
  let screen := cs.1
  let run := cs.2.2
  -- Check scatter trigger
  match game0001.trigger scatter { g with fixed := cs.2.1 } screen with
  | (none, g) => (none, g, run)
  | (some t, g) =>
    let run := run.SetTrigger E 0 t
    let run :=
      if t > 0 then
        (run.UpdateTmpWin E 0 (wrapInt (g.fixed.ScatterPay * betMult))).AddAct E 0
          .FinishAct "trigger" none (some (.e0001 g.ext))
      else run
    let run := run.FinishRound E 0
    (some (run.YieldResult E 0).1, g, (run.YieldResult E 0).2)

/-- Body of the loop of `game0001.getFreeResult`: one free round. -/
def game0001.freeRound (betMult : Int) (fix : fixed0001) (run : Run σ R S) :
    fixed0001 × Run σ R S :=
  -- 1. Generate the initial screen
  let screen := (run.GenScreen E 1).1
  let run := (run.GenScreen E 1).2
  let run := run.AddAct E 1 .FinishAct "gen_screen" (some screen) none
  let fix := game0001.resetIdx fix
  let pk := game0001.pickReels E 1 fix run
  let cs := game0001.cascade E 1 betMult fix.MaxStep.toNat screen pk.1 pk.2
  (cs.2.1, cs.2.2.FinishRound E 1)

/-- The loop `for i := 0; i < fix.FreeRounds; i++` with `n` iterations left. -/
def game0001.freeLoop (betMult : Int) : Nat → fixed0001 → Run σ R S → fixed0001 × Run σ R S
  | 0, fix, run => (fix, run)
  | n + 1, fix, run =>
    game0001.freeLoop betMult n (game0001.freeRound E betMult fix run).1
      (game0001.freeRound E betMult fix run).2

/-- `game0001.getFreeResult`. -/
def game0001.getFreeResult (g : game0001) (r : SpinRequest) (run : Run σ R S) :
    R × game0001 × Run σ R S :=
  let fl := game0001.freeLoop E r.BetMult g.fixed.FreeRounds.toNat g.fixed run
  ((fl.2.YieldResult E 1).1, { g with fixed := fl.1 }, (fl.2.YieldResult E 1).2)

/-- `game0001.GetResult`. -/
def game0001.GetResult (g : game0001) (r : SpinRequest) (run : Run σ R S) :
    Option S × game0001 × Run σ R S :=
  let sr := (run.StartNewSpin E r).1
  let run := (run.StartNewSpin E r).2
  match game0001.getBaseResult E scatter g r run with
  | (none, g, run) => (none, g, run)
  | (some base, g, run) =>
    let run := run.AppendModeResult E sr base
    if E.Trigger base run.world ≠ 0 then
      let free := game0001.getFreeResult E g r run
      let run := free.2.2.AppendModeResult E sr free.1
      (some sr, free.2.1, run.End E sr)
    else
      (some sr, g, run.End E sr)

end Game0001

/-! ## Specification-side definitions -/

/-- Cell value `x` is scatter-classified: `x` indexes the table and the entry is the
scatter kind. -/
def isScatter (scatter : SymbolType) (symtype : List SymbolType) (x : Int) : Bool :=
  decide (0 ≤ x) && (symtype[x.toNat]? == some scatter)

/-- All indices `i < len(screen)` whose cell is scatter-classified, in increasing order. -/
def scatterPositions (scatter : SymbolType) (symtype : List SymbolType) (screen : Screen) :
    List Nat :=
  (List.range screen.length).filter (fun i => isScatter scatter symtype (screen.getD i 0))

/-- Every symbol id of the screen indexes into the classification table. -/
def ScreenInTable (symtype : List SymbolType) (screen : Screen) : Prop :=
  ∀ x ∈ screen, 0 ≤ x ∧ x.toNat < symtype.length

instance (symtype : List SymbolType) (screen : Screen) : Decidable (ScreenInTable symtype screen) := by
  unfold ScreenInTable; infer_instance

/-- The invariant of the extension state. -/
def ext0000.Inv (e : ext0000) : Prop := e.ScatterCount = e.ScatterHitMap.length

def ext0001.Inv (e : ext0001) : Prop := e.ScatterCount = e.ScatterHitMap.length

/-! ## Call logs: recognisers and shapes -/

/-- A call of the pick loop. -/
def Call.isPick {R S : Type} : Call R S → Bool
  | .Pick _ _ _ => true
  | _ => false

def Call.isSetTrigger {R S : Type} : Call R S → Bool
  | .SetTrigger _ _ => true
  | _ => false

/-- A call made at spin level by `GetResult` itself. -/
def Call.isSpinLevel {R S : Type} : Call R S → Bool
  | .StartNewSpin _ _ => true
  | .AppendModeResult _ _ => true
  | .End _ => true
  | _ => false

/-- The calls a cascade loop can make. -/
def Call.inCascade {R S : Type} : Call R S → Bool
  | .CalcScreen _ _ _ => true
  | .HitMapTmp _ _ => true
  | .GetTmpWin _ _ => true
  | .FinishStep _ => true
  | .AddAct _ _ label _ _ =>
    label = "win" || label = "clear" || label = "gravity" || label = "fillscreen"
  | .Clear _ _ => true
  | .Gravity _ _ _ _ => true
  | .FillScreen _ _ _ _ _ => true
  | _ => false

/-- The calls made by one winning pass of the cascade loop in mode `m`: evaluation,
then the action "win", then Clear, Gravity and FillScreen in this order, each
followed by its action; Gravity works on the screen Clear returned and FillScreen
on the screen and the fill positions Gravity returned. -/
def winningPass {σ R S : Type} (E : Substrate σ R S) (m : Nat) (b : Int) (screen : Screen)
    (hit : List Int) (win : Int) (pos idx : List Int) : List (Call R S) :=
  [ .CalcScreen m b screen, .HitMapTmp m hit, .GetTmpWin m win,
    .AddAct m .FinishAct "win" none none,
    .Clear screen hit,
    .AddAct m .FinishStep "clear" (some (E.Clear screen hit)) none,
    .Gravity (E.Clear screen hit) (E.Cols m) (E.Rows m) pos,
    .AddAct m .FinishStep "gravity"
      (some (E.Gravity (E.Clear screen hit) (E.Cols m) (E.Rows m) pos).1) none,
    .FillScreen (E.Gravity (E.Clear screen hit) (E.Cols m) (E.Rows m) pos).1 m
      (E.Gravity (E.Clear screen hit) (E.Cols m) (E.Rows m) pos).2 idx (E.Cols m),
    .AddAct m .FinishStep "fillscreen"
      (some (E.FillScreen (E.Gravity (E.Clear screen hit) (E.Cols m) (E.Rows m) pos).1 m
        (E.Gravity (E.Clear screen hit) (E.Cols m) (E.Rows m) pos).2 idx (E.Cols m)).1) none ]

/-- The calls made by the pass that ends a cascade: evaluation with win 0, then `FinishStep`. -/
def zeroPass {R S : Type} (m : Nat) (b : Int) (screen : Screen) (hit : List Int) :
    List (Call R S) :=
  [ .CalcScreen m b screen, .HitMapTmp m hit, .GetTmpWin m 0, .FinishStep m ]

/-- Shape of the call log of a cascade loop with at most `n` iterations: winning
passes, ended by a zero pass or by the end of the loop. -/
inductive CascadeTrace {σ R S : Type} (E : Substrate σ R S) (m : Nat) (b : Int) :
    Nat → List (Call R S) → Prop
  | cap : CascadeTrace E m b 0 []
  | stop (n : Nat) (screen : Screen) (hit : List Int) :
      CascadeTrace E m b (n + 1) (zeroPass m b screen hit)
  | step (n : Nat) (screen : Screen) (hit : List Int) (win : Int) (pos idx : List Int)
      (rest : List (Call R S)) (hw : win ≠ 0) (hrest : CascadeTrace E m b n rest) :
      CascadeTrace E m b (n + 1) (winningPass E m b screen hit win pos idx ++ rest)

/-- Shape of what a base round logs after its evaluation passes: nothing when the
trigger evaluation panicked, otherwise the write of the trigger code, for a
non-zero code the trigger calls `mid`, then `FinishRound` and `YieldResult`. -/
def BaseTail {R S : Type} (ret : Option R) (tail : List (Call R S)) : Prop :=
  (ret = none ∧ tail = []) ∨
  ∃ res t mid, ret = some res ∧
    tail = Call.SetTrigger 0 t :: mid ++ [Call.FinishRound 0, Call.YieldResult 0 res] ∧
    (mid = [] ∨ (∃ e, mid = [Call.AddAct 0 .FinishAct "trigger" none (some e)]) ∨
      ∃ v e, mid = [Call.UpdateTmpWin 0 v, Call.AddAct 0 .FinishAct "trigger" none (some e)])

section Auxiliary
variable {σ R S : Type} (E : Substrate σ R S)

/-- The screen on which `game0001.getBaseResult` evaluates the trigger: the one the
cascade loop of the base round leaves. -/
def game0001.baseFinalScreen (g : game0001) (r : SpinRequest) (run : Run σ R S) : Screen :=
  (game0001.cascade E 0 r.BetMult g.fixed.MaxStep.toNat (run.GenScreen E 0).1
    (game0001.pickReels E 0 (game0001.resetIdx g.fixed)
      ((run.GenScreen E 0).2.AddAct E 0 .FinishAct "gen_screen" (some (run.GenScreen E 0).1)
        none)).1
    (game0001.pickReels E 0 (game0001.resetIdx g.fixed)
      ((run.GenScreen E 0).2.AddAct E 0 .FinishAct "gen_screen" (some (run.GenScreen E 0).1)
        none)).2).1

/-- The calls a free round can make: no spin-level call, no trigger call, no `YieldResult`. -/
def Call.inFreeRound : Call R S → Bool
  | .GenScreen _ _ => true
  | .Pick _ _ _ => true
  | .FinishRound _ => true
  | .CalcScreen _ _ _ => true
  | .HitMapTmp _ _ => true
  | .GetTmpWin _ _ => true
  | .FinishStep _ => true
  | .AddAct _ _ label _ _ =>
    label = "screen" || label = "gen_screen" || label = "win" || label = "clear" ||
      label = "gravity" || label = "fillscreen"
  | .Clear _ _ => true
  | .Gravity _ _ _ _ => true
  | .FillScreen _ _ _ _ _ => true
  | _ => false

/-- An `AddAct` with label "trigger". -/
def Call.isTriggerAct : Call R S → Bool
  | .AddAct _ _ label _ _ => label = "trigger"
  | _ => false

/-- The win read back in a round of `game0000` in mode `m`. -/
def game0000.roundWin (m : Nat) (b : Int) (run : Run σ R S) : Int :=
  ((((run.GenScreen E m).2.AddAct E m .FinishAct "screen" (some (run.GenScreen E m).1)
    none).CalcScreen E m b (run.GenScreen E m).1).GetTmpWin E m).1

/-- The calls of a round of `game0000` in mode `m` up to its evaluation pass. -/
def game0000.roundHead (m : Nat) (b : Int) (run : Run σ R S) : List (Call R S) :=
  [ .GenScreen m (run.GenScreen E m).1,
    .AddAct m .FinishAct "screen" (some (run.GenScreen E m).1) none,
    .CalcScreen m b (run.GenScreen E m).1,
    .GetTmpWin m (game0000.roundWin E m b run) ] ++
  (if game0000.roundWin E m b run > 0 then [.AddAct m .FinishAct "win" none none] else [])

/-- The state in which the cascade loop of the base round starts: after `GenScreen`,
the action "gen_screen" and the pick loop. -/
def game0001.basePicks (g : game0001) (run : Run σ R S) : fixed0001 × Run σ R S :=
  game0001.pickReels E 0 (game0001.resetIdx g.fixed)
    ((run.GenScreen E 0).2.AddAct E 0 .FinishAct "gen_screen" (some (run.GenScreen E 0).1) none)

/-- The win the first evaluation pass of the base round reads back. -/
def game0001.baseFirstWin (g : game0001) (r : SpinRequest) (run : Run σ R S) : Int :=
  E.GetTmpWin 0
    (E.CalcScreen 0 r.BetMult (run.GenScreen E 0).1 (game0001.basePicks E g run).2.world)

/-- The hit map of the first evaluation pass of the base round. -/
def game0001.baseFirstHit (g : game0001) (r : SpinRequest) (run : Run σ R S) : List Int :=
  E.HitMapTmp 0
    (E.CalcScreen 0 r.BetMult (run.GenScreen E 0).1 (game0001.basePicks E g run).2.world)

/-- The base-mode run inside `game0000.GetResult` started in SDK state `w`. -/
def game0000.baseOf (scatter : SymbolType) (g : game0000) (r : SpinRequest) (w : σ) :
    Option R × game0000 × Run σ R S :=
  game0000.getBaseResult E scatter g r.BetMult ((⟨w, []⟩ : Run σ R S).StartNewSpin E r).2

/-- The run of `game0000.GetResult` after the base result `base` was appended. -/
def game0000.appended (scatter : SymbolType) (g : game0000) (r : SpinRequest) (w : σ)
    (base : R) : Run σ R S :=
  (game0000.baseOf E scatter g r w).2.2.AppendModeResult E (E.StartNewSpin r w).1 base

/-- The free-mode run inside `game0000.GetResult`. -/
def game0000.freeOf (scatter : SymbolType) (g : game0000) (r : SpinRequest) (w : σ)
    (base : R) : R × game0000 × Run σ R S :=
  game0000.getFreeResult E (game0000.baseOf E scatter g r w).2.1 r.BetMult
    (game0000.appended E scatter g r w base)

/-- The base-mode run inside `game0001.GetResult` started in SDK state `w`. -/
def game0001.baseOf (scatter : SymbolType) (g : game0001) (r : SpinRequest) (w : σ) :
    Option R × game0001 × Run σ R S :=
  game0001.getBaseResult E scatter g r ((⟨w, []⟩ : Run σ R S).StartNewSpin E r).2

/-- The run of `game0001.GetResult` after the base result `base` was appended. -/
def game0001.appended (scatter : SymbolType) (g : game0001) (r : SpinRequest) (w : σ)
    (base : R) : Run σ R S :=
  (game0001.baseOf E scatter g r w).2.2.AppendModeResult E (E.StartNewSpin r w).1 base

/-- The free-mode run inside `game0001.GetResult`. -/
def game0001.freeOf (scatter : SymbolType) (g : game0001) (r : SpinRequest) (w : σ)
    (base : R) : R × game0001 × Run σ R S :=
  game0001.getFreeResult E (game0001.baseOf E scatter g r w).2.1 r
    (game0001.appended E scatter g r w base)

end Auxiliary

/-! ## Records of a round -/

section Records
variable {σ R S : Type} (E : Substrate σ R S)

/-- A call of `UpdateTmpWin`. -/
def Call.isUpdateTmpWin : Call R S → Bool
  | .UpdateTmpWin _ _ => true
  | _ => false

/-- What the base round of `game0001` logs after its cascade loop when the trigger
code is `t`: the write of the code, for a non-zero code the scatter payout and the
"trigger" action with the extension state `ext`, then `FinishRound`, `YieldResult`. -/
def game0001.baseEnd (t pay : Int) (ext : ext0001) (res : R) : List (Call R S) :=
  Call.SetTrigger 0 t ::
    ((if t ≠ 0 then
        [Call.UpdateTmpWin 0 pay, Call.AddAct 0 .FinishAct "trigger" none (some (.e0001 ext))]
      else []) ++ [Call.FinishRound 0, Call.YieldResult 0 res])

/-- The state in which the cascade loop of a free round starts: after `GenScreen`,
the action "gen_screen", `resetIdx` and the pick loop. -/
def game0001.freePicks (fix : fixed0001) (run : Run σ R S) : fixed0001 × Run σ R S :=
  game0001.pickReels E 1 (game0001.resetIdx fix)
    ((run.GenScreen E 1).2.AddAct E 1 .FinishAct "gen_screen" (some (run.GenScreen E 1).1) none)

/-- The win the first evaluation pass of a free round reads back. -/
def game0001.freeFirstWin (b : Int) (fix : fixed0001) (run : Run σ R S) : Int :=
  E.GetTmpWin 1 (E.CalcScreen 1 b (run.GenScreen E 1).1 (game0001.freePicks E fix run).2.world)

/-- The hit map of the first evaluation pass of a free round. -/
def game0001.freeFirstHit (b : Int) (fix : fixed0001) (run : Run σ R S) : List Int :=
  E.HitMapTmp 1 (E.CalcScreen 1 b (run.GenScreen E 1).1 (game0001.freePicks E fix run).2.world)

/-- The label of an `AddAct` call. -/
def Call.label? : Call R S → Option String
  | .AddAct _ _ label _ _ => some label
  | _ => none

/-- The labels of the actions recorded in a log, in order. -/
def actLabels (calls : List (Call R S)) : List String := calls.filterMap Call.label?

/-- The labels of `k` winning passes. -/
def passLabels : Nat → List String
  | 0 => []
  | k + 1 => "win" :: "clear" :: "gravity" :: "fillscreen" :: passLabels k

/-- A log of transform calls made of triples `Clear`, `Gravity`, `FillScreen` in this
order, where `Gravity` works on the screen `Clear` returned and `FillScreen` on the
screen and on the `screenFillPos` that `Gravity` returned. -/
inductive TransformRuns (m : Nat) : List (Call R S) → Prop
  | done : TransformRuns m []
  | pass (screen : Screen) (hit pos idx : List Int) (rest : List (Call R S))
      (h : TransformRuns m rest) :
      TransformRuns m
        (Call.Clear screen hit ::
         Call.Gravity (E.Clear screen hit) (E.Cols m) (E.Rows m) pos ::
         Call.FillScreen (E.Gravity (E.Clear screen hit) (E.Cols m) (E.Rows m) pos).1 m
           (E.Gravity (E.Clear screen hit) (E.Cols m) (E.Rows m) pos).2 idx (E.Cols m) :: rest)

end Records

/-! ## Construction of the logic units -/

/-- `spec.ScreenSetting`, the fields the constructors read. -/
structure ScreenSetting where
  Columns : Int
  ScreenSize : Int
deriving DecidableEq, Repr

/-- `spec.SymbolSetting`, the field the constructors read. -/
structure SymbolSetting where
  SymbolTypes : List SymbolType
deriving DecidableEq, Repr

/-- One entry of `GameSetting.GameModeSettings`. -/
structure GameModeSetting where
  ScreenSetting : ScreenSetting
  SymbolSetting : SymbolSetting
deriving DecidableEq, Repr

/-- `spec.GameSetting`: the mode settings, and the rest of the setting (of a type `Y`
left open), which only `spec.DecodeFixed` reads. -/
structure GameSetting (Y : Type) where
  GameModeSettings : List GameModeSetting
  rest : Y

/-- `slot.Game`, the fields the constructors read. -/
structure Game (Y : Type) where
  GameSetting : GameSetting Y
  IsSim : Bool

/-- `make([]int, n)`: `n` zeros; panics for a negative `n`. -/
def makeInts (n : Int) : Option (List Int) :=
  if n < 0 then none else some (List.replicate n.toNat 0)

/-- `buildGame0000`.  `DecodeFixed` stands for `spec.DecodeFixed(gh.GameSetting, g.fixed)`:
it returns the error, or the configuration it decoded into `g.fixed`.  The outer
result is `none` when the constructor panics (no mode setting at index 0, negative
screen size); `some (.error err)` is the return `nil, err` and `some (.ok g)` the
return `g, nil`. -/
def buildGame0000 {Y ε : Type} (DecodeFixed : GameSetting Y → Except ε fixed0000)
    (gh : Game Y) : Option (Except ε game0000) :=
  match DecodeFixed gh.GameSetting with
  | .error err => some (.error err)
  | .ok fixed =>
    match gh.GameSetting.GameModeSettings[0]? with
    | none => none
    | some m =>
      let fixed := { fixed with symboltypes := m.SymbolSetting.SymbolTypes }
      match game0000.newext m.ScreenSetting.ScreenSize gh.IsSim with
      | none => none
      | some ext => some (.ok { fixed := fixed, ext := ext })

/-- `buildGame0001`, with the same conventions; it also panics for a negative number
of columns. -/
def buildGame0001 {Y ε : Type} (DecodeFixed : GameSetting Y → Except ε fixed0001)
    (g : Game Y) : Option (Except ε game0001) :=
  match DecodeFixed g.GameSetting with
  | .error err => some (.error err)
  | .ok fix =>
    match g.GameSetting.GameModeSettings[0]? with
    | none => none
    | some m =>
      match h1 : makeInts m.ScreenSetting.Columns, h2 : makeInts m.ScreenSetting.Columns with
      | some idx, some pos =>
        let fix : fixed0001 :=
          { fix with
            fillReelsIdx := idx
            screenFillPos := pos
            symbolTypes := m.SymbolSetting.SymbolTypes
            sameLen := congrArg List.length (Option.some.inj (h1.symm.trans h2)) }
        match game0001.newext m.ScreenSetting.ScreenSize g.IsSim with
        | none => none
        | some ext => some (.ok { fixed := fix, ext := ext })
      | _, _ => none

/-! ## Command-line entry points

`cmd/svr` and `cmd/run` are two programs, each with its own `type config struct`;
the two records are kept apart by the name of their directory. -/

/-- `svrcfg.RunMode`, the two constants `normSvrMode` returns. -/
inductive CmdSvr.RunMode where
  | ModeDev
  | ModeProd
deriving DecidableEq, Repr

/-- `type config struct` of `cmd/svr`: the flag values. -/
structure CmdSvr.config where
  Log : String
  Mode : String
  SlotBufSize : Int
deriving DecidableEq, Repr

/-- `config.normSvrMode`: the `switch cfg.Mode` with the cases "dev", "prod" and
`default`. -/
def CmdSvr.config.normSvrMode (cfg : CmdSvr.config) : CmdSvr.RunMode :=
  match cfg.Mode with
  | "dev" => .ModeDev
  | "prod" => .ModeProd
  | _ => .ModeProd

/-- `type config struct` of `cmd/run`; `id` is a `spec.GID` (unsigned). -/
structure CmdRun.config where
  name : String
  id : Nat
  worker : Int
  player : Int
  bets : Int
  spins : Int
  betMode : Int
  seed : Int
  pprofmode : String
deriving DecidableEq, Repr

/-- The two lines `config.valid` can print, with the number they show. -/
inductive CmdRun.Notice where
  | tooMuchPlayers (player : Int)
  | tooMuchSpins (spins : Int)
deriving DecidableEq, Repr

/-- `config.valid`.  The first component lists what was printed; the second is
`.error msg` when `log.Fatal(msg)` ends the process, and otherwise the configuration
that `valid` leaves behind when it returns. -/
def CmdRun.config.valid (cfg : CmdRun.config) :
    List CmdRun.Notice × Except String CmdRun.config :=
  if cfg.worker < 1 then ([], .error "value err : workers must > 0")
  else if cfg.player < 1 then ([], .error "value err : player must > 0")
  else
    -- resize players
    let out := if cfg.player > 100000 then [CmdRun.Notice.tooMuchPlayers cfg.player] else []
    let cfg := if cfg.player > 100000 then { cfg with player := 100000 } else cfg
    if cfg.player > 1 ∧ cfg.bets < 1 then (out, .error "value err : balance must >= 1")
    else if cfg.spins < 1 then (out, .error "value err : spins must > 0")
    else if cfg.player > 1 ∧ cfg.spins > 15000 then
      (out ++ [CmdRun.Notice.tooMuchSpins cfg.spins], .ok { cfg with spins := 15000 })
    else (out, .ok cfg)

/-! ## A scripted SDK for concrete runs -/

/-- State of the scripted SDK: the wins the coming evaluations report, the win of
the current pass and the trigger code last written. -/
structure Script where
  wins : List Int
  tmpWin : Int
  trig : Int
deriving DecidableEq, Repr

/-- An SDK whose generator always returns `screen`, whose evaluator reports the
wins of the script one after the other (0 once the script is used up) and whose
transforms leave the screen as it is.  Mode results are identified with the
trigger code they carry, the spin record with the bet multiplier of the request. -/
def scripted (screen : Screen) : Substrate Script Int Int where
  StartNewSpin := fun r w => (r.BetMult, w)
  AppendModeResult := fun _ _ w => w
  End := fun _ w => w
  GenScreen := fun _ w => (screen, w)
  Cols := fun _ => 0
  Rows := fun _ => 0
  CalcScreen := fun _ _ _ w => { w with wins := w.wins.tail, tmpWin := w.wins.headD 0 }
  HitMapTmp := fun _ _ => []
  GetTmpWin := fun _ w => w.tmpWin
  AddAct := fun _ _ _ _ _ w => w
  FinishStep := fun _ w => w
  FinishRound := fun _ w => { w with tmpWin := 0 }
  UpdateTmpWin := fun _ v w => { w with tmpWin := w.tmpWin + v }
  SetTrigger := fun _ v w => { w with trig := v }
  YieldResult := fun _ w => (w.trig, { w with trig := 0 })
  Trigger := fun res _ => res
  Pick := fun _ _ w => (0, w)
  Clear := fun s _ => s
  Gravity := fun s _ _ p => (s, p)
  FillScreen := fun s _ p x _ => (s, p, x)
  Gravity_len := fun _ _ _ _ => rfl
  FillScreen_pos_len := fun _ _ _ _ _ => rfl
  FillScreen_idx_len := fun _ _ _ _ _ => rfl

/-- A "demo_cascade" unit over three columns: symbol 1 is the scatter of the table
[0, 1, 0], threshold 3, scatter pay 10. -/
def demoCascade (maxStep freeRounds : Int) : game0001 where
  fixed :=
    { MaxStep := maxStep, FreeRounds := freeRounds, Trigger := 3, ScatterPay := 10,
      fillReelsIdx := [0, 0, 0], screenFillPos := [0, 0, 0], symbolTypes := [0, 1, 0],
      sameLen := rfl }
  ext := { Triggered := false, ScatterCount := 0, ScatterHitMap := [], isSim := false }

/-- A "demo_normal" unit with the same table. -/
def demoNormal (freeRound : Int) : game0000 where
  fixed := { FreeRound := freeRound, DemoB := [], DemoC := "", symboltypes := [0, 1, 0] }
  ext := { Triggered := false, ScatterCount := 0, ScatterHitMap := [], isSim := false }

/-- A game handle with one 3 by 5 mode over the table [0, 1, 0]; `rest` is the text
of the declarative source. -/
def demoGame (src : String) (isSim : Bool) : Game String where
  GameSetting :=
    { GameModeSettings := [⟨⟨5, 15⟩, ⟨[0, 1, 0]⟩⟩], rest := src }
  IsSim := isSim

/-- A decoder for "demo_normal" that rejects the empty source. -/
def demoDecode0 (gs : GameSetting String) : Except String fixed0000 :=
  if gs.rest = "" then .error "no fixed section"
  else .ok { FreeRound := 2, DemoB := [], DemoC := gs.rest, symboltypes := [] }

/-- A decoder for "demo_cascade" that rejects the empty source. -/
def demoDecode1 (gs : GameSetting String) : Except String fixed0001 :=
  if gs.rest = "" then .error "no fixed section"
  else .ok { MaxStep := 5, FreeRounds := 2, Trigger := 3, ScatterPay := 10,
             fillReelsIdx := [], screenFillPos := [], symbolTypes := [], sameLen := rfl }

/-! ## The extension state at the level of slices

`ScatterHitMap` is a slice header into a backing array that `Reset` keeps, `append`
overwrites or replaces, and `Snapshot` copies.  The definitions below follow the
same source lines as the list-level ones above, with the heap of backing arrays
passed explicitly; `ext0000` and `ext0001` have the same fields and the same text
for `Reset` and `Snapshot`, so one record stands for both. -/

/-- A Go slice header of a `[]int`: address of the backing array, length, capacity. -/
structure Slice where
  addr : Nat
  len : Nat
  cap : Nat
deriving DecidableEq, Repr

/-- The backing arrays of all `[]int` slices; an address is an index, and an
allocation (`make`, a growing `append`) adds an array at the end. -/
abbrev Heap := List (List Int)

/-- The array at an address. -/
def Heap.arr (h : Heap) (a : Nat) : List Int := (h[a]?).getD []

/-- The elements `s[0], ..., s[len-1]` of a slice. -/
def Slice.elems (s : Slice) (h : Heap) : List Int := (h.arr s.addr).take s.len

/-- The slice is inside an allocated array. -/
def Slice.Valid (s : Slice) (h : Heap) : Prop :=
  s.addr < h.length ∧ s.len ≤ s.cap ∧ s.cap ≤ (h.arr s.addr).length

instance (s : Slice) (h : Heap) : Decidable (s.Valid h) := by
  unfold Slice.Valid; infer_instance

/-- Go `copy(dst, src)` on the contents: the first `min(len(dst), len(src))` cells
of `dst` are overwritten. -/
def copyInto (dst src : List Int) : List Int :=
  src.take dst.length ++ dst.drop src.length

/-- Go `append(s, v)`: written in place when the capacity allows it, otherwise the
elements move to a fresh array whose capacity the runtime chooses (`grow`, at least
one more than the length). -/
def Slice.append (grow : Nat → Nat) (s : Slice) (v : Int) (h : Heap) : Slice × Heap :=
  if s.len < s.cap then
    ({ s with len := s.len + 1 }, h.set s.addr ((h.arr s.addr).set s.len v))
  else
    (⟨h.length, s.len + 1, max (grow s.cap) (s.len + 1)⟩,
     h ++ [s.elems h ++ [v] ++ List.replicate (max (grow s.cap) (s.len + 1) - (s.len + 1)) 0])

/-- The live extension state as the code holds it (`*ext0000`, `*ext0001`): the hit
map is a slice header. -/
structure ExtRef where
  Triggered : Bool
  ScatterCount : Int
  ScatterHitMap : Slice
  isSim : Bool
deriving DecidableEq, Repr

/-- `Reset`: `e.ScatterHitMap = e.ScatterHitMap[:0]` keeps address and capacity. -/
def ExtRef.Reset (e : ExtRef) : ExtRef :=
  { e with Triggered := false, ScatterCount := 0,
           ScatterHitMap := { e.ScatterHitMap with len := 0 } }

/-- `Snapshot`: `hits := make([]int, len(e.ScatterHitMap)); copy(hits, e.ScatterHitMap)`
allocates a new array; the live record and the existing arrays are only read. -/
def ExtRef.Snapshot (e : ExtRef) (h : Heap) : Option ExtRef × Heap :=
  if e.isSim then (none, h)
  else
    (some { Triggered := e.Triggered, ScatterCount := e.ScatterCount,
            ScatterHitMap := ⟨h.length, e.ScatterHitMap.len, e.ScatterHitMap.len⟩,
            isSim := false },
     h ++ [copyInto (List.replicate e.ScatterHitMap.len 0) (e.ScatterHitMap.elems h)])

/-- The scan loop of `trigger` on the slice: as `scanLoop`, with `append` on the heap. -/
def scanLoopRef (grow : Nat → Nat) (scatter : SymbolType) (symtype : List SymbolType) :
    List Int → Nat → Int × Slice × Heap → Bool × (Int × Slice × Heap)
  | [], _, acc => (true, acc)
  | x :: rest, i, (cnt, hits, h) =>
    if x < 0 then (false, (cnt, hits, h))
    else
      match symtype[x.toNat]? with
      | none => (false, (cnt, hits, h))
      | some t =>
        if t = scatter then
          scanLoopRef grow scatter symtype rest (i + 1)
            (cnt + 1, (hits.append grow (i : Int) h).1, (hits.append grow (i : Int) h).2)
        else
          scanLoopRef grow scatter symtype rest (i + 1) (cnt, hits, h)

/-- `trigger` of either logic on the live record: `pass` is the comparison
(`ScatterCount > 2` in `game0000`, `ScatterCount >= fixed.Trigger` in `game0001`). -/
def ExtRef.trigger (grow : Nat → Nat) (scatter : SymbolType) (symtype : List SymbolType)
    (pass : Int → Bool) (e : ExtRef) (h : Heap) (screen : Screen) :
    Option Int × ExtRef × Heap :=
  let ext := e.Reset
  match scanLoopRef grow scatter symtype screen 0 (ext.ScatterCount, ext.ScatterHitMap, h) with
  | (false, (c, s, h2)) => (none, { ext with ScatterCount := c, ScatterHitMap := s }, h2)
  | (true, (c, s, h2)) =>
    if pass c then
      (some 1, { ext with ScatterCount := c, ScatterHitMap := s, Triggered := true }, h2)
    else
      (some 0, { ext with ScatterCount := c, ScatterHitMap := s }, h2)

/-- A mutation of the live extension state: a `Reset` or a `trigger` on a screen. -/
inductive ExtOp
  | reset
  | trigger (screen : Screen)
deriving DecidableEq, Repr

/-- Run a sequence of mutations on the live record. -/
def runExtOps (grow : Nat → Nat) (scatter : SymbolType) (symtype : List SymbolType)
    (pass : Int → Bool) : List ExtOp → ExtRef × Heap → ExtRef × Heap
  | [], st => st
  | .reset :: ops, st => runExtOps grow scatter symtype pass ops (st.1.Reset, st.2)
  | .trigger screen :: ops, st =>
    runExtOps grow scatter symtype pass ops
      (ExtRef.trigger grow scatter symtype pass st.1 st.2 screen).2

/-- The list-level state that a live record of `game0000` stands for. -/
def ExtRef.view0000 (e : ExtRef) (h : Heap) : ext0000 :=
  ⟨e.Triggered, e.ScatterCount, e.ScatterHitMap.elems h, e.isSim⟩

/-- The list-level state that a live record of `game0001` stands for. -/
def ExtRef.view0001 (e : ExtRef) (h : Heap) : ext0001 :=
  ⟨e.Triggered, e.ScatterCount, e.ScatterHitMap.elems h, e.isSim⟩

/-- The array at address `a` holds `A` and the slice `s` does not point to it. -/
def Apart (a : Nat) (A : List Int) (s : Slice) (h : Heap) : Prop :=
  s.addr ≠ a ∧ a < h.length ∧ Heap.arr h a = A

/-! ## The scan loop -/

theorem scatterPositions_cons (scatter : SymbolType) (symtype : List SymbolType) (x : Int)
    (xs : List Int) :
    scatterPositions scatter symtype (x :: xs) =
      (if isScatter scatter symtype x then [0] else []) ++
        (scatterPositions scatter symtype xs).map Nat.succ := by
  unfold scatterPositions
  rw [List.length_cons, List.range_succ_eq_map, List.filter_cons, List.filter_map]
  by_cases hx : isScatter scatter symtype x = true
  · simp [hx, Function.comp_def]
  · simp [hx, Function.comp_def]

theorem scanLoop_ok (scatter : SymbolType) (symtype : List SymbolType) (rest : List Int)
    (h : ScreenInTable symtype rest) (i : Nat) (cnt : Int) (hits : List Int) :
    scanLoop scatter symtype rest i (cnt, hits) =
      (true, (cnt + ((scatterPositions scatter symtype rest).length : Int),
              hits ++ (scatterPositions scatter symtype rest).map (fun j => ((i + j : Nat) : Int)))) := by
  induction rest generalizing i cnt hits with
  | nil => simp [scanLoop, scatterPositions]
  | cons x xs ih =>
    have hx := h x (List.mem_cons_self x xs)
    have hxs : ScreenInTable symtype xs := fun y hy => h y (List.mem_cons_of_mem x hy)
    have hneg : ¬ x < 0 := not_lt.mpr hx.1
    have hlt : x.toNat < symtype.length := hx.2
    have hget : symtype[x.toNat]? = some symtype[x.toNat] := List.getElem?_eq_getElem hlt
    rw [scatterPositions_cons]
    unfold scanLoop
    simp only [hneg, if_false, hget]
    by_cases ht : symtype[x.toNat] = scatter
    · have hs : isScatter scatter symtype x = true := by
        simp [isScatter, hx.1, hget, ht]
      simp only [ht, if_true, hs]
      rw [ih hxs]
      simp [Function.comp_def, Nat.succ_eq_add_one]
      constructor
      · ring
      · intro a _; omega
    · have hs : isScatter scatter symtype x = false := by
        simp [isScatter, hget, ht]
      simp only [ht, if_false, hs]
      rw [ih hxs]
      simp [Function.comp_def, Nat.succ_eq_add_one]
      intro a _; omega

theorem scanLoop_inv (scatter : SymbolType) (symtype : List SymbolType) (rest : List Int)
    (i : Nat) (cnt : Int) (hits : List Int) (h : cnt = hits.length) :
    (scanLoop scatter symtype rest i (cnt, hits)).2.1 =
      ((scanLoop scatter symtype rest i (cnt, hits)).2.2.length : Int) := by
  induction rest generalizing i cnt hits with
  | nil => simpa [scanLoop] using h
  | cons x xs ih =>
    unfold scanLoop
    split
    · simpa using h
    · split
      · simpa using h
      · split
        · exact ih _ _ _ (by simp [h])
        · exact ih _ _ _ h

/-! ## The trigger evaluator on a screen inside the table -/

theorem game0000.trigger_ok_normal (scatter : SymbolType) (g : game0000) (screen : Screen)
    (h : ScreenInTable g.fixed.symboltypes screen) :
    game0000.trigger scatter g screen =
      (some (if ((scatterPositions scatter g.fixed.symboltypes screen).length : Int) > 2
             then 1 else 0),
       { g with ext :=
          { Triggered := decide
              (((scatterPositions scatter g.fixed.symboltypes screen).length : Int) > 2),
            ScatterCount := ((scatterPositions scatter g.fixed.symboltypes screen).length : Int),
            ScatterHitMap :=
              (scatterPositions scatter g.fixed.symboltypes screen).map Int.ofNat,
            isSim := g.ext.isSim } }) := by
  unfold game0000.trigger
  simp only [ext0000.Reset, scanLoop_ok scatter _ screen h]
  by_cases hc : ((scatterPositions scatter g.fixed.symboltypes screen).length : Int) > 2
  · simp [hc]
  · simp [hc]

theorem game0001.trigger_ok_cascade (scatter : SymbolType) (g : game0001) (screen : Screen)
    (h : ScreenInTable g.fixed.symbolTypes screen) :
    game0001.trigger scatter g screen =
      (some (if ((scatterPositions scatter g.fixed.symbolTypes screen).length : Int)
                  ≥ g.fixed.Trigger then 1 else 0),
       { g with ext :=
          { Triggered := decide
              (((scatterPositions scatter g.fixed.symbolTypes screen).length : Int)
                ≥ g.fixed.Trigger),
            ScatterCount := ((scatterPositions scatter g.fixed.symbolTypes screen).length : Int),
            ScatterHitMap :=
              (scatterPositions scatter g.fixed.symbolTypes screen).map Int.ofNat,
            isSim := g.ext.isSim } }) := by
  unfold game0001.trigger
  simp only [ext0001.Reset, scanLoop_ok scatter _ screen h]
  by_cases hc : ((scatterPositions scatter g.fixed.symbolTypes screen).length : Int)
      ≥ g.fixed.Trigger
  · simp [hc]
  · simp [hc]

theorem scatterPositions_increasing (scatter : SymbolType) (symtype : List SymbolType)
    (screen : Screen) :
    List.Pairwise (fun a b : Int => a < b)
      ((scatterPositions scatter symtype screen).map Int.ofNat) := by
  rw [List.pairwise_map]
  unfold scatterPositions
  apply List.Pairwise.filter
  exact (List.pairwise_lt_range screen.length).imp (fun hab => Int.ofNat_lt.mpr hab)

theorem game0000.trigger_fixed_normal (scatter : SymbolType) (g : game0000) (screen : Screen) :
    (game0000.trigger scatter g screen).2.fixed = g.fixed ∧
    (game0000.trigger scatter g screen).2.ext.isSim = g.ext.isSim := by
  unfold game0000.trigger
  simp only []
  split
  · simp [ext0000.Reset]
  · split <;> simp [ext0000.Reset]

theorem game0001.trigger_fixed_cascade (scatter : SymbolType) (g : game0001) (screen : Screen) :
    (game0001.trigger scatter g screen).2.fixed = g.fixed ∧
    (game0001.trigger scatter g screen).2.ext.isSim = g.ext.isSim := by
  unfold game0001.trigger
  simp only []
  split
  · simp [ext0001.Reset]
  · split <;> simp [ext0001.Reset]

theorem game0000.trigger_inv_normal (scatter : SymbolType) (g : game0000) (screen : Screen) :
    (game0000.trigger scatter g screen).2.ext.Inv := by
  have h := scanLoop_inv scatter g.fixed.symboltypes screen 0 0 [] (by simp)
  unfold game0000.trigger ext0000.Inv
  simp only [ext0000.Reset]
  split
  · rename_i c hh heq
    rw [heq] at h
    simpa using h
  · rename_i c hh heq
    rw [heq] at h
    split <;> simpa using h

theorem game0001.trigger_inv_cascade (scatter : SymbolType) (g : game0001) (screen : Screen) :
    (game0001.trigger scatter g screen).2.ext.Inv := by
  have h := scanLoop_inv scatter g.fixed.symbolTypes screen 0 0 [] (by simp)
  unfold game0001.trigger ext0001.Inv
  simp only [ext0001.Reset]
  split
  · rename_i c hh heq
    rw [heq] at h
    simpa using h
  · rename_i c hh heq
    rw [heq] at h
    split <;> simpa using h

theorem game0000.trigger_congr_normal (scatter : SymbolType) (g g2 : game0000) (screen : Screen)
    (hf : g.fixed = g2.fixed) (hs : g.ext.isSim = g2.ext.isSim) :
    game0000.trigger scatter g screen = game0000.trigger scatter g2 screen := by
  obtain ⟨f, e⟩ := g
  obtain ⟨f2, e2⟩ := g2
  simp only at hf hs
  subst hf
  unfold game0000.trigger
  simp only [ext0000.Reset, hs]

theorem game0001.trigger_congr_cascade (scatter : SymbolType) (g g2 : game0001) (screen : Screen)
    (hf : g.fixed = g2.fixed) (hs : g.ext.isSim = g2.ext.isSim) :
    game0001.trigger scatter g screen = game0001.trigger scatter g2 screen := by
  obtain ⟨f, e⟩ := g
  obtain ⟨f2, e2⟩ := g2
  simp only at hf hs
  subst hf
  unfold game0001.trigger
  simp only [ext0001.Reset, hs]

/-! ## Call logs: lemmas -/

section Logs
variable {σ R S : Type} (E : Substrate σ R S)

@[simp] theorem Run.StartNewSpin_calls (run : Run σ R S) (r : SpinRequest) :
    (run.StartNewSpin E r).2.calls
      = run.calls ++ [.StartNewSpin r (run.StartNewSpin E r).1] := rfl

@[simp] theorem Run.AppendModeResult_calls (run : Run σ R S) (sr : S) (res : R) :
    (run.AppendModeResult E sr res).calls = run.calls ++ [.AppendModeResult sr res] := rfl

@[simp] theorem Run.End_calls (run : Run σ R S) (sr : S) :
    (run.End E sr).calls = run.calls ++ [.End sr] := rfl

@[simp] theorem Run.GenScreen_calls (run : Run σ R S) (m : Nat) :
    (run.GenScreen E m).2.calls = run.calls ++ [.GenScreen m (run.GenScreen E m).1] := rfl

@[simp] theorem Run.AddAct_calls (run : Run σ R S) (m : Nat) (k : ActKind) (l : String)
    (s : Option Screen) (e : Option Extend) :
    (run.AddAct E m k l s e).calls = run.calls ++ [.AddAct m k l s e] := rfl

@[simp] theorem Run.Pick_calls (run : Run σ R S) (m i : Nat) :
    (run.Pick E m i).2.calls = run.calls ++ [.Pick m i (run.Pick E m i).1] := rfl

@[simp] theorem Run.CalcScreen_calls (run : Run σ R S) (m : Nat) (b : Int) (s : Screen) :
    (run.CalcScreen E m b s).calls = run.calls ++ [.CalcScreen m b s] := rfl

@[simp] theorem Run.HitMapTmp_calls (run : Run σ R S) (m : Nat) :
    (run.HitMapTmp E m).2.calls = run.calls ++ [.HitMapTmp m (run.HitMapTmp E m).1] := rfl

@[simp] theorem Run.GetTmpWin_calls (run : Run σ R S) (m : Nat) :
    (run.GetTmpWin E m).2.calls = run.calls ++ [.GetTmpWin m (run.GetTmpWin E m).1] := rfl

@[simp] theorem Run.FinishStep_calls (run : Run σ R S) (m : Nat) :
    (run.FinishStep E m).calls = run.calls ++ [.FinishStep m] := rfl

@[simp] theorem Run.FinishRound_calls (run : Run σ R S) (m : Nat) :
    (run.FinishRound E m).calls = run.calls ++ [.FinishRound m] := rfl

@[simp] theorem Run.UpdateTmpWin_calls (run : Run σ R S) (m : Nat) (v : Int) :
    (run.UpdateTmpWin E m v).calls = run.calls ++ [.UpdateTmpWin m v] := rfl

@[simp] theorem Run.SetTrigger_calls (run : Run σ R S) (m : Nat) (v : Int) :
    (run.SetTrigger E m v).calls = run.calls ++ [.SetTrigger m v] := rfl

@[simp] theorem Run.YieldResult_calls (run : Run σ R S) (m : Nat) :
    (run.YieldResult E m).2.calls = run.calls ++ [.YieldResult m (run.YieldResult E m).1] := rfl

@[simp] theorem Run.logOp_calls (run : Run σ R S) (c : Call R S) :
    (run.logOp c).calls = run.calls ++ [c] := rfl

theorem game0001.pickLoop_calls (m k i : Nat) (idx : List Int) (run : Run σ R S) :
    ∃ new, (game0001.pickLoop E m k i idx run).2.calls = run.calls ++ new ∧
      ∀ c ∈ new, Call.isPick c = true := by
  induction k generalizing i idx run with
  | zero => exact ⟨[], by simp [game0001.pickLoop]⟩
  | succ k ih =>
    obtain ⟨new, h1, h2⟩ := ih (i + 1) (idx.set i (run.Pick E m i).1) (run.Pick E m i).2
    refine ⟨Call.Pick m i (run.Pick E m i).1 :: new, ?_, ?_⟩
    · simp [game0001.pickLoop, h1]
    · intro c hc
      rcases List.mem_cons.mp hc with rfl | hc
      · rfl
      · exact h2 c hc

theorem game0001.pickReels_calls (m : Nat) (fix : fixed0001) (run : Run σ R S) :
    ∃ new, (game0001.pickReels E m fix run).2.calls = run.calls ++ new ∧
      ∀ c ∈ new, Call.isPick c = true :=
  game0001.pickLoop_calls E m _ 0 _ run

theorem game0001.cascadeStep_calls (m : Nat) (hit : List Int) (screen : Screen)
    (fix : fixed0001) (run : Run σ R S) (b : Int) (win : Int) :
    (game0001.cascadeStep E m hit screen fix run).2.2.calls =
      run.calls ++ (winningPass E m b screen hit win fix.screenFillPos fix.fillReelsIdx).drop 3 := by
  simp [game0001.cascadeStep, winningPass, fixed0001.withScratch]

theorem game0001.cascade_calls (m : Nat) (b : Int) (n : Nat) (screen : Screen)
    (fix : fixed0001) (run : Run σ R S) :
    ∃ new, (game0001.cascade E m b n screen fix run).2.2.calls = run.calls ++ new ∧
      CascadeTrace E m b n new := by
  induction n generalizing screen fix run with
  | zero => exact ⟨[], by simp [game0001.cascade], CascadeTrace.cap⟩
  | succ n ih =>
    unfold game0001.cascade
    simp only []
    split
    · rename_i hw
      refine ⟨zeroPass m b screen ((run.CalcScreen E m b screen).HitMapTmp E m).1, ?_, ?_⟩
      · simp [zeroPass, hw]
      · exact CascadeTrace.stop n _ _
    · rename_i hw
      obtain ⟨rest, h1, h2⟩ := ih
        (game0001.cascadeStep E m ((run.CalcScreen E m b screen).HitMapTmp E m).1 screen fix
          (((run.CalcScreen E m b screen).HitMapTmp E m).2.GetTmpWin E m).2).1
        (game0001.cascadeStep E m ((run.CalcScreen E m b screen).HitMapTmp E m).1 screen fix
          (((run.CalcScreen E m b screen).HitMapTmp E m).2.GetTmpWin E m).2).2.1
        (game0001.cascadeStep E m ((run.CalcScreen E m b screen).HitMapTmp E m).1 screen fix
          (((run.CalcScreen E m b screen).HitMapTmp E m).2.GetTmpWin E m).2).2.2
      refine ⟨winningPass E m b screen ((run.CalcScreen E m b screen).HitMapTmp E m).1
        ((((run.CalcScreen E m b screen).HitMapTmp E m).2.GetTmpWin E m).1)
        fix.screenFillPos fix.fillReelsIdx ++ rest, ?_, ?_⟩
      · rw [h1, game0001.cascadeStep_calls E m _ screen fix _ b
          ((((run.CalcScreen E m b screen).HitMapTmp E m).2.GetTmpWin E m).1)]
        simp [winningPass]
      · exact CascadeTrace.step n _ _ _ _ _ rest hw h2

theorem countP_zero_of_all {α : Type} (p q : α → Bool) (h : ∀ c, q c = true → p c = false)
    (l : List α) (hl : ∀ c ∈ l, q c = true) : l.countP p = 0 := by
  rw [List.countP_eq_zero]
  intro c hc
  simp [h c (hl c hc)]

theorem filter_nil_of_all {α : Type} (p q : α → Bool) (h : ∀ c, q c = true → p c = false)
    (l : List α) (hl : ∀ c ∈ l, q c = true) : l.filter p = [] := by
  rw [List.filter_eq_nil_iff]
  intro c hc
  simp [h c (hl c hc)]

theorem winningPass_inCascade (m : Nat) (b : Int) (screen : Screen) (hit : List Int)
    (win : Int) (pos idx : List Int) :
    ∀ c ∈ (winningPass E m b screen hit win pos idx : List (Call R S)),
      Call.inCascade c = true := by
  intro c hc
  simp only [winningPass, List.mem_cons, List.mem_singleton, List.not_mem_nil, or_false] at hc
  rcases hc with h | h | h | h | h | h | h | h | h | h <;> subst h <;> simp [Call.inCascade]

theorem CascadeTrace.inCascade {m : Nat} {b : Int} {n : Nat} {new : List (Call R S)}
    (h : CascadeTrace E m b n new) : ∀ c ∈ new, Call.inCascade c = true := by
  induction h with
  | cap => simp
  | stop n screen hit =>
    intro c hc
    simp only [zeroPass, List.mem_cons, List.mem_singleton, List.not_mem_nil, or_false] at hc
    rcases hc with h | h | h | h <;> subst h <;> simp [Call.inCascade]
  | step n screen hit win pos idx rest hw _ ih =>
    intro c hc
    rcases List.mem_append.mp hc with hc | hc
    · exact winningPass_inCascade E m b screen hit win pos idx c hc
    · exact ih c hc

theorem CascadeTrace.calc_le {m : Nat} {b : Int} {n : Nat} {new : List (Call R S)}
    (h : CascadeTrace E m b n new) : new.countP Call.isCalcScreen ≤ n := by
  induction h with
  | cap => simp
  | stop n screen hit => simp [zeroPass, Call.isCalcScreen, List.countP_cons]
  | step n screen hit win pos idx rest hw _ ih =>
    rw [List.countP_append]
    have : (winningPass E m b screen hit win pos idx : List (Call R S)).countP
        Call.isCalcScreen = 1 := by
      simp [winningPass, Call.isCalcScreen, List.countP_cons]
    omega

theorem split_of_not_mem {α : Type} (z : α) (l1 l2 pre post : List α) (hz : z ∉ l1)
    (h : l1 ++ l2 = pre ++ z :: post) : ∃ mid, pre = l1 ++ mid ∧ l2 = mid ++ z :: post := by
  rcases List.append_eq_append_iff.mp h with ⟨a, h1, h2⟩ | ⟨c, h1, h2⟩
  · exact ⟨a, h1, h2⟩
  · cases c with
    | nil =>
      refine ⟨[], ?_, ?_⟩
      · simpa using h1.symm
      · simpa using h2.symm
    | cons y ys =>
      exfalso
      simp only [List.cons_append, List.cons.injEq] at h2
      apply hz
      rw [h1, h2.1]
      simp

/-- In the log of a cascade loop the only call after an evaluation with zero win is
the `FinishStep` of that pass. -/
theorem CascadeTrace.after_zero {m : Nat} {b : Int} {n : Nat} {new : List (Call R S)}
    (h : CascadeTrace E m b n new) (k : Nat) (pre post : List (Call R S))
    (hs : new = pre ++ Call.GetTmpWin k 0 :: post) : post = [Call.FinishStep m] := by
  induction h generalizing pre with
  | cap => simp at hs
  | stop n screen hit =>
    have h0 : (Call.GetTmpWin k 0 : Call R S) ∉
        ([Call.CalcScreen m b screen, Call.HitMapTmp m hit] : List (Call R S)) := by simp
    obtain ⟨mid, _, h2⟩ := split_of_not_mem _ _
      [Call.GetTmpWin m 0, Call.FinishStep m] pre post h0 (by simpa [zeroPass] using hs)
    cases mid with
    | nil =>
      simp only [List.nil_append, List.cons.injEq] at h2
      exact h2.2.symm
    | cons y ys =>
      simp only [List.cons_append, List.cons.injEq] at h2
      cases ys with
      | nil =>
        simp only [List.nil_append, List.cons.injEq] at h2
        exact absurd h2.2.1 (by simp)
      | cons y2 ys2 =>
        simp at h2
  | step n screen hit win pos idx rest hw _ ih =>
    have h0 : (Call.GetTmpWin k 0 : Call R S) ∉
        (winningPass E m b screen hit win pos idx : List (Call R S)) := by
      simp [winningPass]
      intro _ h
      exact hw h.symm
    obtain ⟨mid, _, h2⟩ := split_of_not_mem _ _ rest pre post h0 hs
    exact ih mid h2

/-! ## Rounds of "demo_cascade" -/

theorem game0001.cascade_fixed (m : Nat) (b : Int) (n : Nat) (screen : Screen)
    (fix : fixed0001) (run : Run σ R S) :
    ∃ idx pos h, (game0001.cascade E m b n screen fix run).2.1 = fix.withScratch idx pos h := by
  induction n generalizing screen fix run with
  | zero => exact ⟨fix.fillReelsIdx, fix.screenFillPos, fix.sameLen, rfl⟩
  | succ n ih =>
    unfold game0001.cascade
    simp only []
    split
    · exact ⟨fix.fillReelsIdx, fix.screenFillPos, fix.sameLen, rfl⟩
    · obtain ⟨idx, pos, h, e⟩ := ih
        (game0001.cascadeStep E m ((run.CalcScreen E m b screen).HitMapTmp E m).1 screen fix
          (((run.CalcScreen E m b screen).HitMapTmp E m).2.GetTmpWin E m).2).1
        (game0001.cascadeStep E m ((run.CalcScreen E m b screen).HitMapTmp E m).1 screen fix
          (((run.CalcScreen E m b screen).HitMapTmp E m).2.GetTmpWin E m).2).2.1
        (game0001.cascadeStep E m ((run.CalcScreen E m b screen).HitMapTmp E m).1 screen fix
          (((run.CalcScreen E m b screen).HitMapTmp E m).2.GetTmpWin E m).2).2.2
      exact ⟨idx, pos, h, by rw [e]; rfl⟩

theorem game0001.getBaseResult_calls_cascade (scatter : SymbolType) (g : game0001) (r : SpinRequest)
    (run : Run σ R S) :
    ∃ picks casc tail, (∀ c ∈ picks, Call.isPick c = true) ∧
      CascadeTrace E 0 r.BetMult g.fixed.MaxStep.toNat casc ∧
      BaseTail (game0001.getBaseResult E scatter g r run).1 tail ∧
      (game0001.getBaseResult E scatter g r run).2.2.calls =
        run.calls ++ (Call.GenScreen 0 (run.GenScreen E 0).1 ::
          Call.AddAct 0 .FinishAct "gen_screen" (some (run.GenScreen E 0).1) none ::
          (picks ++ casc ++ tail)) := by
  obtain ⟨picks, hp1, hp2⟩ := game0001.pickReels_calls E 0 (game0001.resetIdx g.fixed)
    ((run.GenScreen E 0).2.AddAct E 0 .FinishAct "gen_screen" (some (run.GenScreen E 0).1) none)
  obtain ⟨casc, hc1, hc2⟩ := game0001.cascade_calls E 0 r.BetMult g.fixed.MaxStep.toNat
    (run.GenScreen E 0).1
    (game0001.pickReels E 0 (game0001.resetIdx g.fixed)
      ((run.GenScreen E 0).2.AddAct E 0 .FinishAct "gen_screen" (some (run.GenScreen E 0).1)
        none)).1
    (game0001.pickReels E 0 (game0001.resetIdx g.fixed)
      ((run.GenScreen E 0).2.AddAct E 0 .FinishAct "gen_screen" (some (run.GenScreen E 0).1)
        none)).2
  rw [hp1] at hc1
  unfold game0001.getBaseResult
  simp only []
  split
  · rename_i g2 heq
    exact ⟨picks, casc, [], hp2, hc2, Or.inl ⟨rfl, rfl⟩, by simp [hc1]⟩
  · rename_i t g2 heq
    by_cases ht : t > 0
    · refine ⟨picks, casc, _, hp2, hc2, Or.inr ⟨_, t, _, rfl, rfl, Or.inr (Or.inr
        ⟨wrapInt (g2.fixed.ScatterPay * r.BetMult), Extend.e0001 g2.ext, rfl⟩)⟩, ?_⟩
      simp [hc1, ht]
    · refine ⟨picks, casc, _, hp2, hc2, Or.inr ⟨_, t, [], rfl, rfl, Or.inl rfl⟩, ?_⟩
      simp [hc1, ht]

theorem game0001.getBaseResult_isSome_cascade (scatter : SymbolType) (g : game0001) (r : SpinRequest)
    (run : Run σ R S)
    (h : ScreenInTable g.fixed.symbolTypes (game0001.baseFinalScreen E g r run)) :
    ∃ res, (game0001.getBaseResult E scatter g r run).1 = some res := by
  obtain ⟨idx, pos, hl, e⟩ := game0001.cascade_fixed E 0 r.BetMult g.fixed.MaxStep.toNat
    (run.GenScreen E 0).1
    (game0001.pickReels E 0 (game0001.resetIdx g.fixed)
      ((run.GenScreen E 0).2.AddAct E 0 .FinishAct "gen_screen" (some (run.GenScreen E 0).1)
        none)).1
    (game0001.pickReels E 0 (game0001.resetIdx g.fixed)
      ((run.GenScreen E 0).2.AddAct E 0 .FinishAct "gen_screen" (some (run.GenScreen E 0).1)
        none)).2
  unfold game0001.getBaseResult
  simp only []
  rw [game0001.trigger_ok_cascade scatter _ _ (by
    rw [e]
    exact h)]
  exact ⟨_, rfl⟩

theorem game0001.freeRound_calls_cascade (b : Int) (fix : fixed0001) (run : Run σ R S) :
    ∃ picks casc, (∀ c ∈ picks, Call.isPick c = true) ∧
      CascadeTrace E 1 b fix.MaxStep.toNat casc ∧
      (game0001.freeRound E b fix run).2.calls =
        run.calls ++ (Call.GenScreen 1 (run.GenScreen E 1).1 ::
          Call.AddAct 1 .FinishAct "gen_screen" (some (run.GenScreen E 1).1) none ::
          (picks ++ casc ++ [Call.FinishRound 1])) := by
  obtain ⟨picks, hp1, hp2⟩ := game0001.pickReels_calls E 1 (game0001.resetIdx fix)
    ((run.GenScreen E 1).2.AddAct E 1 .FinishAct "gen_screen" (some (run.GenScreen E 1).1) none)
  obtain ⟨casc, hc1, hc2⟩ := game0001.cascade_calls E 1 b fix.MaxStep.toNat
    (run.GenScreen E 1).1
    (game0001.pickReels E 1 (game0001.resetIdx fix)
      ((run.GenScreen E 1).2.AddAct E 1 .FinishAct "gen_screen" (some (run.GenScreen E 1).1)
        none)).1
    (game0001.pickReels E 1 (game0001.resetIdx fix)
      ((run.GenScreen E 1).2.AddAct E 1 .FinishAct "gen_screen" (some (run.GenScreen E 1).1)
        none)).2
  rw [hp1] at hc1
  refine ⟨picks, casc, hp2, hc2, ?_⟩
  unfold game0001.freeRound
  simp only []
  have hm : (game0001.resetIdx fix).MaxStep = fix.MaxStep := rfl
  rw [Run.FinishRound_calls, hm, hc1]
  simp

theorem Call.inFreeRound_of_inCascade (c : Call R S) (h : Call.inCascade c = true) :
    Call.inFreeRound c = true := by
  cases c <;> simp_all [Call.inCascade, Call.inFreeRound]
  tauto

theorem Call.inFreeRound_of_isPick (c : Call R S) (h : Call.isPick c = true) :
    Call.inFreeRound c = true := by
  cases c <;> simp_all [Call.isPick, Call.inFreeRound]

theorem Call.isPick_excl (c : Call R S) (h : Call.isPick c = true) :
    Call.isGenScreen c = false ∧ Call.isFinishRound c = false ∧ Call.isCalcScreen c = false ∧
    Call.isTransform c = false ∧ Call.isTransformAct c = false := by
  cases c <;> simp_all [Call.isPick, Call.isGenScreen, Call.isFinishRound, Call.isCalcScreen,
    Call.isTransform, Call.isTransformAct]

theorem Call.inCascade_excl (c : Call R S) (h : Call.inCascade c = true) :
    Call.isGenScreen c = false ∧ Call.isFinishRound c = false := by
  cases c <;> simp_all [Call.inCascade, Call.isGenScreen, Call.isFinishRound]

theorem Call.inFreeRound_excl (c : Call R S) (h : Call.inFreeRound c = true) :
    Call.isSpinLevel c = false ∧ Call.isSetTrigger c = false := by
  cases c <;> simp_all [Call.inFreeRound, Call.isSpinLevel, Call.isSetTrigger]

theorem game0001.freeRound_props (b : Int) (fix : fixed0001) (run : Run σ R S) :
    ∃ new, (game0001.freeRound E b fix run).2.calls = run.calls ++ new ∧
      new.countP Call.isGenScreen = 1 ∧ new.countP Call.isFinishRound = 1 ∧
      (∀ c ∈ new, Call.inFreeRound c = true) := by
  obtain ⟨picks, casc, hp, hc, e⟩ := game0001.freeRound_calls_cascade E b fix run
  have hca := CascadeTrace.inCascade E hc
  refine ⟨_, e, ?_, ?_, ?_⟩
  · have h1 := countP_zero_of_all Call.isGenScreen Call.isPick
      (fun c h => (Call.isPick_excl c h).1) picks hp
    have h2 := countP_zero_of_all Call.isGenScreen Call.inCascade
      (fun c h => (Call.inCascade_excl c h).1) casc hca
    simp only [List.countP_cons, List.countP_append, List.countP_nil, Call.isGenScreen, h1, h2]
    simp
  · have h1 := countP_zero_of_all Call.isFinishRound Call.isPick
      (fun c h => (Call.isPick_excl c h).2.1) picks hp
    have h2 := countP_zero_of_all Call.isFinishRound Call.inCascade
      (fun c h => (Call.inCascade_excl c h).2) casc hca
    simp only [List.countP_cons, List.countP_append, List.countP_nil, Call.isFinishRound, h1, h2]
    simp
  · intro c hc2
    simp only [List.mem_cons, List.mem_append, List.mem_singleton, List.not_mem_nil,
      or_false] at hc2
    rcases hc2 with h | h | (h | h) | h
    · subst h; rfl
    · subst h; simp [Call.inFreeRound]
    · exact Call.inFreeRound_of_isPick c (hp c h)
    · exact Call.inFreeRound_of_inCascade c (hca c h)
    · subst h; rfl

theorem game0001.freeLoop_calls_cascade (b : Int) (n : Nat) (fix : fixed0001) (run : Run σ R S) :
    ∃ new, (game0001.freeLoop E b n fix run).2.calls = run.calls ++ new ∧
      new.countP Call.isGenScreen = n ∧ new.countP Call.isFinishRound = n ∧
      (∀ c ∈ new, Call.inFreeRound c = true) := by
  induction n generalizing fix run with
  | zero => exact ⟨[], by simp [game0001.freeLoop]⟩
  | succ n ih =>
    obtain ⟨new1, e1, g1, f1, a1⟩ := game0001.freeRound_props E b fix run
    obtain ⟨new2, e2, g2, f2, a2⟩ := ih (game0001.freeRound E b fix run).1
      (game0001.freeRound E b fix run).2
    refine ⟨new1 ++ new2, ?_, ?_, ?_, ?_⟩
    · simp [game0001.freeLoop, e2, e1]
    · rw [List.countP_append]; omega
    · rw [List.countP_append]; omega
    · intro c hc
      rcases List.mem_append.mp hc with h | h
      · exact a1 c h
      · exact a2 c h

theorem game0001.freeLoop_fixed (b : Int) (n : Nat) (fix : fixed0001) (run : Run σ R S) :
    ∃ idx pos h, (game0001.freeLoop E b n fix run).1 = fix.withScratch idx pos h := by
  induction n generalizing fix run with
  | zero => exact ⟨fix.fillReelsIdx, fix.screenFillPos, fix.sameLen, rfl⟩
  | succ n ih =>
    obtain ⟨idx, pos, h, e⟩ := ih (game0001.freeRound E b fix run).1
      (game0001.freeRound E b fix run).2
    obtain ⟨idx2, pos2, h2, e2⟩ := game0001.cascade_fixed E 1 b
      (game0001.resetIdx fix).MaxStep.toNat (run.GenScreen E 1).1
      (game0001.pickReels E 1 (game0001.resetIdx fix)
        ((run.GenScreen E 1).2.AddAct E 1 .FinishAct "gen_screen" (some (run.GenScreen E 1).1)
          none)).1
      (game0001.pickReels E 1 (game0001.resetIdx fix)
        ((run.GenScreen E 1).2.AddAct E 1 .FinishAct "gen_screen" (some (run.GenScreen E 1).1)
          none)).2
    refine ⟨idx, pos, h, ?_⟩
    have hr : (game0001.freeRound E b fix run).1 = fix.withScratch idx2 pos2 h2 := by
      unfold game0001.freeRound
      simp only []
      rw [e2]
      rfl
    simp only [game0001.freeLoop]
    rw [e, hr]
    rfl

/-! ## Rounds of "demo_normal" -/

theorem game0000.freeRound_calls_normal (b : Int) (run : Run σ R S) :
    (game0000.freeRound E b run).calls =
      run.calls ++ (game0000.roundHead E 1 b run ++ [Call.FinishRound 1]) := by
  unfold game0000.freeRound game0000.roundHead game0000.roundWin
  simp only []
  split <;> simp

theorem game0000.getBaseResult_calls_normal (scatter : SymbolType) (g : game0000) (b : Int)
    (run : Run σ R S) :
    ∃ tail, BaseTail (game0000.getBaseResult E scatter g b run).1 tail ∧
      (game0000.getBaseResult E scatter g b run).2.2.calls =
        run.calls ++ (game0000.roundHead E 0 b run ++ tail) := by
  unfold game0000.getBaseResult game0000.roundHead game0000.roundWin
  simp only []
  split
  · refine ⟨[], Or.inl ⟨rfl, rfl⟩, ?_⟩
    split_ifs <;> simp
  · rename_i t g2 heq
    by_cases ht : t > 0
    · refine ⟨_, Or.inr ⟨_, t, _, rfl, rfl, Or.inr (Or.inl ⟨Extend.e0000 g2.ext, rfl⟩)⟩, ?_⟩
      split_ifs <;> simp
    · refine ⟨_, Or.inr ⟨_, t, [], rfl, rfl, Or.inl rfl⟩, ?_⟩
      split_ifs <;> simp

theorem game0000.getBaseResult_isSome_normal (scatter : SymbolType) (g : game0000) (b : Int)
    (run : Run σ R S) (h : ScreenInTable g.fixed.symboltypes (run.GenScreen E 0).1) :
    ∃ res, (game0000.getBaseResult E scatter g b run).1 = some res := by
  unfold game0000.getBaseResult
  simp only []
  rw [game0000.trigger_ok_normal scatter { fixed := g.fixed, ext := g.ext.Reset } _ h]
  exact ⟨_, rfl⟩

theorem game0000.roundHead_props (m : Nat) (b : Int) (run : Run σ R S) :
    (game0000.roundHead E m b run).countP Call.isGenScreen = 1 ∧
    (game0000.roundHead E m b run).countP Call.isFinishRound = 0 ∧
    (game0000.roundHead E m b run).countP Call.isCalcScreen = 1 ∧
    (∀ c ∈ game0000.roundHead E m b run, Call.inFreeRound c = true) := by
  unfold game0000.roundHead
  split <;>
    simp [List.countP_cons, Call.isGenScreen, Call.isFinishRound, Call.isCalcScreen,
      Call.inFreeRound]

theorem game0000.freeLoop_calls_normal (b : Int) (n : Nat) (run : Run σ R S) :
    ∃ new, (game0000.freeLoop E b n run).calls = run.calls ++ new ∧
      new.countP Call.isGenScreen = n ∧ new.countP Call.isFinishRound = n ∧
      (∀ c ∈ new, Call.inFreeRound c = true) := by
  induction n generalizing run with
  | zero => exact ⟨[], by simp [game0000.freeLoop]⟩
  | succ n ih =>
    obtain ⟨new2, e2, g2, f2, a2⟩ := ih (game0000.freeRound E b run)
    obtain ⟨p1, p2, _, p4⟩ := game0000.roundHead_props E 1 b run
    refine ⟨(game0000.roundHead E 1 b run ++ [Call.FinishRound 1]) ++ new2, ?_, ?_, ?_, ?_⟩
    · simp [game0000.freeLoop, e2, game0000.freeRound_calls_normal]
    · simp only [List.countP_append, p1, g2]
      simp [List.countP_cons, Call.isGenScreen]
      omega
    · simp only [List.countP_append, p2, f2]
      simp [List.countP_cons, Call.isFinishRound]
      omega
    · intro c hc
      rcases List.mem_append.mp hc with h | h
      · rcases List.mem_append.mp h with h | h
        · exact p4 c h
        · simp only [List.mem_singleton] at h
          subst h; rfl
      · exact a2 c h

/-! ## Facts about the end of a base round -/

theorem BaseTail.counts {ret : Option R} {tail : List (Call R S)} (h : BaseTail ret tail) :
    tail.countP Call.isCalcScreen = 0 ∧ tail.countP Call.isGenScreen = 0 ∧
    tail.countP Call.isTransform = 0 ∧ tail.countP Call.isTransformAct = 0 ∧
    tail.filter Call.isSpinLevel = [] ∧ (∀ k v, Call.GetTmpWin k v ∉ tail) := by
  rcases h with ⟨_, rfl⟩ | ⟨res, t, mid, _, rfl, rfl | ⟨e, rfl⟩ | ⟨v, e, rfl⟩⟩ <;>
    simp [List.countP_cons, List.filter_cons, Call.isCalcScreen, Call.isGenScreen,
      Call.isTransform, Call.isTransformAct, Call.isSpinLevel]

theorem BaseTail.finish {ret : Option R} {tail : List (Call R S)} (h : BaseTail ret tail)
    (res : R) (hr : ret = some res) :
    ∃ pre, tail = pre ++ [Call.FinishRound 0, Call.YieldResult 0 res] ∧
      pre.countP Call.isFinishRound = 0 := by
  rcases h with ⟨h0, _⟩ | ⟨res2, t, mid, h1, rfl, hm⟩
  · rw [hr] at h0; cases h0
  · rw [hr] at h1
    cases h1
    refine ⟨Call.SetTrigger 0 t :: mid, by simp, ?_⟩
    rcases hm with rfl | ⟨e, rfl⟩ | ⟨v, e, rfl⟩ <;>
      simp [List.countP_cons, Call.isFinishRound]

theorem split_of_not_mem_right {α : Type} (z : α) (l1 l2 pre post : List α) (hz : z ∉ l2)
    (h : l1 ++ l2 = pre ++ z :: post) :
    ∃ mid, post = mid ++ l2 ∧ l1 = pre ++ z :: mid := by
  rcases List.append_eq_append_iff.mp h with ⟨a, h1, h2⟩ | ⟨c, h1, h2⟩
  · exfalso
    apply hz
    rw [h2]
    simp
  · cases c with
    | nil =>
      exfalso
      apply hz
      simp only [List.nil_append] at h2
      rw [← h2]
      simp
    | cons y ys =>
      simp only [List.cons_append, List.cons.injEq] at h2
      refine ⟨ys, h2.2, ?_⟩
      rw [h1, h2.1]

end Logs

/-! ## Claims -/

section Claims
variable {σ R S : Type} (E : Substrate σ R S)

theorem game0001.getBaseResult_calc_le (scatter : SymbolType) (g : game0001) (r : SpinRequest)
    (run : Run σ R S) :
    ∃ new, (game0001.getBaseResult E scatter g r run).2.2.calls = run.calls ++ new ∧
      new.countP Call.isCalcScreen ≤ g.fixed.MaxStep.toNat := by
  obtain ⟨picks, casc, tail, hp, hc, ht, e⟩ := game0001.getBaseResult_calls_cascade E scatter g r run
  refine ⟨_, e, ?_⟩
  have h1 := countP_zero_of_all Call.isCalcScreen Call.isPick
    (fun c h => (Call.isPick_excl c h).2.2.1) picks hp
  have h2 := CascadeTrace.calc_le E hc
  have h3 := (BaseTail.counts ht).1
  simp only [List.countP_cons, List.countP_append, Call.isCalcScreen, h1, h3]
  simpa using h2

theorem game0001.freeRound_calc_le (b : Int) (fix : fixed0001) (run : Run σ R S) :
    ∃ new, (game0001.freeRound E b fix run).2.calls = run.calls ++ new ∧
      new.countP Call.isCalcScreen ≤ fix.MaxStep.toNat := by
  obtain ⟨picks, casc, hp, hc, e⟩ := game0001.freeRound_calls_cascade E b fix run
  refine ⟨_, e, ?_⟩
  have h1 := countP_zero_of_all Call.isCalcScreen Call.isPick
    (fun c h => (Call.isPick_excl c h).2.2.1) picks hp
  have h2 := CascadeTrace.calc_le E hc
  simp only [List.countP_cons, List.countP_append, List.countP_nil, Call.isCalcScreen, h1]
  simpa using h2

theorem game0001.cascade_zero (m : Nat) (b : Int) (n : Nat) (screen : Screen)
    (fix : fixed0001) (run : Run σ R S)
    (h : E.GetTmpWin m (E.CalcScreen m b screen run.world) = 0) :
    game0001.cascade E m b (n + 1) screen fix run =
      (screen, fix,
        ⟨E.FinishStep m (E.CalcScreen m b screen run.world),
         run.calls ++ zeroPass m b screen (E.HitMapTmp m (E.CalcScreen m b screen run.world))⟩) := by
  have h2 : (((run.CalcScreen E m b screen).HitMapTmp E m).2.GetTmpWin E m).1 = 0 := h
  unfold game0001.cascade
  simp only [h2, if_true]
  simp [Run.FinishStep, Run.GetTmpWin, Run.HitMapTmp, Run.CalcScreen, zeroPass, h]

theorem game0001.trigger_of_fields (scatter : SymbolType) (g g2 : game0001) (screen : Screen)
    (h1 : g.fixed.symbolTypes = g2.fixed.symbolTypes) (h2 : g.fixed.Trigger = g2.fixed.Trigger)
    (h3 : g.ext.isSim = g2.ext.isSim) :
    (game0001.trigger scatter g screen).1 = (game0001.trigger scatter g2 screen).1 ∧
    (game0001.trigger scatter g screen).2.ext = (game0001.trigger scatter g2 screen).2.ext := by
  unfold game0001.trigger
  simp only [ext0001.Reset, h1, h2, h3]
  split
  · simp
  · split <;> simp

theorem game0001.getBaseResult_tail (scatter : SymbolType) (g : game0001) (r : SpinRequest)
    (run : Run σ R S) :
    ∃ tail, BaseTail (game0001.getBaseResult E scatter g r run).1 tail ∧
      (game0001.getBaseResult E scatter g r run).2.2.calls =
        (game0001.cascade E 0 r.BetMult g.fixed.MaxStep.toNat (run.GenScreen E 0).1
          (game0001.basePicks E g run).1 (game0001.basePicks E g run).2).2.2.calls ++ tail ∧
      (game0001.getBaseResult E scatter g r run).2.1.ext =
        (game0001.trigger scatter g (game0001.baseFinalScreen E g r run)).2.ext := by
  obtain ⟨idx, pos, hl, e⟩ := game0001.cascade_fixed E 0 r.BetMult g.fixed.MaxStep.toNat
    (run.GenScreen E 0).1 (game0001.basePicks E g run).1 (game0001.basePicks E g run).2
  have hx := (game0001.trigger_of_fields scatter
    { g with fixed := (game0001.cascade E 0 r.BetMult g.fixed.MaxStep.toNat (run.GenScreen E 0).1
        (game0001.basePicks E g run).1 (game0001.basePicks E g run).2).2.1 } g
    (game0001.baseFinalScreen E g r run) (by rw [e]; rfl) (by rw [e]; rfl) rfl).2
  rw [← hx]
  unfold game0001.getBaseResult game0001.baseFinalScreen game0001.basePicks
  simp only []
  split
  · rename_i g2 heq
    exact ⟨[], Or.inl ⟨rfl, rfl⟩, by simp, by rw [heq]⟩
  · rename_i t g2 heq
    by_cases ht : t > 0
    · refine ⟨_, Or.inr ⟨_, t, _, rfl, rfl, Or.inr (Or.inr
        ⟨wrapInt (g2.fixed.ScatterPay * r.BetMult), Extend.e0001 g2.ext, rfl⟩)⟩, ?_, ?_⟩
      · simp [ht]
      · rw [heq]
    · refine ⟨_, Or.inr ⟨_, t, [], rfl, rfl, Or.inl rfl⟩, ?_, ?_⟩
      · simp [ht]
      · rw [heq]

theorem game0001.getBaseResult_first_zero (scatter : SymbolType) (g : game0001)
    (r : SpinRequest) (run : Run σ R S) (hm : 0 < g.fixed.MaxStep)
    (hz : game0001.baseFirstWin E g r run = 0) :
    game0001.baseFinalScreen E g r run = (run.GenScreen E 0).1 ∧
    ∃ picks tail, (∀ c ∈ picks, Call.isPick c = true) ∧
      BaseTail (game0001.getBaseResult E scatter g r run).1 tail ∧
      (game0001.getBaseResult E scatter g r run).2.2.calls =
        run.calls ++ (Call.GenScreen 0 (run.GenScreen E 0).1 ::
          Call.AddAct 0 .FinishAct "gen_screen" (some (run.GenScreen E 0).1) none ::
          (picks ++ zeroPass 0 r.BetMult (run.GenScreen E 0).1
            (game0001.baseFirstHit E g r run) ++ tail)) := by
  obtain ⟨k, hk⟩ : ∃ k, g.fixed.MaxStep.toNat = k + 1 :=
    ⟨g.fixed.MaxStep.toNat - 1, by omega⟩
  have hc := game0001.cascade_zero E 0 r.BetMult k (run.GenScreen E 0).1
    (game0001.basePicks E g run).1 (game0001.basePicks E g run).2 hz
  obtain ⟨picks, hp1, hp2⟩ := game0001.pickReels_calls E 0 (game0001.resetIdx g.fixed)
    ((run.GenScreen E 0).2.AddAct E 0 .FinishAct "gen_screen" (some (run.GenScreen E 0).1) none)
  obtain ⟨tail, ht, e, _⟩ := game0001.getBaseResult_tail E scatter g r run
  constructor
  · show (game0001.cascade E 0 r.BetMult g.fixed.MaxStep.toNat (run.GenScreen E 0).1
      (game0001.basePicks E g run).1 (game0001.basePicks E g run).2).1 = _
    rw [hk, hc]
  · refine ⟨picks, tail, hp2, ht, ?_⟩
    rw [e, hk, hc]
    have hp : (game0001.basePicks E g run).2.calls = _ := hp1
    simp [hp, game0001.baseFirstHit]

/-- C1: for every `MaxStep >= 0` and every behaviour of the SDK, the base round of
`game0001.getBaseResult` and a free round of `game0001.getFreeResult` (started in any
SDK state `w` and with any fixed configuration) return after at most `MaxStep + 1`
calls to `CalcScreen`. -/
theorem cascade_round_bounded (scatter : SymbolType) (g : game0001) (r : SpinRequest)
    (w : σ) (h : 0 ≤ g.fixed.MaxStep) :
    ((game0001.getBaseResult E scatter g r ⟨w, []⟩).2.2.calls.countP Call.isCalcScreen : Int)
      ≤ g.fixed.MaxStep + 1 ∧
    ((game0001.freeRound E r.BetMult g.fixed ⟨w, []⟩).2.calls.countP Call.isCalcScreen : Int)
      ≤ g.fixed.MaxStep + 1 := by
  obtain ⟨n1, e1, h1⟩ := game0001.getBaseResult_calc_le E scatter g r ⟨w, []⟩
  obtain ⟨n2, e2, h2⟩ := game0001.freeRound_calc_le E r.BetMult g.fixed ⟨w, []⟩
  rw [e1, e2]
  simp only [List.nil_append]
  constructor <;> omega

theorem cascade_round_bounded_witness :
    (0 : Int) ≤ (demoCascade 2 1).fixed.MaxStep ∧
    (((game0001.getBaseResult (scripted [1, 1, 1, 0, 0]) 1 (demoCascade 2 1) ⟨2⟩
        ⟨⟨[5, 5, 7, 0], 0, 0⟩, []⟩).2.2.calls.countP Call.isCalcScreen : Int)
      ≤ (demoCascade 2 1).fixed.MaxStep + 1 ∧
     ((game0001.freeRound (scripted [1, 1, 1, 0, 0]) (SpinRequest.mk 2).BetMult
        (demoCascade 2 1).fixed ⟨⟨[5, 5, 7, 0], 0, 0⟩, []⟩).2.calls.countP
          Call.isCalcScreen : Int)
      ≤ (demoCascade 2 1).fixed.MaxStep + 1) :=
  ⟨by decide, cascade_round_bounded (scripted [1, 1, 1, 0, 0]) 1 (demoCascade 2 1) ⟨2⟩
    ⟨[5, 5, 7, 0], 0, 0⟩ (by decide)⟩

theorem game0001.base_after_zero (scatter : SymbolType) (g : game0001) (r : SpinRequest)
    (w : σ) (k : Nat) (pre post : List (Call R S))
    (h : (game0001.getBaseResult E scatter g r ⟨w, []⟩).2.2.calls
      = pre ++ Call.GetTmpWin k 0 :: post) :
    ∃ tail, post = Call.FinishStep 0 :: tail ∧
      BaseTail (game0001.getBaseResult E scatter g r ⟨w, []⟩).1 tail := by
  obtain ⟨picks, casc, tail, hp, hc, ht, e⟩ :=
    game0001.getBaseResult_calls_cascade E scatter g r ⟨w, []⟩
  rw [e] at h
  have h1 : ([Call.GenScreen 0 (E.GenScreen 0 w).1,
      Call.AddAct 0 .FinishAct "gen_screen" (some (E.GenScreen 0 w).1) none] ++ picks) ++
      (casc ++ tail) = pre ++ Call.GetTmpWin k 0 :: post := by
    rw [← h]
    simp [Run.GenScreen]
  have hz1 : (Call.GetTmpWin k 0 : Call R S) ∉
      ([Call.GenScreen 0 (E.GenScreen 0 w).1,
        Call.AddAct 0 .FinishAct "gen_screen" (some (E.GenScreen 0 w).1) none] ++ picks) := by
    intro hmem
    simp only [List.cons_append, List.nil_append, List.mem_cons] at hmem
    rcases hmem with hm | hm | hm
    · cases hm
    · cases hm
    · have := hp _ hm
      simp [Call.isPick] at this
  obtain ⟨mid, _, h2⟩ := split_of_not_mem _ _ (casc ++ tail) pre post hz1 h1
  obtain ⟨mid2, h3, h4⟩ := split_of_not_mem_right _ casc tail mid post
    ((BaseTail.counts ht).2.2.2.2.2 k 0) h2
  have h5 := CascadeTrace.after_zero E hc k mid mid2 h4
  exact ⟨tail, by rw [h3, h5]; rfl, ht⟩

theorem game0001.free_after_zero (b : Int) (fix : fixed0001) (w : σ) (k : Nat)
    (pre post : List (Call R S))
    (h : (game0001.freeRound E b fix ⟨w, []⟩).2.calls = pre ++ Call.GetTmpWin k 0 :: post) :
    post = [Call.FinishStep 1, Call.FinishRound 1] := by
  obtain ⟨picks, casc, hp, hc, e⟩ := game0001.freeRound_calls_cascade E b fix ⟨w, []⟩
  rw [e] at h
  have h1 : ([Call.GenScreen 1 (E.GenScreen 1 w).1,
      Call.AddAct 1 .FinishAct "gen_screen" (some (E.GenScreen 1 w).1) none] ++ picks) ++
      (casc ++ [Call.FinishRound 1]) = pre ++ Call.GetTmpWin k 0 :: post := by
    rw [← h]
    simp [Run.GenScreen]
  have hz1 : (Call.GetTmpWin k 0 : Call R S) ∉
      ([Call.GenScreen 1 (E.GenScreen 1 w).1,
        Call.AddAct 1 .FinishAct "gen_screen" (some (E.GenScreen 1 w).1) none] ++ picks) := by
    intro hmem
    simp only [List.cons_append, List.nil_append, List.mem_cons] at hmem
    rcases hmem with hm | hm | hm
    · cases hm
    · cases hm
    · have := hp _ hm
      simp [Call.isPick] at this
  obtain ⟨mid, _, h2⟩ := split_of_not_mem _ _ (casc ++ [Call.FinishRound 1]) pre post hz1 h1
  obtain ⟨mid2, h3, h4⟩ := split_of_not_mem_right _ casc [Call.FinishRound 1] mid post
    (by simp) h2
  have h5 := CascadeTrace.after_zero E hc k mid mid2 h4
  rw [h3, h5]
  rfl

/-- C2: in a round of `game0001` the first evaluation pass whose `GetTmpWin` is zero
ends the cascade.  (a) A pass of the loop that reads win 0 returns at once with the
screen and the scratch buffers untouched, having logged only its evaluation and
`FinishStep`.  (b) Whatever a base round logs after a `GetTmpWin` that returned 0 is
`FinishStep` followed by the end of the round: no `CalcScreen`, no `Clear`, `Gravity`
or `FillScreen`, none of their actions, and `FinishRound`, `YieldResult` last when
the round returns.  (c) In a free round it is exactly `FinishStep`, `FinishRound`.
(d) With threshold 3, `MaxStep` 5, `ScatterPay` 10 and bet multiplier 2, a base
round whose first pass reads win 0 calls `GenScreen` once and `CalcScreen` once, logs
no transform and no transform action, evaluates the trigger on the generated screen
and, when that screen is inside the table, calls `FinishRound` once. -/
theorem zero_win_ends_cascade (scatter : SymbolType) (g : game0001) (r : SpinRequest)
    (w : σ) :
    (∀ (m : Nat) (b : Int) (n : Nat) (screen : Screen) (fix : fixed0001) (run : Run σ R S),
      E.GetTmpWin m (E.CalcScreen m b screen run.world) = 0 →
      (game0001.cascade E m b (n + 1) screen fix run).1 = screen ∧
      (game0001.cascade E m b (n + 1) screen fix run).2.1 = fix ∧
      (game0001.cascade E m b (n + 1) screen fix run).2.2.calls =
        run.calls ++ [Call.CalcScreen m b screen,
          Call.HitMapTmp m (E.HitMapTmp m (E.CalcScreen m b screen run.world)),
          Call.GetTmpWin m 0, Call.FinishStep m]) ∧
    (∀ (k : Nat) (pre post : List (Call R S)),
      (game0001.getBaseResult E scatter g r ⟨w, []⟩).2.2.calls
        = pre ++ Call.GetTmpWin k 0 :: post →
      ∃ tail, post = Call.FinishStep 0 :: tail ∧
        tail.countP Call.isCalcScreen = 0 ∧ tail.countP Call.isTransform = 0 ∧
        tail.countP Call.isTransformAct = 0 ∧
        ∀ res, (game0001.getBaseResult E scatter g r ⟨w, []⟩).1 = some res →
          ∃ mid, tail = mid ++ [Call.FinishRound 0, Call.YieldResult 0 res]) ∧
    (∀ (k : Nat) (pre post : List (Call R S)),
      (game0001.freeRound E r.BetMult g.fixed ⟨w, []⟩).2.calls
        = pre ++ Call.GetTmpWin k 0 :: post →
      post = [Call.FinishStep 1, Call.FinishRound 1]) ∧
    (g.fixed.Trigger = 3 → g.fixed.MaxStep = 5 → g.fixed.ScatterPay = 10 → r.BetMult = 2 →
      game0001.baseFirstWin E g r ⟨w, []⟩ = 0 →
      (game0001.getBaseResult E scatter g r ⟨w, []⟩).2.2.calls.countP Call.isGenScreen = 1 ∧
      (game0001.getBaseResult E scatter g r ⟨w, []⟩).2.2.calls.countP Call.isCalcScreen = 1 ∧
      (game0001.getBaseResult E scatter g r ⟨w, []⟩).2.2.calls.countP Call.isTransform = 0 ∧
      (game0001.getBaseResult E scatter g r ⟨w, []⟩).2.2.calls.countP Call.isTransformAct = 0 ∧
      game0001.baseFinalScreen E g r ⟨w, []⟩ = (E.GenScreen 0 w).1 ∧
      (game0001.getBaseResult E scatter g r ⟨w, []⟩).2.1.ext =
        (game0001.trigger scatter g (E.GenScreen 0 w).1).2.ext ∧
      (ScreenInTable g.fixed.symbolTypes (E.GenScreen 0 w).1 →
        (game0001.getBaseResult E scatter g r ⟨w, []⟩).2.2.calls.countP
          Call.isFinishRound = 1)) := by
  refine ⟨?_, ?_, ?_, ?_⟩
  · intro m b n screen fix run h
    rw [game0001.cascade_zero E m b n screen fix run h]
    simp [zeroPass]
  · intro k pre post h
    obtain ⟨tail, h1, h2⟩ := game0001.base_after_zero E scatter g r w k pre post h
    refine ⟨tail, h1, (BaseTail.counts h2).1, (BaseTail.counts h2).2.2.1,
      (BaseTail.counts h2).2.2.2.1, ?_⟩
    intro res hres
    obtain ⟨mid, hm, _⟩ := BaseTail.finish h2 res hres
    exact ⟨mid, hm⟩
  · intro k pre post h
    exact game0001.free_after_zero E r.BetMult g.fixed w k pre post h
  · intro _ hM _ _ hz
    obtain ⟨hs, picks, tail, hp, ht, e⟩ :=
      game0001.getBaseResult_first_zero E scatter g r ⟨w, []⟩ (by omega) hz
    obtain ⟨_, _, _, hx⟩ := game0001.getBaseResult_tail E scatter g r ⟨w, []⟩
    have c := BaseTail.counts ht
    have p1 := countP_zero_of_all Call.isGenScreen Call.isPick
      (fun c h => (Call.isPick_excl c h).1) picks hp
    have p2 := countP_zero_of_all Call.isCalcScreen Call.isPick
      (fun c h => (Call.isPick_excl c h).2.2.1) picks hp
    have p3 := countP_zero_of_all Call.isTransform Call.isPick
      (fun c h => (Call.isPick_excl c h).2.2.2.1) picks hp
    have p4 := countP_zero_of_all Call.isTransformAct Call.isPick
      (fun c h => (Call.isPick_excl c h).2.2.2.2) picks hp
    have p5 := countP_zero_of_all Call.isFinishRound Call.isPick
      (fun c h => (Call.isPick_excl c h).2.1) picks hp
    have hs2 : game0001.baseFinalScreen E g r ⟨w, []⟩ = (E.GenScreen 0 w).1 := hs
    refine ⟨?_, ?_, ?_, ?_, hs2, ?_, ?_⟩
    · rw [e]
      simp [List.countP_cons, List.countP_append, zeroPass, Call.isGenScreen, p1, c.2.1]
    · rw [e]
      simp [List.countP_cons, List.countP_append, zeroPass, Call.isCalcScreen, p2, c.1]
    · rw [e]
      simp [List.countP_cons, List.countP_append, zeroPass, Call.isTransform, p3, c.2.2.1]
    · rw [e]
      simp [List.countP_cons, List.countP_append, zeroPass, Call.isTransformAct, p4,
        c.2.2.2.1]
    · rw [hx, hs2]
    · intro hin
      obtain ⟨res, hres⟩ := game0001.getBaseResult_isSome_cascade E scatter g r ⟨w, []⟩
        (by rw [hs2]; exact hin)
      obtain ⟨pre, hpre, hcnt⟩ := BaseTail.finish ht res hres
      rw [e, hpre]
      simp [List.countP_cons, List.countP_append, zeroPass, Call.isFinishRound, p5, hcnt]

theorem zero_win_ends_cascade_witness :
    game0001.baseFirstWin (scripted [1, 1, 1, 0, 0]) (demoCascade 5 1) ⟨2⟩
      ⟨⟨[0, 5], 0, 0⟩, []⟩ = 0 ∧
    ((game0001.cascade (scripted [1, 1, 1, 0, 0]) 0 2 (4 + 1) [1, 1, 1, 0, 0]
        (demoCascade 5 1).fixed ⟨⟨[0, 5], 0, 0⟩, []⟩).1 = [1, 1, 1, 0, 0] ∧
     (game0001.cascade (scripted [1, 1, 1, 0, 0]) 0 2 (4 + 1) [1, 1, 1, 0, 0]
        (demoCascade 5 1).fixed ⟨⟨[0, 5], 0, 0⟩, []⟩).2.1 = (demoCascade 5 1).fixed ∧
     (game0001.cascade (scripted [1, 1, 1, 0, 0]) 0 2 (4 + 1) [1, 1, 1, 0, 0]
        (demoCascade 5 1).fixed ⟨⟨[0, 5], 0, 0⟩, []⟩).2.2.calls =
       [] ++ [Call.CalcScreen 0 2 [1, 1, 1, 0, 0],
          Call.HitMapTmp 0 ((scripted [1, 1, 1, 0, 0]).HitMapTmp 0
            ((scripted [1, 1, 1, 0, 0]).CalcScreen 0 2 [1, 1, 1, 0, 0] ⟨[0, 5], 0, 0⟩)),
          Call.GetTmpWin 0 0, Call.FinishStep 0]) ∧
    (∃ tail,
      (game0001.getBaseResult (scripted [1, 1, 1, 0, 0]) 1 (demoCascade 5 1) ⟨2⟩
        ⟨⟨[0, 5], 0, 0⟩, []⟩).2.2.calls.drop 8 = Call.FinishStep 0 :: tail ∧
      tail.countP Call.isCalcScreen = 0 ∧ tail.countP Call.isTransform = 0 ∧
      tail.countP Call.isTransformAct = 0 ∧
      ∀ res, (game0001.getBaseResult (scripted [1, 1, 1, 0, 0]) 1 (demoCascade 5 1) ⟨2⟩
          ⟨⟨[0, 5], 0, 0⟩, []⟩).1 = some res →
        ∃ mid, tail = mid ++ [Call.FinishRound 0, Call.YieldResult 0 res]) ∧
    (game0001.freeRound (scripted [1, 1, 1, 0, 0]) (SpinRequest.mk 2).BetMult
        (demoCascade 5 1).fixed ⟨⟨[0, 5], 0, 0⟩, []⟩).2.calls.drop 8
      = [Call.FinishStep 1, Call.FinishRound 1] ∧
    (game0001.getBaseResult (scripted [1, 1, 1, 0, 0]) 1 (demoCascade 5 1) ⟨2⟩
        ⟨⟨[0, 5], 0, 0⟩, []⟩).2.2.calls.countP Call.isGenScreen = 1 ∧
    (game0001.getBaseResult (scripted [1, 1, 1, 0, 0]) 1 (demoCascade 5 1) ⟨2⟩
        ⟨⟨[0, 5], 0, 0⟩, []⟩).2.2.calls.countP Call.isCalcScreen = 1 ∧
    (game0001.getBaseResult (scripted [1, 1, 1, 0, 0]) 1 (demoCascade 5 1) ⟨2⟩
        ⟨⟨[0, 5], 0, 0⟩, []⟩).2.2.calls.countP Call.isTransformAct = 0 ∧
    (game0001.getBaseResult (scripted [1, 1, 1, 0, 0]) 1 (demoCascade 5 1) ⟨2⟩
        ⟨⟨[0, 5], 0, 0⟩, []⟩).2.2.calls.countP Call.isFinishRound = 1 := by
  have T := zero_win_ends_cascade (scripted [1, 1, 1, 0, 0]) 1 (demoCascade 5 1) ⟨2⟩
    ⟨[0, 5], 0, 0⟩
  have hz : game0001.baseFirstWin (scripted [1, 1, 1, 0, 0]) (demoCascade 5 1) ⟨2⟩
      ⟨⟨[0, 5], 0, 0⟩, []⟩ = 0 := by decide
  have D := T.2.2.2 rfl rfl rfl rfl hz
  exact ⟨hz,
    T.1 0 2 4 [1, 1, 1, 0, 0] (demoCascade 5 1).fixed ⟨⟨[0, 5], 0, 0⟩, []⟩ (by decide),
    T.2.1 0
      ((game0001.getBaseResult (scripted [1, 1, 1, 0, 0]) 1 (demoCascade 5 1) ⟨2⟩
        ⟨⟨[0, 5], 0, 0⟩, []⟩).2.2.calls.take 7)
      ((game0001.getBaseResult (scripted [1, 1, 1, 0, 0]) 1 (demoCascade 5 1) ⟨2⟩
        ⟨⟨[0, 5], 0, 0⟩, []⟩).2.2.calls.drop 8) (by decide),
    T.2.2.1 1
      ((game0001.freeRound (scripted [1, 1, 1, 0, 0]) (SpinRequest.mk 2).BetMult
        (demoCascade 5 1).fixed ⟨⟨[0, 5], 0, 0⟩, []⟩).2.calls.take 7)
      ((game0001.freeRound (scripted [1, 1, 1, 0, 0]) (SpinRequest.mk 2).BetMult
        (demoCascade 5 1).fixed ⟨⟨[0, 5], 0, 0⟩, []⟩).2.calls.drop 8) (by decide),
    D.1, D.2.1, D.2.2.2.1, D.2.2.2.2.2.2 (by decide)⟩

theorem CascadeTrace.zero {m : Nat} {b : Int} {new : List (Call R S)}
    (h : CascadeTrace E m b 0 new) : new = [] := by
  cases h
  rfl

/-- C3 fails as stated: with `MaxStep` 0 the loop `for range maxStep` has no
iteration, so the base round of this run logs no `CalcScreen` at all (and not one);
the same holds for a free round. -/
theorem maxstep_zero_counterexample :
    (demoCascade 0 1).fixed.MaxStep = 0 ∧
    (game0001.getBaseResult (scripted [1, 1, 1, 0, 0]) 1 (demoCascade 0 1) ⟨2⟩
        ⟨⟨[5, 5], 0, 0⟩, []⟩).2.2.calls =
      [Call.GenScreen 0 [1, 1, 1, 0, 0],
       Call.AddAct 0 .FinishAct "gen_screen" (some [1, 1, 1, 0, 0]) none,
       Call.Pick 0 0 0, Call.Pick 0 1 0, Call.Pick 0 2 0,
       Call.SetTrigger 0 1, Call.UpdateTmpWin 0 20,
       Call.AddAct 0 .FinishAct "trigger" none
         (some (.e0001 { Triggered := true, ScatterCount := 3, ScatterHitMap := [0, 1, 2],
                         isSim := false })),
       Call.FinishRound 0, Call.YieldResult 0 1] ∧
    (game0001.getBaseResult (scripted [1, 1, 1, 0, 0]) 1 (demoCascade 0 1) ⟨2⟩
        ⟨⟨[5, 5], 0, 0⟩, []⟩).2.2.calls.countP Call.isCalcScreen ≠ 1 ∧
    (game0001.freeRound (scripted [1, 1, 1, 0, 0]) 2 (demoCascade 0 1).fixed
        ⟨⟨[5, 5], 0, 0⟩, []⟩).2.calls.countP Call.isCalcScreen ≠ 1 := by
  refine ⟨rfl, ?_, ?_, ?_⟩ <;> decide

/-- C3 (amended): when `MaxStep` is 0, a round of `game0001` calls `GenScreen` exactly
once, never calls `CalcScreen`, runs no `Clear`, `Gravity` or `FillScreen` and logs
none of their actions, and calls `FinishRound` exactly once (in the base round: when
the generated screen, on which the trigger is then evaluated, is inside the table). -/
theorem maxstep_zero_round (scatter : SymbolType) (g : game0001) (r : SpinRequest) (w : σ)
    (h : g.fixed.MaxStep = 0) :
    ((game0001.getBaseResult E scatter g r ⟨w, []⟩).2.2.calls.countP Call.isGenScreen = 1 ∧
     (game0001.getBaseResult E scatter g r ⟨w, []⟩).2.2.calls.countP Call.isCalcScreen = 0 ∧
     (game0001.getBaseResult E scatter g r ⟨w, []⟩).2.2.calls.countP Call.isTransform = 0 ∧
     (game0001.getBaseResult E scatter g r ⟨w, []⟩).2.2.calls.countP Call.isTransformAct = 0 ∧
     (ScreenInTable g.fixed.symbolTypes (E.GenScreen 0 w).1 →
       (game0001.getBaseResult E scatter g r ⟨w, []⟩).2.2.calls.countP
         Call.isFinishRound = 1)) ∧
    ((game0001.freeRound E r.BetMult g.fixed ⟨w, []⟩).2.calls.countP Call.isGenScreen = 1 ∧
     (game0001.freeRound E r.BetMult g.fixed ⟨w, []⟩).2.calls.countP Call.isCalcScreen = 0 ∧
     (game0001.freeRound E r.BetMult g.fixed ⟨w, []⟩).2.calls.countP Call.isTransform = 0 ∧
     (game0001.freeRound E r.BetMult g.fixed ⟨w, []⟩).2.calls.countP Call.isTransformAct = 0 ∧
     (game0001.freeRound E r.BetMult g.fixed ⟨w, []⟩).2.calls.countP Call.isFinishRound = 1) := by
  have hn : g.fixed.MaxStep.toNat = 0 := by rw [h]; rfl
  constructor
  · obtain ⟨picks, casc, tail, hp, hc, ht, e⟩ :=
      game0001.getBaseResult_calls_cascade E scatter g r ⟨w, []⟩
    rw [hn] at hc
    have hc0 := CascadeTrace.zero E hc
    subst hc0
    have c := BaseTail.counts ht
    have p1 := countP_zero_of_all Call.isGenScreen Call.isPick
      (fun c h => (Call.isPick_excl c h).1) picks hp
    have p2 := countP_zero_of_all Call.isCalcScreen Call.isPick
      (fun c h => (Call.isPick_excl c h).2.2.1) picks hp
    have p3 := countP_zero_of_all Call.isTransform Call.isPick
      (fun c h => (Call.isPick_excl c h).2.2.2.1) picks hp
    have p4 := countP_zero_of_all Call.isTransformAct Call.isPick
      (fun c h => (Call.isPick_excl c h).2.2.2.2) picks hp
    have p5 := countP_zero_of_all Call.isFinishRound Call.isPick
      (fun c h => (Call.isPick_excl c h).2.1) picks hp
    refine ⟨?_, ?_, ?_, ?_, ?_⟩
    · rw [e]
      simp [List.countP_cons, List.countP_append, Call.isGenScreen, p1, c.2.1]
    · rw [e]
      simp [List.countP_cons, List.countP_append, Call.isCalcScreen, p2, c.1]
    · rw [e]
      simp [List.countP_cons, List.countP_append, Call.isTransform, p3, c.2.2.1]
    · rw [e]
      simp [List.countP_cons, List.countP_append, Call.isTransformAct, p4, c.2.2.2.1]
    · intro hin
      have hs : game0001.baseFinalScreen E g r ⟨w, []⟩ = (E.GenScreen 0 w).1 := by
        unfold game0001.baseFinalScreen
        rw [hn]
        rfl
      obtain ⟨res, hres⟩ := game0001.getBaseResult_isSome_cascade E scatter g r ⟨w, []⟩
        (by rw [hs]; exact hin)
      obtain ⟨pre, hpre, hcnt⟩ := BaseTail.finish ht res hres
      rw [e, hpre]
      simp [List.countP_cons, List.countP_append, Call.isFinishRound, p5, hcnt]
  · obtain ⟨picks, casc, hp, hc, e⟩ := game0001.freeRound_calls_cascade E r.BetMult g.fixed ⟨w, []⟩
    rw [hn] at hc
    have hc0 := CascadeTrace.zero E hc
    subst hc0
    have p1 := countP_zero_of_all Call.isGenScreen Call.isPick
      (fun c h => (Call.isPick_excl c h).1) picks hp
    have p2 := countP_zero_of_all Call.isCalcScreen Call.isPick
      (fun c h => (Call.isPick_excl c h).2.2.1) picks hp
    have p3 := countP_zero_of_all Call.isTransform Call.isPick
      (fun c h => (Call.isPick_excl c h).2.2.2.1) picks hp
    have p4 := countP_zero_of_all Call.isTransformAct Call.isPick
      (fun c h => (Call.isPick_excl c h).2.2.2.2) picks hp
    have p5 := countP_zero_of_all Call.isFinishRound Call.isPick
      (fun c h => (Call.isPick_excl c h).2.1) picks hp
    rw [e]
    refine ⟨?_, ?_, ?_, ?_, ?_⟩
    · simp [List.countP_cons, List.countP_append, Call.isGenScreen, p1]
    · simp [List.countP_cons, List.countP_append, Call.isCalcScreen, p2]
    · simp [List.countP_cons, List.countP_append, Call.isTransform, p3]
    · simp [List.countP_cons, List.countP_append, Call.isTransformAct, p4]
    · simp [List.countP_cons, List.countP_append, Call.isFinishRound, p5]

theorem maxstep_zero_round_witness :
    (demoCascade 0 1).fixed.MaxStep = 0 ∧
    ScreenInTable (demoCascade 0 1).fixed.symbolTypes
      ((scripted [1, 1, 1, 0, 0]).GenScreen 0 ⟨[5, 5], 0, 0⟩).1 ∧
    (game0001.getBaseResult (scripted [1, 1, 1, 0, 0]) 1 (demoCascade 0 1) ⟨2⟩
        ⟨⟨[5, 5], 0, 0⟩, []⟩).2.2.calls.countP Call.isCalcScreen = 0 ∧
    (game0001.getBaseResult (scripted [1, 1, 1, 0, 0]) 1 (demoCascade 0 1) ⟨2⟩
        ⟨⟨[5, 5], 0, 0⟩, []⟩).2.2.calls.countP Call.isFinishRound = 1 ∧
    (game0001.freeRound (scripted [1, 1, 1, 0, 0]) (SpinRequest.mk 2).BetMult
        (demoCascade 0 1).fixed ⟨⟨[5, 5], 0, 0⟩, []⟩).2.calls.countP Call.isCalcScreen = 0 := by
  have T := maxstep_zero_round (scripted [1, 1, 1, 0, 0]) 1 (demoCascade 0 1) ⟨2⟩
    ⟨[5, 5], 0, 0⟩ rfl
  have hin : ScreenInTable (demoCascade 0 1).fixed.symbolTypes
      ((scripted [1, 1, 1, 0, 0]).GenScreen 0 ⟨[5, 5], 0, 0⟩).1 := by decide
  exact ⟨rfl, hin, T.1.2.1, T.1.2.2.2.2 hin, T.2.2.1⟩

/-- C4: every round calls `FinishRound` exactly once and after all its evaluation
passes: the log of a free round (of either logic) ends with its only `FinishRound`,
the log of a base round ends with its only `FinishRound` followed by `YieldResult`,
so every `CalcScreen` of the round comes before it.  The statement covers any number
of winning passes, in particular a `game0001` round whose passes all win up to the
step cap.  A base round finishes when its trigger evaluation does not panic, that is
when the screen it is evaluated on is inside the classification table. -/
theorem finish_round_once (scatter : SymbolType) (g0 : game0000) (g1 : game0001)
    (r : SpinRequest) (w : σ) :
    (ScreenInTable g0.fixed.symboltypes (E.GenScreen 0 w).1 →
      (game0000.getBaseResult E scatter g0 r.BetMult ⟨w, []⟩).2.2.calls.countP
        Call.isFinishRound = 1 ∧
      ∃ pre res, (game0000.getBaseResult E scatter g0 r.BetMult ⟨w, []⟩).2.2.calls =
        pre ++ [Call.FinishRound 0, Call.YieldResult 0 res]) ∧
    ((game0000.freeRound E r.BetMult ⟨w, []⟩).calls.countP Call.isFinishRound = 1 ∧
      ∃ pre, (game0000.freeRound E r.BetMult ⟨w, []⟩).calls = pre ++ [Call.FinishRound 1]) ∧
    (ScreenInTable g1.fixed.symbolTypes (game0001.baseFinalScreen E g1 r ⟨w, []⟩) →
      (game0001.getBaseResult E scatter g1 r ⟨w, []⟩).2.2.calls.countP
        Call.isFinishRound = 1 ∧
      ∃ pre res, (game0001.getBaseResult E scatter g1 r ⟨w, []⟩).2.2.calls =
        pre ++ [Call.FinishRound 0, Call.YieldResult 0 res]) ∧
    ((game0001.freeRound E r.BetMult g1.fixed ⟨w, []⟩).2.calls.countP
        Call.isFinishRound = 1 ∧
      ∃ pre, (game0001.freeRound E r.BetMult g1.fixed ⟨w, []⟩).2.calls =
        pre ++ [Call.FinishRound 1]) := by
  refine ⟨?_, ?_, ?_, ?_⟩
  · intro h0
    obtain ⟨tail, ht, e⟩ := game0000.getBaseResult_calls_normal E scatter g0 r.BetMult ⟨w, []⟩
    obtain ⟨res, hres⟩ := game0000.getBaseResult_isSome_normal E scatter g0 r.BetMult ⟨w, []⟩ h0
    obtain ⟨pre, hpre, hcnt⟩ := BaseTail.finish ht res hres
    obtain ⟨_, p2, _, _⟩ := game0000.roundHead_props E 0 r.BetMult ⟨w, []⟩
    rw [e, hpre]
    constructor
    · simp [List.countP_cons, List.countP_append, Call.isFinishRound, p2, hcnt]
    · exact ⟨game0000.roundHead E 0 r.BetMult ⟨w, []⟩ ++ pre, res, by simp⟩
  · obtain ⟨_, p2, _, _⟩ := game0000.roundHead_props E 1 r.BetMult ⟨w, []⟩
    rw [game0000.freeRound_calls_normal]
    constructor
    · simp [List.countP_cons, List.countP_append, Call.isFinishRound, p2]
    · exact ⟨game0000.roundHead E 1 r.BetMult ⟨w, []⟩, by simp⟩
  · intro h1
    obtain ⟨picks, casc, tail, hp, hc, ht, e⟩ :=
      game0001.getBaseResult_calls_cascade E scatter g1 r ⟨w, []⟩
    obtain ⟨res, hres⟩ := game0001.getBaseResult_isSome_cascade E scatter g1 r ⟨w, []⟩ h1
    obtain ⟨pre, hpre, hcnt⟩ := BaseTail.finish ht res hres
    have p5 := countP_zero_of_all Call.isFinishRound Call.isPick
      (fun c h => (Call.isPick_excl c h).2.1) picks hp
    have p6 := countP_zero_of_all Call.isFinishRound Call.inCascade
      (fun c h => (Call.inCascade_excl c h).2) casc (CascadeTrace.inCascade E hc)
    rw [e, hpre]
    constructor
    · simp [List.countP_cons, List.countP_append, Call.isFinishRound, p5, p6, hcnt]
    · exact ⟨Call.GenScreen 0 (E.GenScreen 0 w).1 ::
        Call.AddAct 0 .FinishAct "gen_screen" (some (E.GenScreen 0 w).1) none ::
        (picks ++ casc ++ pre), res, by simp [Run.GenScreen]⟩
  · obtain ⟨picks, casc, hp, hc, e⟩ := game0001.freeRound_calls_cascade E r.BetMult g1.fixed ⟨w, []⟩
    have p5 := countP_zero_of_all Call.isFinishRound Call.isPick
      (fun c h => (Call.isPick_excl c h).2.1) picks hp
    have p6 := countP_zero_of_all Call.isFinishRound Call.inCascade
      (fun c h => (Call.inCascade_excl c h).2) casc (CascadeTrace.inCascade E hc)
    rw [e]
    constructor
    · simp [List.countP_cons, List.countP_append, Call.isFinishRound, p5, p6]
    · exact ⟨Call.GenScreen 1 (E.GenScreen 1 w).1 ::
        Call.AddAct 1 .FinishAct "gen_screen" (some (E.GenScreen 1 w).1) none ::
        (picks ++ casc), by simp [Run.GenScreen]⟩

/-- The run of the witness reaches the step cap: `MaxStep` is 2 and both passes win,
so the log holds two `CalcScreen` and no `FinishStep`. -/
theorem finish_round_once_witness :
    ScreenInTable (demoNormal 1).fixed.symboltypes
      ((scripted [1, 1, 1, 0, 0]).GenScreen 0 ⟨[5, 5, 5, 5], 0, 0⟩).1 ∧
    ScreenInTable (demoCascade 2 1).fixed.symbolTypes
      (game0001.baseFinalScreen (scripted [1, 1, 1, 0, 0]) (demoCascade 2 1) ⟨2⟩
        ⟨⟨[5, 5, 5, 5], 0, 0⟩, []⟩) ∧
    (game0001.getBaseResult (scripted [1, 1, 1, 0, 0]) 1 (demoCascade 2 1) ⟨2⟩
        ⟨⟨[5, 5, 5, 5], 0, 0⟩, []⟩).2.2.calls.countP Call.isCalcScreen = 2 ∧
    (game0001.getBaseResult (scripted [1, 1, 1, 0, 0]) 1 (demoCascade 2 1) ⟨2⟩
        ⟨⟨[5, 5, 5, 5], 0, 0⟩, []⟩).2.2.calls.countP Call.isFinishStep = 0 ∧
    (game0001.getBaseResult (scripted [1, 1, 1, 0, 0]) 1 (demoCascade 2 1) ⟨2⟩
        ⟨⟨[5, 5, 5, 5], 0, 0⟩, []⟩).2.2.calls.countP Call.isFinishRound = 1 ∧
    (game0001.freeRound (scripted [1, 1, 1, 0, 0]) (SpinRequest.mk 2).BetMult
        (demoCascade 2 1).fixed ⟨⟨[5, 5, 5, 5], 0, 0⟩, []⟩).2.calls.countP
        Call.isFinishRound = 1 ∧
    (game0000.getBaseResult (scripted [1, 1, 1, 0, 0]) 1 (demoNormal 1)
        (SpinRequest.mk 2).BetMult ⟨⟨[5, 5, 5, 5], 0, 0⟩, []⟩).2.2.calls.countP
        Call.isFinishRound = 1 ∧
    (game0000.freeRound (scripted [1, 1, 1, 0, 0]) (SpinRequest.mk 2).BetMult
        ⟨⟨[5, 5, 5, 5], 0, 0⟩, []⟩).calls.countP Call.isFinishRound = 1 := by
  have hA : ScreenInTable (demoNormal 1).fixed.symboltypes
      ((scripted [1, 1, 1, 0, 0]).GenScreen 0 ⟨[5, 5, 5, 5], 0, 0⟩).1 := by decide
  have hB : ScreenInTable (demoCascade 2 1).fixed.symbolTypes
      (game0001.baseFinalScreen (scripted [1, 1, 1, 0, 0]) (demoCascade 2 1) ⟨2⟩
        ⟨⟨[5, 5, 5, 5], 0, 0⟩, []⟩) := by decide
  have T := finish_round_once (scripted [1, 1, 1, 0, 0]) 1 (demoNormal 1) (demoCascade 2 1)
    ⟨2⟩ ⟨[5, 5, 5, 5], 0, 0⟩
  exact ⟨hA, hB, by decide, by decide, (T.2.2.1 hB).1, T.2.2.2.1, (T.1 hA).1, T.2.1.1⟩

/-! ### Mode results inside a spin -/

theorem game0000.getBaseResult_spin_normal (scatter : SymbolType) (g : game0000) (b : Int)
    (run : Run σ R S) :
    ∃ new, (game0000.getBaseResult E scatter g b run).2.2.calls = run.calls ++ new ∧
      new.filter Call.isSpinLevel = [] ∧ new.countP Call.isGenScreen = 1 := by
  obtain ⟨tail, ht, e⟩ := game0000.getBaseResult_calls_normal E scatter g b run
  obtain ⟨p1, _, _, p4⟩ := game0000.roundHead_props E 0 b run
  have f1 := filter_nil_of_all Call.isSpinLevel Call.inFreeRound
    (fun c h => (Call.inFreeRound_excl c h).1) _ p4
  refine ⟨_, e, ?_, ?_⟩
  · rw [List.filter_append, f1, (BaseTail.counts ht).2.2.2.2.1]
    rfl
  · rw [List.countP_append, p1, (BaseTail.counts ht).2.1]

theorem game0001.getBaseResult_spin_cascade (scatter : SymbolType) (g : game0001) (r : SpinRequest)
    (run : Run σ R S) :
    ∃ new, (game0001.getBaseResult E scatter g r run).2.2.calls = run.calls ++ new ∧
      new.filter Call.isSpinLevel = [] ∧ new.countP Call.isGenScreen = 1 := by
  obtain ⟨picks, casc, tail, hp, hc, ht, e⟩ := game0001.getBaseResult_calls_cascade E scatter g r run
  have f1 := filter_nil_of_all Call.isSpinLevel Call.isPick
    (fun c h => (Call.inFreeRound_excl c (Call.inFreeRound_of_isPick c h)).1) picks hp
  have f2 := filter_nil_of_all Call.isSpinLevel Call.inCascade
    (fun c h => (Call.inFreeRound_excl c (Call.inFreeRound_of_inCascade c h)).1) casc
    (CascadeTrace.inCascade E hc)
  have p1 := countP_zero_of_all Call.isGenScreen Call.isPick
    (fun c h => (Call.isPick_excl c h).1) picks hp
  have p2 := countP_zero_of_all Call.isGenScreen Call.inCascade
    (fun c h => (Call.inCascade_excl c h).1) casc (CascadeTrace.inCascade E hc)
  refine ⟨_, e, ?_, ?_⟩
  · simp [List.filter_cons, List.filter_append, Call.isSpinLevel, f1, f2,
      (BaseTail.counts ht).2.2.2.2.1]
  · simp [List.countP_cons, List.countP_append, Call.isGenScreen, p1, p2,
      (BaseTail.counts ht).2.1]

theorem game0000.getFreeResult_calls_normal (g : game0000) (b : Int) (run : Run σ R S) :
    ∃ new, (game0000.getFreeResult E g b run).2.2.calls =
        run.calls ++ new ++ [Call.YieldResult 1 (game0000.getFreeResult E g b run).1] ∧
      new.countP Call.isGenScreen = g.fixed.FreeRound.toNat ∧
      new.countP Call.isFinishRound = g.fixed.FreeRound.toNat ∧
      (∀ c ∈ new, Call.inFreeRound c = true) := by
  obtain ⟨new, e, h1, h2, h3⟩ := game0000.freeLoop_calls_normal E b g.fixed.FreeRound.toNat run
  refine ⟨new, ?_, h1, h2, h3⟩
  unfold game0000.getFreeResult
  simp only [Run.YieldResult_calls, e]

theorem game0001.getFreeResult_calls_cascade (g : game0001) (r : SpinRequest) (run : Run σ R S) :
    ∃ new, (game0001.getFreeResult E g r run).2.2.calls =
        run.calls ++ new ++ [Call.YieldResult 1 (game0001.getFreeResult E g r run).1] ∧
      new.countP Call.isGenScreen = g.fixed.FreeRounds.toNat ∧
      new.countP Call.isFinishRound = g.fixed.FreeRounds.toNat ∧
      (∀ c ∈ new, Call.inFreeRound c = true) := by
  obtain ⟨new, e, h1, h2, h3⟩ :=
    game0001.freeLoop_calls_cascade E r.BetMult g.fixed.FreeRounds.toNat g.fixed run
  refine ⟨new, ?_, h1, h2, h3⟩
  unfold game0001.getFreeResult
  simp only [Run.YieldResult_calls, e]

theorem game0000.GetResult_shape_normal (scatter : SymbolType) (g : game0000) (r : SpinRequest)
    (w : σ) (base : R) (hb : (game0000.baseOf E scatter g r w).1 = some base) :
    (game0000.GetResult E scatter g r ⟨w, []⟩).1 = some (E.StartNewSpin r w).1 ∧
    ∃ newB newF, newB.filter Call.isSpinLevel = [] ∧ newF.filter Call.isSpinLevel = [] ∧
      (game0000.GetResult E scatter g r ⟨w, []⟩).2.2.calls =
        Call.StartNewSpin r (E.StartNewSpin r w).1 :: (newB ++
          Call.AppendModeResult (E.StartNewSpin r w).1 base ::
          ((if E.Trigger base (game0000.appended E scatter g r w base).world ≠ 0 then
              newF ++ [Call.AppendModeResult (E.StartNewSpin r w).1
                (game0000.freeOf E scatter g r w base).1]
            else []) ++ [Call.End (E.StartNewSpin r w).1])) := by
  obtain ⟨newB, eB, fB, _⟩ := game0000.getBaseResult_spin_normal E scatter g r.BetMult
    ((⟨w, []⟩ : Run σ R S).StartNewSpin E r).2
  obtain ⟨newF, eF, _, _, aF⟩ := game0000.getFreeResult_calls_normal E
    (game0000.baseOf E scatter g r w).2.1 r.BetMult (game0000.appended E scatter g r w base)
  have fF := filter_nil_of_all Call.isSpinLevel Call.inFreeRound
    (fun c h => (Call.inFreeRound_excl c h).1) newF aF
  have hB : game0000.getBaseResult E scatter g r.BetMult
      ((⟨w, []⟩ : Run σ R S).StartNewSpin E r).2 =
      (some base, (game0000.baseOf E scatter g r w).2.1,
        (game0000.baseOf E scatter g r w).2.2) := by
    rw [← hb]
    rfl
  have eB2 : (game0000.baseOf E scatter g r w).2.2.calls =
      Call.StartNewSpin r (E.StartNewSpin r w).1 :: newB := by
    rw [show (game0000.baseOf E scatter g r w).2.2.calls = _ from eB]
    rfl
  unfold game0000.GetResult
  simp only [hB]
  by_cases ht : E.Trigger base (game0000.appended E scatter g r w base).world ≠ 0
  · have ht2 : E.Trigger base ((game0000.baseOf E scatter g r w).2.2.AppendModeResult E
        ((⟨w, []⟩ : Run σ R S).StartNewSpin E r).1 base).world ≠ 0 := ht
    rw [if_pos ht2]
    refine ⟨rfl, newB, newF ++ [Call.YieldResult 1 (game0000.freeOf E scatter g r w base).1],
      fB, ?_, ?_⟩
    · simp [List.filter_append, fF, List.filter_cons, Call.isSpinLevel]
    · rw [if_pos ht]
      have eF2 : (game0000.freeOf E scatter g r w base).2.2.calls = _ := eF
      have eA : (game0000.appended E scatter g r w base).calls =
          (game0000.baseOf E scatter g r w).2.2.calls ++
            [Call.AppendModeResult (E.StartNewSpin r w).1 base] := rfl
      show ((game0000.freeOf E scatter g r w base).2.2.calls ++ _) ++ _ = _
      rw [eF2, eA, eB2]
      simp
      exact ⟨rfl, ⟨rfl, rfl⟩, rfl⟩
  · have ht2 : ¬ E.Trigger base ((game0000.baseOf E scatter g r w).2.2.AppendModeResult E
        ((⟨w, []⟩ : Run σ R S).StartNewSpin E r).1 base).world ≠ 0 := ht
    rw [if_neg ht2]
    refine ⟨rfl, newB, [], fB, rfl, ?_⟩
    rw [if_neg ht]
    show ((game0000.baseOf E scatter g r w).2.2.calls ++ _) ++ _ = _
    rw [eB2]
    simp
    rfl

theorem game0001.GetResult_shape_cascade (scatter : SymbolType) (g : game0001) (r : SpinRequest)
    (w : σ) (base : R) (hb : (game0001.baseOf E scatter g r w).1 = some base) :
    (game0001.GetResult E scatter g r ⟨w, []⟩).1 = some (E.StartNewSpin r w).1 ∧
    ∃ newB newF, newB.filter Call.isSpinLevel = [] ∧ newF.filter Call.isSpinLevel = [] ∧
      (game0001.GetResult E scatter g r ⟨w, []⟩).2.2.calls =
        Call.StartNewSpin r (E.StartNewSpin r w).1 :: (newB ++
          Call.AppendModeResult (E.StartNewSpin r w).1 base ::
          ((if E.Trigger base (game0001.appended E scatter g r w base).world ≠ 0 then
              newF ++ [Call.AppendModeResult (E.StartNewSpin r w).1
                (game0001.freeOf E scatter g r w base).1]
            else []) ++ [Call.End (E.StartNewSpin r w).1])) := by
  obtain ⟨newB, eB, fB, _⟩ := game0001.getBaseResult_spin_cascade E scatter g r
    ((⟨w, []⟩ : Run σ R S).StartNewSpin E r).2
  obtain ⟨newF, eF, _, _, aF⟩ := game0001.getFreeResult_calls_cascade E
    (game0001.baseOf E scatter g r w).2.1 r (game0001.appended E scatter g r w base)
  have fF := filter_nil_of_all Call.isSpinLevel Call.inFreeRound
    (fun c h => (Call.inFreeRound_excl c h).1) newF aF
  have hB : game0001.getBaseResult E scatter g r
      ((⟨w, []⟩ : Run σ R S).StartNewSpin E r).2 =
      (some base, (game0001.baseOf E scatter g r w).2.1,
        (game0001.baseOf E scatter g r w).2.2) := by
    rw [← hb]
    rfl
  have eB2 : (game0001.baseOf E scatter g r w).2.2.calls =
      Call.StartNewSpin r (E.StartNewSpin r w).1 :: newB := by
    rw [show (game0001.baseOf E scatter g r w).2.2.calls = _ from eB]
    rfl
  unfold game0001.GetResult
  simp only [hB]
  by_cases ht : E.Trigger base (game0001.appended E scatter g r w base).world ≠ 0
  · have ht2 : E.Trigger base ((game0001.baseOf E scatter g r w).2.2.AppendModeResult E
        ((⟨w, []⟩ : Run σ R S).StartNewSpin E r).1 base).world ≠ 0 := ht
    rw [if_pos ht2]
    refine ⟨rfl, newB, newF ++ [Call.YieldResult 1 (game0001.freeOf E scatter g r w base).1],
      fB, ?_, ?_⟩
    · simp [List.filter_append, fF, List.filter_cons, Call.isSpinLevel]
    · rw [if_pos ht]
      have eF2 : (game0001.freeOf E scatter g r w base).2.2.calls = _ := eF
      have eA : (game0001.appended E scatter g r w base).calls =
          (game0001.baseOf E scatter g r w).2.2.calls ++
            [Call.AppendModeResult (E.StartNewSpin r w).1 base] := rfl
      show ((game0001.freeOf E scatter g r w base).2.2.calls ++ _) ++ _ = _
      rw [eF2, eA, eB2]
      simp
      exact ⟨rfl, ⟨rfl, rfl⟩, rfl⟩
  · have ht2 : ¬ E.Trigger base ((game0001.baseOf E scatter g r w).2.2.AppendModeResult E
        ((⟨w, []⟩ : Run σ R S).StartNewSpin E r).1 base).world ≠ 0 := ht
    rw [if_neg ht2]
    refine ⟨rfl, newB, [], fB, rfl, ?_⟩
    rw [if_neg ht]
    show ((game0001.baseOf E scatter g r w).2.2.calls ++ _) ++ _ = _
    rw [eB2]
    simp
    rfl

theorem game0000.getBaseResult_fixed (scatter : SymbolType) (g : game0000) (b : Int)
    (run : Run σ R S) : (game0000.getBaseResult E scatter g b run).2.1.fixed = g.fixed := by
  have h := (game0000.trigger_fixed_normal scatter { fixed := g.fixed, ext := g.ext.Reset }
    (run.GenScreen E 0).1).1
  unfold game0000.getBaseResult
  simp only []
  split
  · rename_i g2 heq
    rw [heq] at h
    exact h
  · rename_i t g2 heq
    rw [heq] at h
    exact h

theorem game0001.getBaseResult_freeRounds (scatter : SymbolType) (g : game0001)
    (r : SpinRequest) (run : Run σ R S) :
    (game0001.getBaseResult E scatter g r run).2.1.fixed.FreeRounds = g.fixed.FreeRounds := by
  obtain ⟨idx, pos, hl, e⟩ := game0001.cascade_fixed E 0 r.BetMult g.fixed.MaxStep.toNat
    (run.GenScreen E 0).1 (game0001.basePicks E g run).1 (game0001.basePicks E g run).2
  have h := (game0001.trigger_fixed_cascade scatter
    { g with fixed := (game0001.cascade E 0 r.BetMult g.fixed.MaxStep.toNat (run.GenScreen E 0).1
        (game0001.basePicks E g run).1 (game0001.basePicks E g run).2).2.1 }
    (game0001.baseFinalScreen E g r run)).1
  have h2 : (game0001.cascade E 0 r.BetMult g.fixed.MaxStep.toNat (run.GenScreen E 0).1
      (game0001.basePicks E g run).1 (game0001.basePicks E g run).2).2.1.FreeRounds
      = g.fixed.FreeRounds := by
    rw [e]; rfl
  unfold game0001.getBaseResult
  unfold game0001.baseFinalScreen game0001.basePicks at h
  unfold game0001.basePicks at h2
  simp only [] at h ⊢
  split
  · rename_i g2 heq
    rw [heq] at h
    simp only at h
    rw [h]
    exact h2
  · rename_i t g2 heq
    rw [heq] at h
    simp only at h
    rw [h]
    exact h2

theorem game0000.getFreeResult_zero_normal (g : game0000) (b : Int) (run : Run σ R S)
    (h : g.fixed.FreeRound = 0) :
    (game0000.getFreeResult E g b run).2.2.calls =
      run.calls ++ [Call.YieldResult 1 (game0000.getFreeResult E g b run).1] := by
  unfold game0000.getFreeResult
  simp only [h]
  rfl

theorem game0001.getFreeResult_zero_cascade (g : game0001) (r : SpinRequest) (run : Run σ R S)
    (h : g.fixed.FreeRounds = 0) :
    (game0001.getFreeResult E g r run).2.2.calls =
      run.calls ++ [Call.YieldResult 1 (game0001.getFreeResult E g r run).1] := by
  unfold game0001.getFreeResult
  simp only [h]
  rfl

theorem game0000.GetResult_triggered_normal (scatter : SymbolType) (g : game0000) (r : SpinRequest)
    (w : σ) (base : R) (hb : (game0000.baseOf E scatter g r w).1 = some base)
    (ht : E.Trigger base (game0000.appended E scatter g r w base).world ≠ 0) :
    (game0000.GetResult E scatter g r ⟨w, []⟩).2.2.calls =
      (game0000.freeOf E scatter g r w base).2.2.calls ++
        [Call.AppendModeResult (E.StartNewSpin r w).1 (game0000.freeOf E scatter g r w base).1,
         Call.End (E.StartNewSpin r w).1] := by
  have hB : game0000.getBaseResult E scatter g r.BetMult
      ((⟨w, []⟩ : Run σ R S).StartNewSpin E r).2 =
      (some base, (game0000.baseOf E scatter g r w).2.1,
        (game0000.baseOf E scatter g r w).2.2) := by
    rw [← hb]
    rfl
  have ht2 : E.Trigger base ((game0000.baseOf E scatter g r w).2.2.AppendModeResult E
      ((⟨w, []⟩ : Run σ R S).StartNewSpin E r).1 base).world ≠ 0 := ht
  unfold game0000.GetResult
  simp only [hB]
  rw [if_pos ht2]
  show ((game0000.freeOf E scatter g r w base).2.2.calls ++ _) ++ _ = _
  simp
  exact ⟨⟨rfl, rfl⟩, rfl⟩

theorem game0001.GetResult_triggered_cascade (scatter : SymbolType) (g : game0001) (r : SpinRequest)
    (w : σ) (base : R) (hb : (game0001.baseOf E scatter g r w).1 = some base)
    (ht : E.Trigger base (game0001.appended E scatter g r w base).world ≠ 0) :
    (game0001.GetResult E scatter g r ⟨w, []⟩).2.2.calls =
      (game0001.freeOf E scatter g r w base).2.2.calls ++
        [Call.AppendModeResult (E.StartNewSpin r w).1 (game0001.freeOf E scatter g r w base).1,
         Call.End (E.StartNewSpin r w).1] := by
  have hB : game0001.getBaseResult E scatter g r
      ((⟨w, []⟩ : Run σ R S).StartNewSpin E r).2 =
      (some base, (game0001.baseOf E scatter g r w).2.1,
        (game0001.baseOf E scatter g r w).2.2) := by
    rw [← hb]
    rfl
  have ht2 : E.Trigger base ((game0001.baseOf E scatter g r w).2.2.AppendModeResult E
      ((⟨w, []⟩ : Run σ R S).StartNewSpin E r).1 base).world ≠ 0 := ht
  unfold game0001.GetResult
  simp only [hB]
  rw [if_pos ht2]
  show ((game0001.freeOf E scatter g r w base).2.2.calls ++ _) ++ _ = _
  simp
  exact ⟨⟨rfl, rfl⟩, rfl⟩

/-- C5: for both logics and every request, `GetResult` calls `StartNewSpin` once and
first, appends the base-mode result, then appends the free-mode result exactly when
the `Trigger` of the base result is non-zero, calls `End` once and last, and returns
the spin record `StartNewSpin` handed out: the log is `StartNewSpin`, then `mid`, then
`End`, where the spin-level calls of `mid` are the append of the base result followed,
iff triggered, by the append of the free result.  With a free round count of 0 and a
triggered base round, what follows the base mode in the log is exactly: the append of
the base result, `YieldResult` of the free mode (no round of it ran), the append of
the free result, `End`.  The base round is assumed to return, that is the screen
its trigger is evaluated on lies inside the classification table. -/
theorem getResult_spin_shape (scatter : SymbolType) (g0 : game0000) (g1 : game0001)
    (r : SpinRequest) (w : σ) :
    (ScreenInTable g0.fixed.symboltypes (E.GenScreen 0 (E.StartNewSpin r w).2).1 →
     ∃ base mid, (game0000.baseOf E scatter g0 r w).1 = some base ∧
      (game0000.GetResult E scatter g0 r ⟨w, []⟩).1 = some (E.StartNewSpin r w).1 ∧
      (game0000.GetResult E scatter g0 r ⟨w, []⟩).2.2.calls =
        Call.StartNewSpin r (E.StartNewSpin r w).1 ::
          (mid ++ [Call.End (E.StartNewSpin r w).1]) ∧
      mid.filter Call.isSpinLevel =
        Call.AppendModeResult (E.StartNewSpin r w).1 base ::
          (if E.Trigger base (game0000.appended E scatter g0 r w base).world ≠ 0 then
            [Call.AppendModeResult (E.StartNewSpin r w).1
              (game0000.freeOf E scatter g0 r w base).1]
           else []) ∧
      (g0.fixed.FreeRound = 0 →
        E.Trigger base (game0000.appended E scatter g0 r w base).world ≠ 0 →
        (game0000.GetResult E scatter g0 r ⟨w, []⟩).2.2.calls =
          (game0000.baseOf E scatter g0 r w).2.2.calls ++
            [Call.AppendModeResult (E.StartNewSpin r w).1 base,
             Call.YieldResult 1 (game0000.freeOf E scatter g0 r w base).1,
             Call.AppendModeResult (E.StartNewSpin r w).1
               (game0000.freeOf E scatter g0 r w base).1,
             Call.End (E.StartNewSpin r w).1])) ∧
    (ScreenInTable g1.fixed.symbolTypes
      (game0001.baseFinalScreen E g1 r ((⟨w, []⟩ : Run σ R S).StartNewSpin E r).2) →
     ∃ base mid, (game0001.baseOf E scatter g1 r w).1 = some base ∧
      (game0001.GetResult E scatter g1 r ⟨w, []⟩).1 = some (E.StartNewSpin r w).1 ∧
      (game0001.GetResult E scatter g1 r ⟨w, []⟩).2.2.calls =
        Call.StartNewSpin r (E.StartNewSpin r w).1 ::
          (mid ++ [Call.End (E.StartNewSpin r w).1]) ∧
      mid.filter Call.isSpinLevel =
        Call.AppendModeResult (E.StartNewSpin r w).1 base ::
          (if E.Trigger base (game0001.appended E scatter g1 r w base).world ≠ 0 then
            [Call.AppendModeResult (E.StartNewSpin r w).1
              (game0001.freeOf E scatter g1 r w base).1]
           else []) ∧
      (g1.fixed.FreeRounds = 0 →
        E.Trigger base (game0001.appended E scatter g1 r w base).world ≠ 0 →
        (game0001.GetResult E scatter g1 r ⟨w, []⟩).2.2.calls =
          (game0001.baseOf E scatter g1 r w).2.2.calls ++
            [Call.AppendModeResult (E.StartNewSpin r w).1 base,
             Call.YieldResult 1 (game0001.freeOf E scatter g1 r w base).1,
             Call.AppendModeResult (E.StartNewSpin r w).1
               (game0001.freeOf E scatter g1 r w base).1,
             Call.End (E.StartNewSpin r w).1])) := by
  constructor
  · intro h0
    obtain ⟨base, hb⟩ := game0000.getBaseResult_isSome_normal E scatter g0 r.BetMult
      ((⟨w, []⟩ : Run σ R S).StartNewSpin E r).2 h0
    obtain ⟨hr, newB, newF, fB, fF, e⟩ := game0000.GetResult_shape_normal E scatter g0 r w base hb
    refine ⟨base, newB ++ Call.AppendModeResult (E.StartNewSpin r w).1 base ::
      (if E.Trigger base (game0000.appended E scatter g0 r w base).world ≠ 0 then
        newF ++ [Call.AppendModeResult (E.StartNewSpin r w).1
          (game0000.freeOf E scatter g0 r w base).1]
       else []), hb, hr, ?_, ?_, ?_⟩
    · rw [e]; simp
    · split_ifs <;> simp [List.filter_append, List.filter_cons, fB, fF, Call.isSpinLevel]
    · intro hz ht
      rw [game0000.GetResult_triggered_normal E scatter g0 r w base hb ht]
      have hf : (game0000.baseOf E scatter g0 r w).2.1.fixed.FreeRound = 0 := by
        rw [show (game0000.baseOf E scatter g0 r w).2.1.fixed = g0.fixed from
          game0000.getBaseResult_fixed E scatter g0 r.BetMult _]
        exact hz
      have hq := game0000.getFreeResult_zero_normal E (game0000.baseOf E scatter g0 r w).2.1
        r.BetMult (game0000.appended E scatter g0 r w base) hf
      rw [show (game0000.freeOf E scatter g0 r w base).2.2.calls = _ from hq]
      simp [game0000.appended, game0000.freeOf]
  · intro h1
    obtain ⟨base, hb⟩ := game0001.getBaseResult_isSome_cascade E scatter g1 r
      ((⟨w, []⟩ : Run σ R S).StartNewSpin E r).2 h1
    obtain ⟨hr, newB, newF, fB, fF, e⟩ := game0001.GetResult_shape_cascade E scatter g1 r w base hb
    refine ⟨base, newB ++ Call.AppendModeResult (E.StartNewSpin r w).1 base ::
      (if E.Trigger base (game0001.appended E scatter g1 r w base).world ≠ 0 then
        newF ++ [Call.AppendModeResult (E.StartNewSpin r w).1
          (game0001.freeOf E scatter g1 r w base).1]
       else []), hb, hr, ?_, ?_, ?_⟩
    · rw [e]; simp
    · split_ifs <;> simp [List.filter_append, List.filter_cons, fB, fF, Call.isSpinLevel]
    · intro hz ht
      rw [game0001.GetResult_triggered_cascade E scatter g1 r w base hb ht]
      have hf : (game0001.baseOf E scatter g1 r w).2.1.fixed.FreeRounds = 0 := by
        rw [show (game0001.baseOf E scatter g1 r w).2.1.fixed.FreeRounds = g1.fixed.FreeRounds
          from game0001.getBaseResult_freeRounds E scatter g1 r _]
        exact hz
      have hq := game0001.getFreeResult_zero_cascade E (game0001.baseOf E scatter g1 r w).2.1
        r (game0001.appended E scatter g1 r w base) hf
      rw [show (game0001.freeOf E scatter g1 r w base).2.2.calls = _ from hq]
      simp [game0001.appended, game0001.freeOf]

/-- The run of the witness has a triggered base round (three scatters) and a free
round count of 0 in both logics. -/
theorem getResult_spin_shape_witness :
    ScreenInTable (demoNormal 0).fixed.symboltypes
      ((scripted [1, 1, 1, 0, 0]).GenScreen 0
        ((scripted [1, 1, 1, 0, 0]).StartNewSpin ⟨2⟩ ⟨[5], 0, 0⟩).2).1 ∧
    ScreenInTable (demoCascade 2 0).fixed.symbolTypes
      (game0001.baseFinalScreen (scripted [1, 1, 1, 0, 0]) (demoCascade 2 0) ⟨2⟩
        ((⟨⟨[5], 0, 0⟩, []⟩ : Run Script Int Int).StartNewSpin (scripted [1, 1, 1, 0, 0])
          ⟨2⟩).2) ∧
    (game0000.GetResult (scripted [1, 1, 1, 0, 0]) 1 (demoNormal 0) ⟨2⟩
        ⟨⟨[5], 0, 0⟩, []⟩).1 = some ((scripted [1, 1, 1, 0, 0]).StartNewSpin ⟨2⟩ ⟨[5], 0, 0⟩).1 ∧
    (game0001.GetResult (scripted [1, 1, 1, 0, 0]) 1 (demoCascade 2 0) ⟨2⟩
        ⟨⟨[5], 0, 0⟩, []⟩).1 = some ((scripted [1, 1, 1, 0, 0]).StartNewSpin ⟨2⟩ ⟨[5], 0, 0⟩).1 ∧
    (game0000.GetResult (scripted [1, 1, 1, 0, 0]) 1 (demoNormal 0) ⟨2⟩
        ⟨⟨[5], 0, 0⟩, []⟩).2.2.calls =
      (game0000.baseOf (scripted [1, 1, 1, 0, 0]) 1 (demoNormal 0) ⟨2⟩ ⟨[5], 0, 0⟩).2.2.calls ++
        [Call.AppendModeResult ((scripted [1, 1, 1, 0, 0]).StartNewSpin ⟨2⟩ ⟨[5], 0, 0⟩).1 1,
         Call.YieldResult 1
           (game0000.freeOf (scripted [1, 1, 1, 0, 0]) 1 (demoNormal 0) ⟨2⟩ ⟨[5], 0, 0⟩ 1).1,
         Call.AppendModeResult ((scripted [1, 1, 1, 0, 0]).StartNewSpin ⟨2⟩ ⟨[5], 0, 0⟩).1
           (game0000.freeOf (scripted [1, 1, 1, 0, 0]) 1 (demoNormal 0) ⟨2⟩ ⟨[5], 0, 0⟩ 1).1,
         Call.End ((scripted [1, 1, 1, 0, 0]).StartNewSpin ⟨2⟩ ⟨[5], 0, 0⟩).1] ∧
    (game0001.GetResult (scripted [1, 1, 1, 0, 0]) 1 (demoCascade 2 0) ⟨2⟩
        ⟨⟨[5], 0, 0⟩, []⟩).2.2.calls =
      (game0001.baseOf (scripted [1, 1, 1, 0, 0]) 1 (demoCascade 2 0) ⟨2⟩ ⟨[5], 0, 0⟩).2.2.calls ++
        [Call.AppendModeResult ((scripted [1, 1, 1, 0, 0]).StartNewSpin ⟨2⟩ ⟨[5], 0, 0⟩).1 1,
         Call.YieldResult 1
           (game0001.freeOf (scripted [1, 1, 1, 0, 0]) 1 (demoCascade 2 0) ⟨2⟩ ⟨[5], 0, 0⟩ 1).1,
         Call.AppendModeResult ((scripted [1, 1, 1, 0, 0]).StartNewSpin ⟨2⟩ ⟨[5], 0, 0⟩).1
           (game0001.freeOf (scripted [1, 1, 1, 0, 0]) 1 (demoCascade 2 0) ⟨2⟩ ⟨[5], 0, 0⟩ 1).1,
         Call.End ((scripted [1, 1, 1, 0, 0]).StartNewSpin ⟨2⟩ ⟨[5], 0, 0⟩).1] := by
  have hA : ScreenInTable (demoNormal 0).fixed.symboltypes
      ((scripted [1, 1, 1, 0, 0]).GenScreen 0
        ((scripted [1, 1, 1, 0, 0]).StartNewSpin ⟨2⟩ ⟨[5], 0, 0⟩).2).1 := by decide
  have hB : ScreenInTable (demoCascade 2 0).fixed.symbolTypes
      (game0001.baseFinalScreen (scripted [1, 1, 1, 0, 0]) (demoCascade 2 0) ⟨2⟩
        ((⟨⟨[5], 0, 0⟩, []⟩ : Run Script Int Int).StartNewSpin (scripted [1, 1, 1, 0, 0])
          ⟨2⟩).2) := by decide
  have T := getResult_spin_shape (scripted [1, 1, 1, 0, 0]) 1 (demoNormal 0) (demoCascade 2 0)
    ⟨2⟩ ⟨[5], 0, 0⟩
  obtain ⟨b0, m0, hb0, r0, _, _, z0⟩ := T.1 hA
  obtain ⟨b1, m1, hb1, r1, _, _, z1⟩ := T.2 hB
  have e0 : (game0000.baseOf (scripted [1, 1, 1, 0, 0]) 1 (demoNormal 0) ⟨2⟩
      ⟨[5], 0, 0⟩).1 = some 1 := by decide
  have e1 : (game0001.baseOf (scripted [1, 1, 1, 0, 0]) 1 (demoCascade 2 0) ⟨2⟩
      ⟨[5], 0, 0⟩).1 = some 1 := by decide
  rw [e0] at hb0
  rw [e1] at hb1
  cases hb0
  cases hb1
  exact ⟨hA, hB, r0, r1, z0 rfl (by decide), z1 rfl (by decide)⟩

theorem Call.inFreeRound_no_trigger (c : Call R S) (h : Call.inFreeRound c = true) :
    Call.isTriggerAct c = false := by
  cases c <;> simp_all [Call.inFreeRound, Call.isTriggerAct]
  rcases h with ((((h | h) | h) | h) | h) | h <;> simp [h]

theorem game0000.getBaseResult_finish_count_normal (scatter : SymbolType) (g : game0000) (b : Int)
    (w : σ) (h : ScreenInTable g.fixed.symboltypes (E.GenScreen 0 w).1) :
    (game0000.getBaseResult E scatter g b ⟨w, []⟩).2.2.calls.countP Call.isFinishRound = 1 := by
  obtain ⟨tail, ht, e⟩ := game0000.getBaseResult_calls_normal E scatter g b ⟨w, []⟩
  obtain ⟨res, hres⟩ := game0000.getBaseResult_isSome_normal E scatter g b ⟨w, []⟩ h
  obtain ⟨pre, hpre, hcnt⟩ := BaseTail.finish ht res hres
  obtain ⟨_, p2, _, _⟩ := game0000.roundHead_props E 0 b ⟨w, []⟩
  rw [e, hpre]
  simp [List.countP_cons, List.countP_append, Call.isFinishRound, p2, hcnt]

theorem game0001.getBaseResult_finish_count_cascade (scatter : SymbolType) (g : game0001)
    (r : SpinRequest) (w : σ)
    (h : ScreenInTable g.fixed.symbolTypes (game0001.baseFinalScreen E g r ⟨w, []⟩)) :
    (game0001.getBaseResult E scatter g r ⟨w, []⟩).2.2.calls.countP Call.isFinishRound = 1 := by
  obtain ⟨picks, casc, tail, hp, hc, ht, e⟩ :=
    game0001.getBaseResult_calls_cascade E scatter g r ⟨w, []⟩
  obtain ⟨res, hres⟩ := game0001.getBaseResult_isSome_cascade E scatter g r ⟨w, []⟩ h
  obtain ⟨pre, hpre, hcnt⟩ := BaseTail.finish ht res hres
  have p5 := countP_zero_of_all Call.isFinishRound Call.isPick
    (fun c h => (Call.isPick_excl c h).2.1) picks hp
  have p6 := countP_zero_of_all Call.isFinishRound Call.inCascade
    (fun c h => (Call.inCascade_excl c h).2) casc (CascadeTrace.inCascade E hc)
  rw [e, hpre]
  simp [List.countP_cons, List.countP_append, Call.isFinishRound, p5, p6, hcnt]

/-- C6: base mode runs exactly one round and free mode exactly the configured number
of rounds.  `getFreeResult` of either logic calls `GenScreen` and `FinishRound` each
`max count 0` times, that is `count` times for a count >= 0 and never for a negative
one; `getBaseResult` calls each exactly once (`FinishRound` when its trigger
evaluation returns).  The trigger evaluator does not run in free mode: free mode
writes no trigger code and logs no "trigger" action, and whatever the screens hold
it leaves the extension state reset (`game0000`, which calls `Reset` there) or
untouched (`game0001`). -/
theorem round_counts (scatter : SymbolType) (g0 : game0000) (g1 : game0001)
    (r : SpinRequest) (w : σ) :
    (((game0000.getFreeResult E g0 r.BetMult ⟨w, []⟩).2.2.calls.countP Call.isGenScreen : Int)
        = max g0.fixed.FreeRound 0 ∧
     ((game0000.getFreeResult E g0 r.BetMult ⟨w, []⟩).2.2.calls.countP Call.isFinishRound : Int)
        = max g0.fixed.FreeRound 0 ∧
     ((game0001.getFreeResult E g1 r ⟨w, []⟩).2.2.calls.countP Call.isGenScreen : Int)
        = max g1.fixed.FreeRounds 0 ∧
     ((game0001.getFreeResult E g1 r ⟨w, []⟩).2.2.calls.countP Call.isFinishRound : Int)
        = max g1.fixed.FreeRounds 0) ∧
    ((game0000.getBaseResult E scatter g0 r.BetMult ⟨w, []⟩).2.2.calls.countP
        Call.isGenScreen = 1 ∧
     (ScreenInTable g0.fixed.symboltypes (E.GenScreen 0 w).1 →
       (game0000.getBaseResult E scatter g0 r.BetMult ⟨w, []⟩).2.2.calls.countP
         Call.isFinishRound = 1) ∧
     (game0001.getBaseResult E scatter g1 r ⟨w, []⟩).2.2.calls.countP Call.isGenScreen = 1 ∧
     (ScreenInTable g1.fixed.symbolTypes (game0001.baseFinalScreen E g1 r ⟨w, []⟩) →
       (game0001.getBaseResult E scatter g1 r ⟨w, []⟩).2.2.calls.countP
         Call.isFinishRound = 1)) ∧
    ((game0000.getFreeResult E g0 r.BetMult ⟨w, []⟩).2.2.calls.countP Call.isSetTrigger = 0 ∧
     (game0000.getFreeResult E g0 r.BetMult ⟨w, []⟩).2.2.calls.countP Call.isTriggerAct = 0 ∧
     (game0000.getFreeResult E g0 r.BetMult ⟨w, []⟩).2.1.ext = g0.ext.Reset ∧
     (game0001.getFreeResult E g1 r ⟨w, []⟩).2.2.calls.countP Call.isSetTrigger = 0 ∧
     (game0001.getFreeResult E g1 r ⟨w, []⟩).2.2.calls.countP Call.isTriggerAct = 0 ∧
     (game0001.getFreeResult E g1 r ⟨w, []⟩).2.1.ext = g1.ext) := by
  obtain ⟨n0, e0, a0, b0, c0⟩ := game0000.getFreeResult_calls_normal E g0 r.BetMult ⟨w, []⟩
  obtain ⟨n1, e1, a1, b1, c1⟩ := game0001.getFreeResult_calls_cascade E g1 r ⟨w, []⟩
  obtain ⟨m0, f0, _, k0⟩ := game0000.getBaseResult_spin_normal E scatter g0 r.BetMult ⟨w, []⟩
  obtain ⟨m1, f1, _, k1⟩ := game0001.getBaseResult_spin_cascade E scatter g1 r ⟨w, []⟩
  have s0 := countP_zero_of_all Call.isSetTrigger Call.inFreeRound
    (fun c h => (Call.inFreeRound_excl c h).2) n0 c0
  have s1 := countP_zero_of_all Call.isSetTrigger Call.inFreeRound
    (fun c h => (Call.inFreeRound_excl c h).2) n1 c1
  have t0 := countP_zero_of_all Call.isTriggerAct Call.inFreeRound
    (fun c h => Call.inFreeRound_no_trigger c h) n0 c0
  have t1 := countP_zero_of_all Call.isTriggerAct Call.inFreeRound
    (fun c h => Call.inFreeRound_no_trigger c h) n1 c1
  refine ⟨⟨?_, ?_, ?_, ?_⟩, ⟨?_, ?_, ?_, ?_⟩, ⟨?_, ?_, rfl, ?_, ?_, rfl⟩⟩
  · rw [e0, ← Int.ofNat_toNat]
    simp [List.countP_cons, List.countP_append, Call.isGenScreen, a0]
  · rw [e0, ← Int.ofNat_toNat]
    simp [List.countP_cons, List.countP_append, Call.isFinishRound, b0]
  · rw [e1, ← Int.ofNat_toNat]
    simp [List.countP_cons, List.countP_append, Call.isGenScreen, a1]
  · rw [e1, ← Int.ofNat_toNat]
    simp [List.countP_cons, List.countP_append, Call.isFinishRound, b1]
  · rw [f0]; simpa using k0
  · exact fun h0 => game0000.getBaseResult_finish_count_normal E scatter g0 r.BetMult w h0
  · rw [f1]; simpa using k1
  · exact fun h1 => game0001.getBaseResult_finish_count_cascade E scatter g1 r w h1
  · rw [e0]
    simp [List.countP_cons, List.countP_append, Call.isSetTrigger, s0]
  · rw [e0]
    simp [List.countP_cons, List.countP_append, Call.isTriggerAct, t0]
  · rw [e1]
    simp [List.countP_cons, List.countP_append, Call.isSetTrigger, s1]
  · rw [e1]
    simp [List.countP_cons, List.countP_append, Call.isTriggerAct, t1]

/-- The run of the witness has three free rounds on a screen with three scatters:
the extension state after free mode shows no trigger evaluation. -/
theorem round_counts_witness :
    ScreenInTable (demoNormal 3).fixed.symboltypes
      ((scripted [1, 1, 1, 0, 0]).GenScreen 0 ⟨[5, 0, 7], 0, 0⟩).1 ∧
    ScreenInTable (demoCascade 2 3).fixed.symbolTypes
      (game0001.baseFinalScreen (scripted [1, 1, 1, 0, 0]) (demoCascade 2 3) ⟨2⟩
        ⟨⟨[5, 0, 7], 0, 0⟩, []⟩) ∧
    ((game0000.getFreeResult (scripted [1, 1, 1, 0, 0]) (demoNormal 3) (SpinRequest.mk 2).BetMult
        ⟨⟨[5, 0, 7], 0, 0⟩, []⟩).2.2.calls.countP Call.isGenScreen : Int)
      = max (demoNormal 3).fixed.FreeRound 0 ∧
    ((game0001.getFreeResult (scripted [1, 1, 1, 0, 0]) (demoCascade 2 3) ⟨2⟩
        ⟨⟨[5, 0, 7], 0, 0⟩, []⟩).2.2.calls.countP Call.isFinishRound : Int)
      = max (demoCascade 2 3).fixed.FreeRounds 0 ∧
    (game0001.getBaseResult (scripted [1, 1, 1, 0, 0]) 1 (demoCascade 2 3) ⟨2⟩
        ⟨⟨[5, 0, 7], 0, 0⟩, []⟩).2.2.calls.countP Call.isFinishRound = 1 ∧
    (game0000.getBaseResult (scripted [1, 1, 1, 0, 0]) 1 (demoNormal 3)
        (SpinRequest.mk 2).BetMult ⟨⟨[5, 0, 7], 0, 0⟩, []⟩).2.2.calls.countP
        Call.isFinishRound = 1 ∧
    (game0000.getFreeResult (scripted [1, 1, 1, 0, 0]) (demoNormal 3) (SpinRequest.mk 2).BetMult
        ⟨⟨[5, 0, 7], 0, 0⟩, []⟩).2.1.ext = (demoNormal 3).ext.Reset := by
  have hA : ScreenInTable (demoNormal 3).fixed.symboltypes
      ((scripted [1, 1, 1, 0, 0]).GenScreen 0 ⟨[5, 0, 7], 0, 0⟩).1 := by decide
  have hB : ScreenInTable (demoCascade 2 3).fixed.symbolTypes
      (game0001.baseFinalScreen (scripted [1, 1, 1, 0, 0]) (demoCascade 2 3) ⟨2⟩
        ⟨⟨[5, 0, 7], 0, 0⟩, []⟩) := by decide
  have T := round_counts (scripted [1, 1, 1, 0, 0]) 1 (demoNormal 3) (demoCascade 2 3) ⟨2⟩
    ⟨[5, 0, 7], 0, 0⟩
  exact ⟨hA, hB, T.1.1, T.1.2.2.2, T.2.1.2.2.2 hB, T.2.1.2.1 hA, T.2.2.2.2.1⟩

end Claims

theorem mem_scatterPositions (scatter : SymbolType) (symtype : List SymbolType)
    (screen : Screen) (i : Nat) :
    (i : Int) ∈ (scatterPositions scatter symtype screen).map Int.ofNat ↔
      i < screen.length ∧ isScatter scatter symtype (screen.getD i 0) = true := by
  unfold scatterPositions
  constructor
  · intro h
    obtain ⟨j, hj, hij⟩ := List.mem_map.mp h
    have : j = i := Int.ofNat.inj hij
    subst this
    simpa using hj
  · intro h
    exact List.mem_map.mpr ⟨i, by simpa using h, rfl⟩

/-- C7: for every screen whose symbol ids all index into the classification table and
every prior extension state, after `trigger(screen)` of either logic `ScatterHitMap`
is the list of all indices `i < len(screen)` whose cell is scatter-classified, in
strictly increasing order (`scatterPositions`), and `ScatterCount` is their number. -/
theorem trigger_scatter_hits (scatter : SymbolType) (screen : Screen) (g0 : game0000)
    (g1 : game0001) :
    (ScreenInTable g0.fixed.symboltypes screen →
     (game0000.trigger scatter g0 screen).2.ext.ScatterHitMap =
        (scatterPositions scatter g0.fixed.symboltypes screen).map Int.ofNat ∧
     (game0000.trigger scatter g0 screen).2.ext.ScatterCount =
        ((scatterPositions scatter g0.fixed.symboltypes screen).length : Int) ∧
     List.Pairwise (fun a b : Int => a < b)
        (game0000.trigger scatter g0 screen).2.ext.ScatterHitMap ∧
     (∀ i : Nat, (i : Int) ∈ (game0000.trigger scatter g0 screen).2.ext.ScatterHitMap ↔
        i < screen.length ∧
          isScatter scatter g0.fixed.symboltypes (screen.getD i 0) = true)) ∧
    (ScreenInTable g1.fixed.symbolTypes screen →
     (game0001.trigger scatter g1 screen).2.ext.ScatterHitMap =
        (scatterPositions scatter g1.fixed.symbolTypes screen).map Int.ofNat ∧
     (game0001.trigger scatter g1 screen).2.ext.ScatterCount =
        ((scatterPositions scatter g1.fixed.symbolTypes screen).length : Int) ∧
     List.Pairwise (fun a b : Int => a < b)
        (game0001.trigger scatter g1 screen).2.ext.ScatterHitMap ∧
     (∀ i : Nat, (i : Int) ∈ (game0001.trigger scatter g1 screen).2.ext.ScatterHitMap ↔
        i < screen.length ∧
          isScatter scatter g1.fixed.symbolTypes (screen.getD i 0) = true)) := by
  constructor
  · intro h0
    rw [game0000.trigger_ok_normal scatter g0 screen h0]
    exact ⟨rfl, rfl, scatterPositions_increasing _ _ _, mem_scatterPositions _ _ _⟩
  · intro h1
    rw [game0001.trigger_ok_cascade scatter g1 screen h1]
    exact ⟨rfl, rfl, scatterPositions_increasing _ _ _, mem_scatterPositions _ _ _⟩

theorem trigger_scatter_hits_witness :
    ScreenInTable (demoNormal 1).fixed.symboltypes [1, 0, 1, 2, 1] ∧
    ScreenInTable (demoCascade 2 1).fixed.symbolTypes [1, 0, 1, 2, 1] ∧
    (game0000.trigger 1 (demoNormal 1) [1, 0, 1, 2, 1]).2.ext.ScatterHitMap =
      (scatterPositions 1 (demoNormal 1).fixed.symboltypes [1, 0, 1, 2, 1]).map Int.ofNat ∧
    (game0001.trigger 1 (demoCascade 2 1) [1, 0, 1, 2, 1]).2.ext.ScatterCount =
      ((scatterPositions 1 (demoCascade 2 1).fixed.symbolTypes [1, 0, 1, 2, 1]).length : Int) ∧
    (game0000.trigger 1 (demoNormal 1) [1, 0, 1, 2, 1]).2.ext.ScatterHitMap = [0, 2, 4] := by
  have hA : ScreenInTable (demoNormal 1).fixed.symboltypes [1, 0, 1, 2, 1] := by decide
  have hB : ScreenInTable (demoCascade 2 1).fixed.symbolTypes [1, 0, 1, 2, 1] := by decide
  have T := trigger_scatter_hits 1 [1, 0, 1, 2, 1] (demoNormal 1) (demoCascade 2 1)
  exact ⟨hA, hB, (T.1 hA).1, (T.2 hB).2.1, by decide⟩

theorem scatterPositions_scenario (scatter : SymbolType) (symtype : List SymbolType)
    (s x : Int) (hs : isScatter scatter symtype s = true)
    (hx : isScatter scatter symtype x = false) :
    scatterPositions scatter symtype [s, s, s, x, x] = [0, 1, 2] := by
  have hnil : scatterPositions scatter symtype [] = [] := rfl
  simp [scatterPositions_cons, hnil, hs, hx]

theorem isScatter_inTable (scatter : SymbolType) (symtype : List SymbolType) (s : Int)
    (hs : isScatter scatter symtype s = true) : 0 ≤ s ∧ s.toNat < symtype.length := by
  simp only [isScatter, Bool.and_eq_true, decide_eq_true_eq, beq_iff_eq] at hs
  refine ⟨hs.1, ?_⟩
  by_contra hlt
  rw [List.getElem?_eq_none (not_lt.mp hlt)] at hs
  exact absurd hs.2 (by simp)

/-- C8: on a screen inside the table, `trigger` returns 1 and leaves `Triggered = true`
exactly when the scatter comparison passes (`ScatterCount > 2` in `game0000`,
`ScatterCount >= fixed.Trigger` in `game0001`) and otherwise returns 0 and leaves
`Triggered = false`; so the code is 0 or 1 and is non-zero iff `Triggered`.  For
`game0000` on the screen `[s, s, s, x, x]` with `s` scatter-classified and `x` in the
table and not scatter-classified, the result is `ScatterCount = 3`,
`Triggered = true`, code 1. -/
theorem trigger_code (scatter : SymbolType) (screen : Screen) (g0 : game0000)
    (g1 : game0001) (s x : Int) :
    (ScreenInTable g0.fixed.symboltypes screen →
     ((game0000.trigger scatter g0 screen).2.ext.ScatterCount > 2 →
        (game0000.trigger scatter g0 screen).1 = some 1 ∧
        (game0000.trigger scatter g0 screen).2.ext.Triggered = true) ∧
     (¬ (game0000.trigger scatter g0 screen).2.ext.ScatterCount > 2 →
        (game0000.trigger scatter g0 screen).1 = some 0 ∧
        (game0000.trigger scatter g0 screen).2.ext.Triggered = false) ∧
     ((game0000.trigger scatter g0 screen).1 = some 0 ∨
        (game0000.trigger scatter g0 screen).1 = some 1) ∧
     ((game0000.trigger scatter g0 screen).1 ≠ some 0 ↔
        (game0000.trigger scatter g0 screen).2.ext.Triggered = true)) ∧
    (ScreenInTable g1.fixed.symbolTypes screen →
     ((game0001.trigger scatter g1 screen).2.ext.ScatterCount ≥ g1.fixed.Trigger →
        (game0001.trigger scatter g1 screen).1 = some 1 ∧
        (game0001.trigger scatter g1 screen).2.ext.Triggered = true) ∧
     (¬ (game0001.trigger scatter g1 screen).2.ext.ScatterCount ≥ g1.fixed.Trigger →
        (game0001.trigger scatter g1 screen).1 = some 0 ∧
        (game0001.trigger scatter g1 screen).2.ext.Triggered = false) ∧
     ((game0001.trigger scatter g1 screen).1 = some 0 ∨
        (game0001.trigger scatter g1 screen).1 = some 1) ∧
     ((game0001.trigger scatter g1 screen).1 ≠ some 0 ↔
        (game0001.trigger scatter g1 screen).2.ext.Triggered = true)) ∧
    (isScatter scatter g0.fixed.symboltypes s = true →
     (0 ≤ x ∧ x.toNat < g0.fixed.symboltypes.length ∧
       isScatter scatter g0.fixed.symboltypes x = false) →
     (game0000.trigger scatter g0 [s, s, s, x, x]).2.ext.ScatterCount = 3 ∧
     (game0000.trigger scatter g0 [s, s, s, x, x]).2.ext.Triggered = true ∧
     (game0000.trigger scatter g0 [s, s, s, x, x]).1 = some 1) := by
  refine ⟨?_, ?_, ?_⟩
  · intro h0
    rw [game0000.trigger_ok_normal scatter g0 screen h0]
    by_cases hc : ((scatterPositions scatter g0.fixed.symboltypes screen).length : Int) > 2
    · simp [hc]
    · simp [hc]
  · intro h1
    rw [game0001.trigger_ok_cascade scatter g1 screen h1]
    by_cases hc : ((scatterPositions scatter g1.fixed.symbolTypes screen).length : Int)
        ≥ g1.fixed.Trigger
    · simp [hc]
    · simp [hc]
  · intro hs hx
    have hin : ScreenInTable g0.fixed.symboltypes [s, s, s, x, x] := by
      have hs2 := isScatter_inTable scatter _ s hs
      intro y hy
      simp only [List.mem_cons, List.mem_singleton, List.not_mem_nil, or_false] at hy
      rcases hy with rfl | rfl | rfl | rfl | rfl
      · exact hs2
      · exact hs2
      · exact hs2
      · exact ⟨hx.1, hx.2.1⟩
      · exact ⟨hx.1, hx.2.1⟩
    rw [game0000.trigger_ok_normal scatter g0 _ hin,
      scatterPositions_scenario scatter _ s x hs hx.2.2]
    simp

theorem trigger_code_witness :
    ScreenInTable (demoNormal 1).fixed.symboltypes [1, 0, 1, 2, 1] ∧
    ScreenInTable (demoCascade 2 1).fixed.symbolTypes [1, 0, 1, 2, 1] ∧
    isScatter 1 (demoNormal 1).fixed.symboltypes 1 = true ∧
    ((0 : Int) ≤ 2 ∧ (2 : Int).toNat < (demoNormal 1).fixed.symboltypes.length ∧
      isScatter 1 (demoNormal 1).fixed.symboltypes 2 = false) ∧
    ((game0000.trigger 1 (demoNormal 1) [1, 0, 1, 2, 1]).1 = some 1 ∧
      (game0000.trigger 1 (demoNormal 1) [1, 0, 1, 2, 1]).2.ext.Triggered = true) ∧
    ((game0001.trigger 1 (demoCascade 2 1) [1, 0, 1, 2, 1]).1 = some 1 ∧
      (game0001.trigger 1 (demoCascade 2 1) [1, 0, 1, 2, 1]).2.ext.Triggered = true) ∧
    ((game0000.trigger 1 (demoNormal 1) [1, 1, 1, 2, 2]).2.ext.ScatterCount = 3 ∧
     (game0000.trigger 1 (demoNormal 1) [1, 1, 1, 2, 2]).2.ext.Triggered = true ∧
     (game0000.trigger 1 (demoNormal 1) [1, 1, 1, 2, 2]).1 = some 1) := by
  have hA : ScreenInTable (demoNormal 1).fixed.symboltypes [1, 0, 1, 2, 1] := by decide
  have hB : ScreenInTable (demoCascade 2 1).fixed.symbolTypes [1, 0, 1, 2, 1] := by decide
  have hS : isScatter 1 (demoNormal 1).fixed.symboltypes 1 = true := by decide
  have hX : (0 : Int) ≤ 2 ∧ (2 : Int).toNat < (demoNormal 1).fixed.symboltypes.length ∧
      isScatter 1 (demoNormal 1).fixed.symboltypes 2 = false := by decide
  have T := trigger_code 1 [1, 0, 1, 2, 1] (demoNormal 1) (demoCascade 2 1) 1 2
  exact ⟨hA, hB, hS, hX, (T.1 hA).1 (by decide), (T.2.1 hB).1 (by decide), T.2.2 hS hX⟩

/-- C9: `ScatterCount == len(ScatterHitMap)` is an invariant of the extension state of
both logics: it holds for the state `newext` builds (which it does for every screen
size >= 0), after `Reset` of any state, after `trigger` on every screen and from every
prior state (also when the scan panics), and for the copy `Snapshot` returns in
non-simulation mode from a state that satisfies it. -/
theorem ext_invariant (scatter : SymbolType) (screen : Screen) (g0 : game0000)
    (g1 : game0001) (e0 : ext0000) (e1 : ext0001) (n : Int) (b : Bool) :
    ((0 ≤ n → ∃ e, game0000.newext n b = some e ∧ e.Inv) ∧
     e0.Reset.Inv ∧
     (game0000.trigger scatter g0 screen).2.ext.Inv ∧
     (e0.Inv → e0.isSim = false → ∃ c, e0.Snapshot = some c ∧ c.Inv)) ∧
    ((0 ≤ n → ∃ e, game0001.newext n b = some e ∧ e.Inv) ∧
     e1.Reset.Inv ∧
     (game0001.trigger scatter g1 screen).2.ext.Inv ∧
     (e1.Inv → e1.isSim = false → ∃ c, e1.Snapshot = some c ∧ c.Inv)) := by
  refine ⟨⟨?_, ?_, game0000.trigger_inv_normal scatter g0 screen, ?_⟩,
    ⟨?_, ?_, game0001.trigger_inv_cascade scatter g1 screen, ?_⟩⟩
  · intro hn
    exact ⟨⟨false, 0, [], b⟩, by simp [game0000.newext, not_lt.mpr hn], by simp [ext0000.Inv]⟩
  · simp [ext0000.Inv, ext0000.Reset]
  · intro i0 s0
    exact ⟨⟨e0.Triggered, e0.ScatterCount, e0.ScatterHitMap, false⟩,
      by simp [ext0000.Snapshot, s0], i0⟩
  · intro hn
    exact ⟨⟨false, 0, [], b⟩, by simp [game0001.newext, not_lt.mpr hn], by simp [ext0001.Inv]⟩
  · simp [ext0001.Inv, ext0001.Reset]
  · intro i1 s1
    exact ⟨⟨e1.Triggered, e1.ScatterCount, e1.ScatterHitMap, false⟩,
      by simp [ext0001.Snapshot, s1], i1⟩

theorem ext_invariant_witness :
    (0 : Int) ≤ 15 ∧
    (ext0000.mk true 2 [0, 3] false).Inv ∧ (ext0001.mk true 2 [0, 3] false).Inv ∧
    (game0000.trigger 1 (demoNormal 1) [1, 7, 1]).2.ext.Inv ∧
    (game0001.trigger 1 (demoCascade 2 1) [1, 0, 1]).2.ext.Inv ∧
    (∃ c, (ext0000.mk true 2 [0, 3] false).Snapshot = some c ∧ c.Inv) ∧
    (∃ e, game0001.newext 15 true = some e ∧ e.Inv) := by
  have hA : (ext0000.mk true 2 [0, 3] false).Inv := by simp [ext0000.Inv]
  have hB : (ext0001.mk true 2 [0, 3] false).Inv := by simp [ext0001.Inv]
  have T := ext_invariant 1 [1, 7, 1] (demoNormal 1) (demoCascade 2 1)
    (ext0000.mk true 2 [0, 3] false) (ext0001.mk true 2 [0, 3] false) 15 true
  have T2 := ext_invariant 1 [1, 0, 1] (demoNormal 1) (demoCascade 2 1)
    (ext0000.mk true 2 [0, 3] false) (ext0001.mk true 2 [0, 3] false) 15 true
  exact ⟨by decide, hA, hB, T.1.2.2.1, T2.2.2.2.1, T.1.2.2.2 hA rfl, T.2.1 (by decide)⟩

/-- C10: the trigger evaluator does not depend on the prior extension state: for every
screen and two units with the same fixed configuration and the same `isSim` flag,
`trigger` returns the same code and leaves the same state (`Triggered`, `ScatterCount`,
`ScatterHitMap`); in particular a second `trigger` on the same screen right after the
first returns the same code and leaves the same state. -/
theorem trigger_independent (scatter : SymbolType) (screen : Screen) (g0 g0b : game0000)
    (g1 g1b : game0001) :
    ((g0.fixed = g0b.fixed → g0.ext.isSim = g0b.ext.isSim →
       game0000.trigger scatter g0 screen = game0000.trigger scatter g0b screen) ∧
     game0000.trigger scatter (game0000.trigger scatter g0 screen).2 screen =
       game0000.trigger scatter g0 screen) ∧
    ((g1.fixed = g1b.fixed → g1.ext.isSim = g1b.ext.isSim →
       game0001.trigger scatter g1 screen = game0001.trigger scatter g1b screen) ∧
     game0001.trigger scatter (game0001.trigger scatter g1 screen).2 screen =
       game0001.trigger scatter g1 screen) :=
  ⟨⟨fun f0 s0 => game0000.trigger_congr_normal scatter g0 g0b screen f0 s0,
    game0000.trigger_congr_normal scatter _ g0 screen
      (game0000.trigger_fixed_normal scatter g0 screen).1
      (game0000.trigger_fixed_normal scatter g0 screen).2⟩,
   ⟨fun f1 s1 => game0001.trigger_congr_cascade scatter g1 g1b screen f1 s1,
    game0001.trigger_congr_cascade scatter _ g1 screen
      (game0001.trigger_fixed_cascade scatter g1 screen).1
      (game0001.trigger_fixed_cascade scatter g1 screen).2⟩⟩

theorem trigger_independent_witness :
    (demoNormal 1).fixed = (game0000.mk (demoNormal 1).fixed ⟨true, 9, [4, 4], false⟩).fixed ∧
    (game0000.trigger 1 (demoNormal 1) [1, 1, 0, 1] =
      game0000.trigger 1 ⟨(demoNormal 1).fixed, ⟨true, 9, [4, 4], false⟩⟩ [1, 1, 0, 1] ∧
     game0000.trigger 1 (game0000.trigger 1 (demoNormal 1) [1, 1, 0, 1]).2 [1, 1, 0, 1] =
       game0000.trigger 1 (demoNormal 1) [1, 1, 0, 1]) ∧
    (game0001.trigger 1 (demoCascade 2 1) [1, 1, 0, 1] =
      game0001.trigger 1 ⟨(demoCascade 2 1).fixed, ⟨true, 9, [4, 4], false⟩⟩ [1, 1, 0, 1] ∧
     game0001.trigger 1 (game0001.trigger 1 (demoCascade 2 1) [1, 1, 0, 1]).2 [1, 1, 0, 1] =
       game0001.trigger 1 (demoCascade 2 1) [1, 1, 0, 1]) := by
  have T := trigger_independent 1 [1, 1, 0, 1] (demoNormal 1)
    ⟨(demoNormal 1).fixed, ⟨true, 9, [4, 4], false⟩⟩ (demoCascade 2 1)
    ⟨(demoCascade 2 1).fixed, ⟨true, 9, [4, 4], false⟩⟩
  exact ⟨rfl, ⟨T.1.1 rfl rfl, T.1.2⟩, ⟨T.2.1 rfl rfl, T.2.2⟩⟩


/-! ## Slices: frame lemmas -/

theorem Heap.arr_append_left (h l : Heap) (a : Nat) (ha : a < h.length) :
    Heap.arr (h ++ l) a = Heap.arr h a := by
  unfold Heap.arr
  rw [List.getElem?_append_left ha]

theorem Heap.arr_append_new (h : Heap) (x : List Int) : Heap.arr (h ++ [x]) h.length = x := by
  unfold Heap.arr
  rw [List.getElem?_append_right (le_refl _)]
  simp

theorem Heap.arr_set_ne (h : Heap) (a b : Nat) (x : List Int) (hab : b ≠ a) :
    Heap.arr (h.set b x) a = Heap.arr h a := by
  unfold Heap.arr
  rw [List.getElem?_set_ne hab]

theorem Heap.arr_set_eq (h : Heap) (b : Nat) (x : List Int) (hb : b < h.length) :
    Heap.arr (h.set b x) b = x := by
  unfold Heap.arr
  rw [List.getElem?_set_self hb]
  rfl

theorem Slice.append_apart (grow : Nat → Nat) (s : Slice) (v : Int) (h : Heap) (a : Nat)
    (A : List Int) (hp : Apart a A s h) :
    Apart a A (s.append grow v h).1 (s.append grow v h).2 := by
  obtain ⟨h1, h2, h3⟩ := hp
  unfold Slice.append
  split
  · exact ⟨h1, by simpa using h2, by rw [Heap.arr_set_ne _ _ _ _ h1]; exact h3⟩
  · refine ⟨?_, ?_, ?_⟩
    · show h.length ≠ a
      omega
    · simp only [List.length_append, List.length_singleton]
      omega
    · rw [Heap.arr_append_left _ _ _ h2]
      exact h3

theorem scanLoopRef_apart (grow : Nat → Nat) (scatter : SymbolType)
    (symtype : List SymbolType) (rest : List Int) (i : Nat) (cnt : Int) (s : Slice)
    (h : Heap) (a : Nat) (A : List Int) (hp : Apart a A s h) :
    Apart a A (scanLoopRef grow scatter symtype rest i (cnt, s, h)).2.2.1
      (scanLoopRef grow scatter symtype rest i (cnt, s, h)).2.2.2 := by
  induction rest generalizing i cnt s h with
  | nil => simpa [scanLoopRef] using hp
  | cons x xs ih =>
    unfold scanLoopRef
    split
    · simpa using hp
    · split
      · simpa using hp
      · split
        · exact ih _ _ _ _ (Slice.append_apart grow s _ h a A hp)
        · exact ih _ _ _ _ hp

theorem ExtRef.trigger_apart (grow : Nat → Nat) (scatter : SymbolType)
    (symtype : List SymbolType) (pass : Int → Bool) (e : ExtRef) (h : Heap)
    (screen : Screen) (a : Nat) (A : List Int) (hp : Apart a A e.ScatterHitMap h) :
    Apart a A (ExtRef.trigger grow scatter symtype pass e h screen).2.1.ScatterHitMap
      (ExtRef.trigger grow scatter symtype pass e h screen).2.2 := by
  have hr : Apart a A e.Reset.ScatterHitMap h := hp
  have hk := scanLoopRef_apart grow scatter symtype screen 0 e.Reset.ScatterCount
    e.Reset.ScatterHitMap h a A hr
  unfold ExtRef.trigger
  simp only []
  split
  · rename_i c s h2 heq
    rw [heq] at hk
    exact hk
  · rename_i c s h2 heq
    rw [heq] at hk
    split <;> exact hk

theorem runExtOps_apart (grow : Nat → Nat) (scatter : SymbolType)
    (symtype : List SymbolType) (pass : Int → Bool) (ops : List ExtOp) (e : ExtRef)
    (h : Heap) (a : Nat) (A : List Int) (hp : Apart a A e.ScatterHitMap h) :
    Apart a A (runExtOps grow scatter symtype pass ops (e, h)).1.ScatterHitMap
      (runExtOps grow scatter symtype pass ops (e, h)).2 := by
  induction ops generalizing e h with
  | nil => exact hp
  | cons op ops ih =>
    cases op with
    | reset =>
      simp only [runExtOps]
      exact ih e.Reset h hp
    | trigger screen =>
      simp only [runExtOps]
      exact ih _ _ (ExtRef.trigger_apart grow scatter symtype pass e h screen a A hp)

theorem copyInto_full (n : Nat) (src : List Int) (hn : src.length = n) :
    copyInto (List.replicate n 0) src = src := by
  unfold copyInto
  simp [hn]

theorem Slice.elems_length (s : Slice) (h : Heap) (hv : s.Valid h) :
    (s.elems h).length = s.len := by
  unfold Slice.elems
  rw [List.length_take]
  have := hv.2.1
  have := hv.2.2
  omega


theorem ExtRef.Snapshot_some (e : ExtRef) (h : Heap) (hv : e.ScatterHitMap.Valid h)
    (hs : e.isSim = false) :
    e.Snapshot h =
      (some { Triggered := e.Triggered, ScatterCount := e.ScatterCount,
              ScatterHitMap := ⟨h.length, e.ScatterHitMap.len, e.ScatterHitMap.len⟩,
              isSim := false },
       h ++ [e.ScatterHitMap.elems h]) := by
  unfold ExtRef.Snapshot
  rw [copyInto_full _ _ (Slice.elems_length _ h hv)]
  simp [hs]

/-- C11: `Snapshot` returns nil whenever `isSim` is true, whatever the state holds;
when `isSim` is false it returns a value whose `Triggered`, `ScatterCount` and
`ScatterHitMap` (the whole list, so same length and equal element by element) are
those of the live state.  At the level of slices: in simulation mode the heap is
left as it is; otherwise the copy sits in a newly allocated array, every array
allocated before keeps its contents, and the live hit map reads the same before and
after. -/
theorem snapshot_contents (a : ext0000) (b : ext0001) (e : ExtRef) (h : Heap) :
    ((a.isSim = true → a.Snapshot = none) ∧
     (a.isSim = false → ∃ c, a.Snapshot = some c ∧ c.Triggered = a.Triggered ∧
        c.ScatterCount = a.ScatterCount ∧ c.ScatterHitMap = a.ScatterHitMap)) ∧
    ((b.isSim = true → b.Snapshot = none) ∧
     (b.isSim = false → ∃ c, b.Snapshot = some c ∧ c.Triggered = b.Triggered ∧
        c.ScatterCount = b.ScatterCount ∧ c.ScatterHitMap = b.ScatterHitMap)) ∧
    ((e.isSim = true → e.Snapshot h = (none, h)) ∧
     (e.isSim = false → e.ScatterHitMap.Valid h →
        ∃ c h1, e.Snapshot h = (some c, h1) ∧ c.Triggered = e.Triggered ∧
          c.ScatterCount = e.ScatterCount ∧
          c.ScatterHitMap.elems h1 = e.ScatterHitMap.elems h ∧
          c.ScatterHitMap.addr = h.length ∧
          (∀ k, k < h.length → Heap.arr h1 k = Heap.arr h k) ∧
          e.ScatterHitMap.elems h1 = e.ScatterHitMap.elems h)) := by
  refine ⟨⟨?_, ?_⟩, ⟨?_, ?_⟩, ⟨?_, ?_⟩⟩
  · intro hs
    simp [ext0000.Snapshot, hs]
  · intro hs
    exact ⟨⟨a.Triggered, a.ScatterCount, a.ScatterHitMap, false⟩,
      by simp [ext0000.Snapshot, hs], rfl, rfl, rfl⟩
  · intro hs
    simp [ext0001.Snapshot, hs]
  · intro hs
    exact ⟨⟨b.Triggered, b.ScatterCount, b.ScatterHitMap, false⟩,
      by simp [ext0001.Snapshot, hs], rfl, rfl, rfl⟩
  · intro hs
    simp [ExtRef.Snapshot, hs]
  · intro hs hv
    refine ⟨_, _, ExtRef.Snapshot_some e h hv hs, rfl, rfl, ?_, rfl, ?_, ?_⟩
    · show (Heap.arr (h ++ [e.ScatterHitMap.elems h]) h.length).take e.ScatterHitMap.len = _
      rw [Heap.arr_append_new]
      exact List.take_of_length_le (le_of_eq (Slice.elems_length _ h hv))
    · intro k hk
      exact Heap.arr_append_left h _ k hk
    · unfold Slice.elems
      rw [Heap.arr_append_left h _ _ hv.1]

theorem snapshot_contents_witness :
    (ext0000.mk true 2 [0, 3] true).isSim = true ∧
    (ext0000.mk true 2 [0, 3] true).Snapshot = none ∧
    (∃ c, (ext0001.mk true 2 [0, 3] false).Snapshot = some c ∧ c.Triggered = true ∧
        c.ScatterCount = 2 ∧ c.ScatterHitMap = [0, 3]) ∧
    (ExtRef.mk true 2 ⟨0, 2, 4⟩ false).ScatterHitMap.Valid [[0, 3, 9, 9]] ∧
    (∃ c h1, (ExtRef.mk true 2 ⟨0, 2, 4⟩ false).Snapshot [[0, 3, 9, 9]] = (some c, h1) ∧
        c.Triggered = true ∧ c.ScatterCount = 2 ∧
        c.ScatterHitMap.elems h1 = (Slice.mk 0 2 4).elems [[0, 3, 9, 9]] ∧
        c.ScatterHitMap.addr = 1 ∧
        (∀ k, k < 1 → Heap.arr h1 k = Heap.arr [[0, 3, 9, 9]] k) ∧
        (Slice.mk 0 2 4).elems h1 = (Slice.mk 0 2 4).elems [[0, 3, 9, 9]]) := by
  have T := snapshot_contents (ext0000.mk true 2 [0, 3] true) (ext0001.mk true 2 [0, 3] false)
    (ExtRef.mk true 2 ⟨0, 2, 4⟩ false) [[0, 3, 9, 9]]
  have hv : (ExtRef.mk true 2 ⟨0, 2, 4⟩ false).ScatterHitMap.Valid [[0, 3, 9, 9]] := by decide
  exact ⟨rfl, T.1.1 rfl, T.2.1.2 rfl, hv, T.2.2.2 rfl hv⟩

/-- C12: in non-simulation mode a snapshot is independent of the live state.  Take a
snapshot `c` of a live record whose hit map is a valid slice; then whatever sequence
of `Reset` and `trigger` calls runs on the live record afterwards (they keep and
overwrite the live backing array, or move to a fresh one when it is full), the
elements of the snapshot's `ScatterHitMap` read the same as when it was taken, and
they are the elements the live hit map had at that time.  `Triggered` and
`ScatterCount` of the snapshot are fields of the copy `c`, which no later call
receives. -/
theorem snapshot_independent (grow : Nat → Nat) (scatter : SymbolType)
    (symtype : List SymbolType) (pass : Int → Bool) (e : ExtRef) (h : Heap)
    (ops : List ExtOp) (hv : e.ScatterHitMap.Valid h) (hs : e.isSim = false) :
    ∃ c h1, e.Snapshot h = (some c, h1) ∧
      c.Triggered = e.Triggered ∧ c.ScatterCount = e.ScatterCount ∧
      c.ScatterHitMap.elems h1 = e.ScatterHitMap.elems h ∧
      c.ScatterHitMap.elems (runExtOps grow scatter symtype pass ops (e, h1)).2 =
        c.ScatterHitMap.elems h1 := by
  refine ⟨_, _, ExtRef.Snapshot_some e h hv hs, rfl, rfl, ?_, ?_⟩
  · show (Heap.arr (h ++ [e.ScatterHitMap.elems h]) h.length).take e.ScatterHitMap.len = _
    rw [Heap.arr_append_new]
    exact List.take_of_length_le (le_of_eq (Slice.elems_length _ h hv))
  · have hp : Apart h.length (e.ScatterHitMap.elems h) e.ScatterHitMap
        (h ++ [e.ScatterHitMap.elems h]) := by
      refine ⟨Nat.ne_of_lt hv.1, by simp, Heap.arr_append_new h _⟩
    have hq := runExtOps_apart grow scatter symtype pass ops e _ _ _ hp
    show (Heap.arr _ h.length).take _ = (Heap.arr _ h.length).take _
    rw [hq.2.2, Heap.arr_append_new]

/-- In the run of the witness the live hit map [0, 3] is overwritten in place by a
`trigger` that records the hits 0, 1, 2 and is then reset, while the snapshot still
reads [0, 3]. -/
theorem snapshot_independent_witness :
    (ExtRef.mk true 2 ⟨0, 2, 4⟩ false).ScatterHitMap.Valid [[0, 3, 9, 9]] ∧
    (ExtRef.mk true 2 ⟨0, 2, 4⟩ false).isSim = false ∧
    (∃ c h1, (ExtRef.mk true 2 ⟨0, 2, 4⟩ false).Snapshot [[0, 3, 9, 9]] = (some c, h1) ∧
      c.Triggered = true ∧ c.ScatterCount = 2 ∧
      c.ScatterHitMap.elems h1 = (Slice.mk 0 2 4).elems [[0, 3, 9, 9]] ∧
      c.ScatterHitMap.elems
          (runExtOps (fun n => 2 * n) 1 [0, 1, 0] (fun n => decide (n > 2))
            [.trigger [1, 1, 1], .reset] (ExtRef.mk true 2 ⟨0, 2, 4⟩ false, h1)).2 =
        c.ScatterHitMap.elems h1) ∧
    (runExtOps (fun n => 2 * n) 1 [0, 1, 0] (fun n => decide (n > 2))
        [.trigger [1, 1, 1], .reset]
        (ExtRef.mk true 2 ⟨0, 2, 4⟩ false, [[0, 3, 9, 9], [0, 3]])).2 =
      [[0, 1, 2, 9], [0, 3]] := by
  have hv : (ExtRef.mk true 2 ⟨0, 2, 4⟩ false).ScatterHitMap.Valid [[0, 3, 9, 9]] := by decide
  exact ⟨hv, rfl, snapshot_independent (fun n => 2 * n) 1 [0, 1, 0] (fun n => decide (n > 2))
    (ExtRef.mk true 2 ⟨0, 2, 4⟩ false) [[0, 3, 9, 9]] [.trigger [1, 1, 1], .reset] hv rfl,
    by decide⟩

/-- C13: for every extension state `Reset` leaves `Triggered = false`,
`ScatterCount = 0`, an empty `ScatterHitMap` and the `isSim` flag as it was, so that
right after `Reset` `ScatterCount == len(ScatterHitMap) == 0`.  At the level of
slices the hit map has length 0 and keeps its backing array and capacity. -/
theorem reset_clears (a : ext0000) (b : ext0001) (e : ExtRef) (h : Heap) :
    (a.Reset.Triggered = false ∧ a.Reset.ScatterCount = 0 ∧ a.Reset.ScatterHitMap = [] ∧
     a.Reset.ScatterHitMap.length = 0 ∧ a.Reset.isSim = a.isSim ∧
     a.Reset.ScatterCount = (a.Reset.ScatterHitMap.length : Int)) ∧
    (b.Reset.Triggered = false ∧ b.Reset.ScatterCount = 0 ∧ b.Reset.ScatterHitMap = [] ∧
     b.Reset.ScatterHitMap.length = 0 ∧ b.Reset.isSim = b.isSim ∧
     b.Reset.ScatterCount = (b.Reset.ScatterHitMap.length : Int)) ∧
    (e.Reset.Triggered = false ∧ e.Reset.ScatterCount = 0 ∧ e.Reset.ScatterHitMap.len = 0 ∧
     e.Reset.ScatterHitMap.elems h = [] ∧ e.Reset.isSim = e.isSim ∧
     e.Reset.ScatterHitMap.addr = e.ScatterHitMap.addr ∧
     e.Reset.ScatterHitMap.cap = e.ScatterHitMap.cap) := by
  refine ⟨⟨rfl, rfl, rfl, rfl, rfl, rfl⟩, ⟨rfl, rfl, rfl, rfl, rfl, rfl⟩,
    ⟨rfl, rfl, rfl, ?_, rfl, rfl, rfl⟩⟩
  simp [ExtRef.Reset, Slice.elems]


/-! ## The list-level state is the view of the slice-level state -/

theorem take_succ_set (l : List Int) (n : Nat) (v : Int) (hn : n < l.length) :
    (l.set n v).take (n + 1) = l.take n ++ [v] := by
  induction l generalizing n with
  | nil => simp at hn
  | cons x xs ih =>
    cases n with
    | zero => simp
    | succ n =>
      simp only [List.set_cons_succ, List.take_succ_cons, List.cons_append, List.cons.injEq,
        true_and]
      exact ih n (by simpa using hn)

theorem Slice.append_view (grow : Nat → Nat) (s : Slice) (v : Int) (h : Heap)
    (hv : s.Valid h) :
    (s.append grow v h).1.elems (s.append grow v h).2 = s.elems h ++ [v] ∧
    (s.append grow v h).1.Valid (s.append grow v h).2 := by
  obtain ⟨h1, h2, h3⟩ := hv
  unfold Slice.append
  split
  · rename_i hlt
    constructor
    · show (Heap.arr (h.set s.addr _) s.addr).take (s.len + 1) = _
      rw [Heap.arr_set_eq _ _ _ h1]
      exact take_succ_set _ _ _ (by omega)
    · refine ⟨by simpa using h1, ?_, ?_⟩
      · show s.len + 1 ≤ s.cap
        omega
      · show s.cap ≤ (Heap.arr (h.set s.addr _) s.addr).length
        rw [Heap.arr_set_eq _ _ _ h1]
        simpa using h3
  · have hl : (s.elems h).length = s.len := Slice.elems_length s h ⟨h1, h2, h3⟩
    constructor
    · show (Heap.arr (h ++ [_]) h.length).take (s.len + 1) = _
      rw [Heap.arr_append_new]
      rw [List.append_assoc, List.take_append_eq_append_take]
      simp [hl]
    · refine ⟨by simp, ?_, ?_⟩
      · show s.len + 1 ≤ max (grow s.cap) (s.len + 1)
        omega
      · show max (grow s.cap) (s.len + 1) ≤ (Heap.arr (h ++ [_]) h.length).length
        rw [Heap.arr_append_new]
        simp only [List.length_append, List.length_singleton, List.length_replicate, hl]
        omega

theorem scanLoopRef_view (grow : Nat → Nat) (scatter : SymbolType)
    (symtype : List SymbolType) (rest : List Int) (i : Nat) (cnt : Int) (s : Slice)
    (h : Heap) (hv : s.Valid h) :
    ((scanLoopRef grow scatter symtype rest i (cnt, s, h)).1,
      (scanLoopRef grow scatter symtype rest i (cnt, s, h)).2.1,
      (scanLoopRef grow scatter symtype rest i (cnt, s, h)).2.2.1.elems
        (scanLoopRef grow scatter symtype rest i (cnt, s, h)).2.2.2) =
      scanLoop scatter symtype rest i (cnt, s.elems h) ∧
    (scanLoopRef grow scatter symtype rest i (cnt, s, h)).2.2.1.Valid
      (scanLoopRef grow scatter symtype rest i (cnt, s, h)).2.2.2 := by
  induction rest generalizing i cnt s h with
  | nil => exact ⟨rfl, hv⟩
  | cons x xs ih =>
    unfold scanLoopRef scanLoop
    split
    · exact ⟨rfl, hv⟩
    · split
      · exact ⟨rfl, hv⟩
      · split
        · have ha := Slice.append_view grow s (i : Int) h hv
          have := ih (i + 1) (cnt + 1) _ _ ha.2
          rw [ha.1] at this
          exact this
        · exact ih (i + 1) cnt s h hv

/-- The list-level `trigger` of both logics is the view of the slice-level one: same
code, same counters, and the hit list is the content of the hit slice. -/
theorem ExtRef.trigger_view (grow : Nat → Nat) (scatter : SymbolType) (g0 : game0000)
    (g1 : game0001) (e : ExtRef) (h : Heap) (screen : Screen)
    (hv : e.ScatterHitMap.Valid h) :
    ((ExtRef.trigger grow scatter g0.fixed.symboltypes (fun c => decide (c > 2)) e h screen).1 =
        (game0000.trigger scatter ⟨g0.fixed, e.view0000 h⟩ screen).1 ∧
     (ExtRef.trigger grow scatter g0.fixed.symboltypes (fun c => decide (c > 2)) e h
          screen).2.1.view0000
        (ExtRef.trigger grow scatter g0.fixed.symboltypes (fun c => decide (c > 2)) e h
          screen).2.2 =
        (game0000.trigger scatter ⟨g0.fixed, e.view0000 h⟩ screen).2.ext) ∧
    ((ExtRef.trigger grow scatter g1.fixed.symbolTypes (fun c => decide (c ≥ g1.fixed.Trigger))
          e h screen).1 =
        (game0001.trigger scatter ⟨g1.fixed, e.view0001 h⟩ screen).1 ∧
     (ExtRef.trigger grow scatter g1.fixed.symbolTypes (fun c => decide (c ≥ g1.fixed.Trigger))
          e h screen).2.1.view0001
        (ExtRef.trigger grow scatter g1.fixed.symbolTypes
          (fun c => decide (c ≥ g1.fixed.Trigger)) e h screen).2.2 =
        (game0001.trigger scatter ⟨g1.fixed, e.view0001 h⟩ screen).2.ext) := by
  have hr : e.Reset.ScatterHitMap.Valid h := ⟨hv.1, Nat.zero_le _, hv.2.2⟩
  have he : e.Reset.ScatterHitMap.elems h = [] := by simp [ExtRef.Reset, Slice.elems]
  constructor
  · have k := (scanLoopRef_view grow scatter g0.fixed.symboltypes screen 0 0
      e.Reset.ScatterHitMap h hr).1
    rw [he] at k
    rcases hsr : scanLoopRef grow scatter g0.fixed.symboltypes screen 0
      (0, e.Reset.ScatterHitMap, h) with ⟨ok, c, s, h2⟩
    rw [hsr] at k
    have hr0 : e.Reset.ScatterCount = 0 := rfl
    unfold ExtRef.trigger game0000.trigger
    simp only [ExtRef.view0000, ext0000.Reset, hr0, hsr, ← k]
    cases ok
    · simp [ExtRef.Reset]
    · by_cases hc : c > 2 <;> simp [ExtRef.Reset, hc]
  · have k := (scanLoopRef_view grow scatter g1.fixed.symbolTypes screen 0 0
      e.Reset.ScatterHitMap h hr).1
    rw [he] at k
    rcases hsr : scanLoopRef grow scatter g1.fixed.symbolTypes screen 0
      (0, e.Reset.ScatterHitMap, h) with ⟨ok, c, s, h2⟩
    rw [hsr] at k
    have hr0 : e.Reset.ScatterCount = 0 := rfl
    unfold ExtRef.trigger game0001.trigger
    simp only [ExtRef.view0001, ext0001.Reset, hr0, hsr, ← k]
    cases ok
    · simp [ExtRef.Reset]
    · by_cases hc : c ≥ g1.fixed.Trigger <;> simp [ExtRef.Reset, hc]


/-! ## The end of the base round of "demo_cascade" -/

section Claims2
variable {σ R S : Type} (E : Substrate σ R S)

theorem Call.inFreeRound_no_update (c : Call R S) (h : Call.inFreeRound c = true) :
    Call.isUpdateTmpWin c = false := by
  cases c <;> simp_all [Call.inFreeRound, Call.isUpdateTmpWin]

theorem game0001.trigger_code_cases (scatter : SymbolType) (g : game0001) (screen : Screen)
    (t : Int) (h : (game0001.trigger scatter g screen).1 = some t) : t = 0 ∨ t = 1 := by
  unfold game0001.trigger at h
  simp only [] at h
  split at h
  · cases h
  · split at h
    · right
      exact (Option.some.inj h).symm
    · left
      exact (Option.some.inj h).symm

theorem game0001.baseCascade_calls (g : game0001) (r : SpinRequest) (run : Run σ R S) :
    ∃ pre, (game0001.cascade E 0 r.BetMult g.fixed.MaxStep.toNat (run.GenScreen E 0).1
        (game0001.basePicks E g run).1 (game0001.basePicks E g run).2).2.2.calls =
        run.calls ++ pre ∧
      pre.countP Call.isGenScreen = 1 ∧ pre.countP Call.isFinishRound = 0 ∧
      (∀ c ∈ pre, Call.inFreeRound c = true) := by
  obtain ⟨picks, hp1, hp2⟩ := game0001.pickReels_calls E 0 (game0001.resetIdx g.fixed)
    ((run.GenScreen E 0).2.AddAct E 0 .FinishAct "gen_screen" (some (run.GenScreen E 0).1) none)
  obtain ⟨casc, hc1, hc2⟩ := game0001.cascade_calls E 0 r.BetMult g.fixed.MaxStep.toNat
    (run.GenScreen E 0).1 (game0001.basePicks E g run).1 (game0001.basePicks E g run).2
  have hp : (game0001.basePicks E g run).2.calls = _ := hp1
  have hca := CascadeTrace.inCascade E hc2
  have p1 := countP_zero_of_all Call.isGenScreen Call.isPick
    (fun c h => (Call.isPick_excl c h).1) picks hp2
  have p2 := countP_zero_of_all Call.isGenScreen Call.inCascade
    (fun c h => (Call.inCascade_excl c h).1) casc hca
  have p3 := countP_zero_of_all Call.isFinishRound Call.isPick
    (fun c h => (Call.isPick_excl c h).2.1) picks hp2
  have p4 := countP_zero_of_all Call.isFinishRound Call.inCascade
    (fun c h => (Call.inCascade_excl c h).2) casc hca
  refine ⟨Call.GenScreen 0 (run.GenScreen E 0).1 ::
    Call.AddAct 0 .FinishAct "gen_screen" (some (run.GenScreen E 0).1) none ::
    (picks ++ casc), ?_, ?_, ?_, ?_⟩
  · rw [hc1, hp]
    simp
  · simp [List.countP_cons, List.countP_append, Call.isGenScreen, p1, p2]
  · simp [List.countP_cons, List.countP_append, Call.isFinishRound, p3, p4]
  · intro c hc
    simp only [List.mem_cons, List.mem_append] at hc
    rcases hc with h | h | h | h
    · subst h; rfl
    · subst h; simp [Call.inFreeRound]
    · exact Call.inFreeRound_of_isPick c (hp2 c h)
    · exact Call.inFreeRound_of_inCascade c (hca c h)

theorem game0001.getBaseResult_end (scatter : SymbolType) (g : game0001) (r : SpinRequest)
    (run : Run σ R S) (t : Int)
    (ht : (game0001.trigger scatter g (game0001.baseFinalScreen E g r run)).1 = some t) :
    ∃ res, (game0001.getBaseResult E scatter g r run).1 = some res ∧
      (game0001.getBaseResult E scatter g r run).2.2.calls =
        (game0001.cascade E 0 r.BetMult g.fixed.MaxStep.toNat (run.GenScreen E 0).1
          (game0001.basePicks E g run).1 (game0001.basePicks E g run).2).2.2.calls ++
        game0001.baseEnd t (wrapInt (g.fixed.ScatterPay * r.BetMult))
          (game0001.trigger scatter g (game0001.baseFinalScreen E g r run)).2.ext res := by
  obtain ⟨idx, pos, hl, e⟩ := game0001.cascade_fixed E 0 r.BetMult g.fixed.MaxStep.toNat
    (run.GenScreen E 0).1 (game0001.basePicks E g run).1 (game0001.basePicks E g run).2
  have hx := game0001.trigger_of_fields scatter
    { g with fixed := (game0001.cascade E 0 r.BetMult g.fixed.MaxStep.toNat (run.GenScreen E 0).1
        (game0001.basePicks E g run).1 (game0001.basePicks E g run).2).2.1 } g
    (game0001.baseFinalScreen E g r run) (by rw [e]; rfl) (by rw [e]; rfl) rfl
  have hf := (game0001.trigger_fixed_cascade scatter
    { g with fixed := (game0001.cascade E 0 r.BetMult g.fixed.MaxStep.toNat (run.GenScreen E 0).1
        (game0001.basePicks E g run).1 (game0001.basePicks E g run).2).2.1 }
    (game0001.baseFinalScreen E g r run)).1
  have hpay : (game0001.cascade E 0 r.BetMult g.fixed.MaxStep.toNat (run.GenScreen E 0).1
      (game0001.basePicks E g run).1 (game0001.basePicks E g run).2).2.1.ScatterPay
      = g.fixed.ScatterPay := by
    rw [e]; rfl
  have h01 := game0001.trigger_code_cases scatter g _ t ht
  rw [← hx.1] at ht
  rw [← hx.2]
  unfold game0001.getBaseResult
  unfold game0001.baseFinalScreen game0001.basePicks at ht hf ⊢
  unfold game0001.basePicks at hpay
  simp only [] at ht hf ⊢
  split
  · rename_i g2 heq
    rw [heq] at ht
    cases ht
  · rename_i t2 g2 heq
    rw [heq] at ht hf
    simp only [Option.some.injEq] at ht
    simp only at hf
    subst ht
    rw [heq]
    refine ⟨_, rfl, ?_⟩
    rcases h01 with h0 | h1
    · subst h0
      simp [game0001.baseEnd]
    · subst h1
      simp [game0001.baseEnd, hf, hpay]

theorem wrapInt_of_range (x : Int) (h1 : -(2 ^ 63) ≤ x) (h2 : x < 2 ^ 63) : wrapInt x = x := by
  unfold wrapInt
  have : (x + 2 ^ 63) % 2 ^ 64 = x + 2 ^ 63 := by
    apply Int.emod_eq_of_lt <;> omega
  omega

/-- C14: in the base round of `game0001` the trigger is evaluated on the round's final
screen, the one the cascade loop leaves.  When it returns the code `t`, the round
ends with `baseEnd`: the write of the code, then for a non-zero code exactly one
`UpdateTmpWin` with the Go product `ScatterPay * betMult` and one "trigger" action
carrying the extension state the trigger left, then `FinishRound` and `YieldResult`;
nothing before that in the round is an `UpdateTmpWin`, a "trigger" action or a
`FinishRound`, so both come before `FinishRound`, and for the code 0 neither occurs.
The Go product is the exact product whenever that fits in 64 bits; with
`ScatterPay` 10 and bet multiplier 2 it is 20. -/
theorem base_trigger_payout (scatter : SymbolType) (g : game0001) (r : SpinRequest) (w : σ) :
    (game0001.getBaseResult E scatter g r ⟨w, []⟩).2.1.ext =
      (game0001.trigger scatter g (game0001.baseFinalScreen E g r ⟨w, []⟩)).2.ext ∧
    (∀ t, (game0001.trigger scatter g (game0001.baseFinalScreen E g r ⟨w, []⟩)).1 = some t →
      ∃ pre res, (game0001.getBaseResult E scatter g r ⟨w, []⟩).1 = some res ∧
        (game0001.getBaseResult E scatter g r ⟨w, []⟩).2.2.calls =
          pre ++ game0001.baseEnd t (wrapInt (g.fixed.ScatterPay * r.BetMult))
            (game0001.trigger scatter g (game0001.baseFinalScreen E g r ⟨w, []⟩)).2.ext res ∧
        pre.countP Call.isUpdateTmpWin = 0 ∧ pre.countP Call.isTriggerAct = 0 ∧
        pre.countP Call.isFinishRound = 0 ∧
        (game0001.getBaseResult E scatter g r ⟨w, []⟩).2.2.calls.countP Call.isUpdateTmpWin =
          (if t ≠ 0 then 1 else 0) ∧
        (game0001.getBaseResult E scatter g r ⟨w, []⟩).2.2.calls.countP Call.isTriggerAct =
          (if t ≠ 0 then 1 else 0)) ∧
    (-(2 ^ 63) ≤ g.fixed.ScatterPay * r.BetMult → g.fixed.ScatterPay * r.BetMult < 2 ^ 63 →
      wrapInt (g.fixed.ScatterPay * r.BetMult) = g.fixed.ScatterPay * r.BetMult) ∧
    (g.fixed.ScatterPay = 10 → r.BetMult = 2 →
      wrapInt (g.fixed.ScatterPay * r.BetMult) = 20) := by
  refine ⟨?_, ?_, ?_, ?_⟩
  · exact (game0001.getBaseResult_tail E scatter g r ⟨w, []⟩).choose_spec.2.2
  · intro t ht
    obtain ⟨res, hres, e⟩ := game0001.getBaseResult_end E scatter g r ⟨w, []⟩ t ht
    obtain ⟨pre, hpre, _, hfin, hall⟩ := game0001.baseCascade_calls E g r ⟨w, []⟩
    have u0 := countP_zero_of_all Call.isUpdateTmpWin Call.inFreeRound
      (fun c h => Call.inFreeRound_no_update c h) pre hall
    have t0 := countP_zero_of_all Call.isTriggerAct Call.inFreeRound
      (fun c h => Call.inFreeRound_no_trigger c h) pre hall
    rw [hpre] at e
    simp only [List.nil_append] at e
    refine ⟨pre, res, hres, e, u0, t0, hfin, ?_, ?_⟩
    · rw [e, List.countP_append, u0]
      by_cases h0 : t = 0
      · simp [game0001.baseEnd, h0, List.countP_cons, Call.isUpdateTmpWin]
      · simp [game0001.baseEnd, h0, List.countP_cons, Call.isUpdateTmpWin]
    · rw [e, List.countP_append, t0]
      by_cases h0 : t = 0
      · simp [game0001.baseEnd, h0, List.countP_cons, Call.isTriggerAct]
      · simp [game0001.baseEnd, h0, List.countP_cons, Call.isTriggerAct]
  · intro h1 h2
    exact wrapInt_of_range _ h1 h2
  · intro h1 h2
    rw [h1, h2]
    decide

/-- The run of the witness has two winning passes and a final screen with three
scatters: the payout 20 and the "trigger" action follow the cascade. -/
theorem base_trigger_payout_witness :
    (game0001.trigger 1 (demoCascade 2 1)
      (game0001.baseFinalScreen (scripted [1, 1, 1, 0, 0]) (demoCascade 2 1) ⟨2⟩
        ⟨⟨[5, 5], 0, 0⟩, []⟩)).1 = some 1 ∧
    (∃ pre res,
      (game0001.getBaseResult (scripted [1, 1, 1, 0, 0]) 1 (demoCascade 2 1) ⟨2⟩
        ⟨⟨[5, 5], 0, 0⟩, []⟩).1 = some res ∧
      (game0001.getBaseResult (scripted [1, 1, 1, 0, 0]) 1 (demoCascade 2 1) ⟨2⟩
        ⟨⟨[5, 5], 0, 0⟩, []⟩).2.2.calls =
        pre ++ game0001.baseEnd 1
          (wrapInt ((demoCascade 2 1).fixed.ScatterPay * (SpinRequest.mk 2).BetMult))
          (game0001.trigger 1 (demoCascade 2 1)
            (game0001.baseFinalScreen (scripted [1, 1, 1, 0, 0]) (demoCascade 2 1) ⟨2⟩
              ⟨⟨[5, 5], 0, 0⟩, []⟩)).2.ext res ∧
      pre.countP Call.isUpdateTmpWin = 0 ∧ pre.countP Call.isTriggerAct = 0 ∧
      pre.countP Call.isFinishRound = 0 ∧
      (game0001.getBaseResult (scripted [1, 1, 1, 0, 0]) 1 (demoCascade 2 1) ⟨2⟩
        ⟨⟨[5, 5], 0, 0⟩, []⟩).2.2.calls.countP Call.isUpdateTmpWin =
        (if (1 : Int) ≠ 0 then 1 else 0) ∧
      (game0001.getBaseResult (scripted [1, 1, 1, 0, 0]) 1 (demoCascade 2 1) ⟨2⟩
        ⟨⟨[5, 5], 0, 0⟩, []⟩).2.2.calls.countP Call.isTriggerAct =
        (if (1 : Int) ≠ 0 then 1 else 0)) ∧
    wrapInt ((demoCascade 2 1).fixed.ScatterPay * (SpinRequest.mk 2).BetMult) =
      (demoCascade 2 1).fixed.ScatterPay * (SpinRequest.mk 2).BetMult ∧
    wrapInt ((demoCascade 2 1).fixed.ScatterPay * (SpinRequest.mk 2).BetMult) = 20 := by
  have T := base_trigger_payout (scripted [1, 1, 1, 0, 0]) 1 (demoCascade 2 1) ⟨2⟩
    ⟨[5, 5], 0, 0⟩
  have ht : (game0001.trigger 1 (demoCascade 2 1)
      (game0001.baseFinalScreen (scripted [1, 1, 1, 0, 0]) (demoCascade 2 1) ⟨2⟩
        ⟨⟨[5, 5], 0, 0⟩, []⟩)).1 = some 1 := by decide
  exact ⟨ht, T.2.1 1 ht, T.2.2.1 (by decide) (by decide), T.2.2.2 rfl rfl⟩

/-! ## The scratch buffers -/

theorem game0001.resetLoop_get (k i : Nat) (b : List Int × List Int) (j : Nat) :
    (game0001.resetLoop k i b).1[j]? =
      (if i ≤ j ∧ j < i + k then (b.1[j]?).map (fun _ => 0) else b.1[j]?) ∧
    (game0001.resetLoop k i b).2[j]? =
      (if i ≤ j ∧ j < i + k then (b.2[j]?).map (fun _ => 0) else b.2[j]?) := by
  induction k generalizing i b with
  | zero =>
    have : ¬ (i ≤ j ∧ j < i) := by omega
    simp [game0001.resetLoop, this]
  | succ k ih =>
    simp only [game0001.resetLoop]
    obtain ⟨h1, h2⟩ := ih (i + 1) (b.1.set i 0, b.2.set i 0)
    rw [h1, h2]
    simp only [List.getElem?_set]
    by_cases hij : i = j
    · subst hij
      have c1 : ¬ (i + 1 ≤ i ∧ i < i + 1 + k) := by omega
      have c2 : i ≤ i ∧ i < i + (k + 1) := by omega
      simp only [c1, c2, if_true, if_false, and_self]
      constructor
      · by_cases hl : i < b.1.length
        · simp [hl, List.getElem?_eq_getElem hl]
        · simp [hl, List.getElem?_eq_none (not_lt.mp hl)]
      · by_cases hl : i < b.2.length
        · simp [hl, List.getElem?_eq_getElem hl]
        · simp [hl, List.getElem?_eq_none (not_lt.mp hl)]
    · simp only [hij, if_false]
      by_cases c : i + 1 ≤ j ∧ j < i + 1 + k
      · have c2 : i ≤ j ∧ j < i + (k + 1) := by omega
        simp [c, c2]
      · have c2 : ¬ (i ≤ j ∧ j < i + (k + 1)) := by omega
        simp [c, c2]

theorem game0001.resetIdx_zero (fix : fixed0001) :
    (game0001.resetIdx fix).screenFillPos = List.replicate fix.screenFillPos.length 0 ∧
    (game0001.resetIdx fix).fillReelsIdx = List.replicate fix.fillReelsIdx.length 0 := by
  constructor
  · apply List.ext_getElem?
    intro j
    show (game0001.resetLoop fix.screenFillPos.length 0
      (fix.screenFillPos, fix.fillReelsIdx)).1[j]? = _
    rw [(game0001.resetLoop_get _ 0 _ j).1, List.getElem?_replicate]
    by_cases hj : j < fix.screenFillPos.length
    · simp [hj, List.getElem?_eq_getElem hj]
    · simp [hj, List.getElem?_eq_none (not_lt.mp hj)]
  · apply List.ext_getElem?
    intro j
    show (game0001.resetLoop fix.screenFillPos.length 0
      (fix.screenFillPos, fix.fillReelsIdx)).2[j]? = _
    rw [(game0001.resetLoop_get _ 0 _ j).2, List.getElem?_replicate, ← fix.sameLen]
    by_cases hj : j < fix.fillReelsIdx.length
    · simp [hj, List.getElem?_eq_getElem hj]
    · simp [hj, List.getElem?_eq_none (not_lt.mp hj)]

theorem game0001.cascade_win (m : Nat) (b : Int) (n : Nat) (screen : Screen)
    (fix : fixed0001) (run : Run σ R S)
    (h : E.GetTmpWin m (E.CalcScreen m b screen run.world) ≠ 0) :
    ∃ rest, (game0001.cascade E m b (n + 1) screen fix run).2.2.calls =
      run.calls ++ (winningPass E m b screen (E.HitMapTmp m (E.CalcScreen m b screen run.world))
        (E.GetTmpWin m (E.CalcScreen m b screen run.world))
        fix.screenFillPos fix.fillReelsIdx ++ rest) := by
  have h2 : (((run.CalcScreen E m b screen).HitMapTmp E m).2.GetTmpWin E m).1 ≠ 0 := h
  obtain ⟨rest, h1, _⟩ := game0001.cascade_calls E m b n
    (game0001.cascadeStep E m ((run.CalcScreen E m b screen).HitMapTmp E m).1 screen fix
      (((run.CalcScreen E m b screen).HitMapTmp E m).2.GetTmpWin E m).2).1
    (game0001.cascadeStep E m ((run.CalcScreen E m b screen).HitMapTmp E m).1 screen fix
      (((run.CalcScreen E m b screen).HitMapTmp E m).2.GetTmpWin E m).2).2.1
    (game0001.cascadeStep E m ((run.CalcScreen E m b screen).HitMapTmp E m).1 screen fix
      (((run.CalcScreen E m b screen).HitMapTmp E m).2.GetTmpWin E m).2).2.2
  refine ⟨rest, ?_⟩
  unfold game0001.cascade
  simp only [h2, if_false]
  rw [h1, game0001.cascadeStep_calls E m _ screen fix _ b
    (E.GetTmpWin m (E.CalcScreen m b screen run.world))]
  simp [winningPass, Run.GetTmpWin, Run.HitMapTmp, Run.CalcScreen]

theorem game0001.freeRound_eq (b : Int) (fix : fixed0001) (run : Run σ R S) :
    game0001.freeRound E b fix run =
      ((game0001.cascade E 1 b fix.MaxStep.toNat (run.GenScreen E 1).1
          (game0001.freePicks E fix run).1 (game0001.freePicks E fix run).2).2.1,
       (game0001.cascade E 1 b fix.MaxStep.toNat (run.GenScreen E 1).1
          (game0001.freePicks E fix run).1 (game0001.freePicks E fix run).2).2.2.FinishRound
            E 1) := rfl

/-- C15: the scratch buffers are zeroed before the first cascade iteration of every
round.  `resetIdx` sets every entry of `screenFillPos` and of `fillReelsIdx` to 0 and
keeps their lengths.  The cascade loop of the base round starts in the state
`basePicks` and that of a free round in the state `freePicks`, both reached after
`resetIdx` and the pick loop, and there `screenFillPos` is all zeros whatever the
buffers held before; so when the first pass of a round wins, the `Gravity` call it
logs receives an all-zero `screenFillPos`. -/
theorem scratch_zeroed (scatter : SymbolType) (g : game0001) (r : SpinRequest) (w : σ)
    (fix : fixed0001) :
    ((game0001.resetIdx fix).screenFillPos = List.replicate fix.screenFillPos.length 0 ∧
     (game0001.resetIdx fix).fillReelsIdx = List.replicate fix.fillReelsIdx.length 0 ∧
     (game0001.resetIdx fix).screenFillPos.length = fix.screenFillPos.length ∧
     (game0001.resetIdx fix).fillReelsIdx.length = fix.fillReelsIdx.length) ∧
    ((game0001.basePicks E g ⟨w, []⟩).1.screenFillPos =
        List.replicate g.fixed.screenFillPos.length 0 ∧
     ∃ tail, (game0001.getBaseResult E scatter g r ⟨w, []⟩).2.2.calls =
       (game0001.cascade E 0 r.BetMult g.fixed.MaxStep.toNat (E.GenScreen 0 w).1
         (game0001.basePicks E g ⟨w, []⟩).1 (game0001.basePicks E g ⟨w, []⟩).2).2.2.calls
         ++ tail) ∧
    ((game0001.freePicks E fix ⟨w, []⟩).1.screenFillPos =
        List.replicate fix.screenFillPos.length 0 ∧
     game0001.freeRound E r.BetMult fix ⟨w, []⟩ =
       ((game0001.cascade E 1 r.BetMult fix.MaxStep.toNat (E.GenScreen 1 w).1
          (game0001.freePicks E fix ⟨w, []⟩).1 (game0001.freePicks E fix ⟨w, []⟩).2).2.1,
        (game0001.cascade E 1 r.BetMult fix.MaxStep.toNat (E.GenScreen 1 w).1
          (game0001.freePicks E fix ⟨w, []⟩).1
          (game0001.freePicks E fix ⟨w, []⟩).2).2.2.FinishRound E 1)) ∧
    (0 < g.fixed.MaxStep → game0001.baseFirstWin E g r ⟨w, []⟩ ≠ 0 →
      Call.Gravity (E.Clear (E.GenScreen 0 w).1 (game0001.baseFirstHit E g r ⟨w, []⟩))
          (E.Cols 0) (E.Rows 0) (List.replicate g.fixed.screenFillPos.length 0) ∈
        (game0001.getBaseResult E scatter g r ⟨w, []⟩).2.2.calls) ∧
    (0 < fix.MaxStep → game0001.freeFirstWin E r.BetMult fix ⟨w, []⟩ ≠ 0 →
      Call.Gravity (E.Clear (E.GenScreen 1 w).1 (game0001.freeFirstHit E r.BetMult fix ⟨w, []⟩))
          (E.Cols 1) (E.Rows 1) (List.replicate fix.screenFillPos.length 0) ∈
        (game0001.freeRound E r.BetMult fix ⟨w, []⟩).2.calls) := by
  have hb : (game0001.basePicks E g ⟨w, []⟩).1.screenFillPos =
      List.replicate g.fixed.screenFillPos.length 0 := (game0001.resetIdx_zero g.fixed).1
  have hf : (game0001.freePicks E fix ⟨w, []⟩).1.screenFillPos =
      List.replicate fix.screenFillPos.length 0 := (game0001.resetIdx_zero fix).1
  refine ⟨⟨(game0001.resetIdx_zero fix).1, (game0001.resetIdx_zero fix).2, ?_, ?_⟩,
    ⟨hb, ?_⟩, ⟨hf, rfl⟩, ?_, ?_⟩
  · rw [(game0001.resetIdx_zero fix).1]; simp
  · rw [(game0001.resetIdx_zero fix).2]; simp
  · obtain ⟨tail, _, e, _⟩ := game0001.getBaseResult_tail E scatter g r ⟨w, []⟩
    exact ⟨tail, e⟩
  · intro hm hw
    obtain ⟨k, hk⟩ : ∃ k, g.fixed.MaxStep.toNat = k + 1 :=
      ⟨g.fixed.MaxStep.toNat - 1, by omega⟩
    obtain ⟨tail, _, e, _⟩ := game0001.getBaseResult_tail E scatter g r ⟨w, []⟩
    obtain ⟨rest, hc⟩ := game0001.cascade_win E 0 r.BetMult k (E.GenScreen 0 w).1
      (game0001.basePicks E g ⟨w, []⟩).1 (game0001.basePicks E g ⟨w, []⟩).2 hw
    rw [e]
    show _ ∈ (game0001.cascade E 0 r.BetMult g.fixed.MaxStep.toNat (E.GenScreen 0 w).1
      (game0001.basePicks E g ⟨w, []⟩).1 (game0001.basePicks E g ⟨w, []⟩).2).2.2.calls ++ tail
    rw [hk, hc, hb]
    simp [winningPass, game0001.baseFirstHit, Run.GenScreen]
  · intro hm hw
    obtain ⟨k, hk⟩ : ∃ k, fix.MaxStep.toNat = k + 1 := ⟨fix.MaxStep.toNat - 1, by omega⟩
    obtain ⟨rest, hc⟩ := game0001.cascade_win E 1 r.BetMult k (E.GenScreen 1 w).1
      (game0001.freePicks E fix ⟨w, []⟩).1 (game0001.freePicks E fix ⟨w, []⟩).2 hw
    rw [game0001.freeRound_eq]
    show _ ∈ ((game0001.cascade E 1 r.BetMult fix.MaxStep.toNat (E.GenScreen 1 w).1
      (game0001.freePicks E fix ⟨w, []⟩).1 (game0001.freePicks E fix ⟨w, []⟩).2).2.2.FinishRound
        E 1).calls
    rw [Run.FinishRound_calls, hk, hc, hf]
    simp [winningPass, game0001.freeFirstHit, Run.GenScreen]

/-- The unit of the witness enters the round with the buffers [7, 8, 9] and [4, 5, 6]
left by an earlier round. -/
theorem scratch_zeroed_witness :
    (game0001.resetIdx (fixed0001.mk 2 1 3 10 [4, 5, 6] [7, 8, 9] [0, 1, 0] rfl)).screenFillPos
      = [0, 0, 0] ∧
    (game0001.resetIdx (fixed0001.mk 2 1 3 10 [4, 5, 6] [7, 8, 9] [0, 1, 0] rfl)).fillReelsIdx
      = [0, 0, 0] ∧
    (0 : Int) < (fixed0001.mk 2 1 3 10 [4, 5, 6] [7, 8, 9] [0, 1, 0] rfl).MaxStep ∧
    game0001.baseFirstWin (scripted [1, 1, 1, 0, 0])
      ⟨fixed0001.mk 2 1 3 10 [4, 5, 6] [7, 8, 9] [0, 1, 0] rfl, (demoCascade 2 1).ext⟩ ⟨2⟩
      ⟨⟨[5, 0], 0, 0⟩, []⟩ ≠ 0 ∧
    Call.Gravity ((scripted [1, 1, 1, 0, 0]).Clear
        ((scripted [1, 1, 1, 0, 0]).GenScreen 0 ⟨[5, 0], 0, 0⟩).1
        (game0001.baseFirstHit (scripted [1, 1, 1, 0, 0])
          ⟨fixed0001.mk 2 1 3 10 [4, 5, 6] [7, 8, 9] [0, 1, 0] rfl, (demoCascade 2 1).ext⟩ ⟨2⟩
          ⟨⟨[5, 0], 0, 0⟩, []⟩))
        ((scripted [1, 1, 1, 0, 0]).Cols 0) ((scripted [1, 1, 1, 0, 0]).Rows 0)
        (List.replicate
          (fixed0001.mk 2 1 3 10 [4, 5, 6] [7, 8, 9] [0, 1, 0] rfl).screenFillPos.length 0) ∈
      (game0001.getBaseResult (scripted [1, 1, 1, 0, 0]) 1
        ⟨fixed0001.mk 2 1 3 10 [4, 5, 6] [7, 8, 9] [0, 1, 0] rfl, (demoCascade 2 1).ext⟩ ⟨2⟩
        ⟨⟨[5, 0], 0, 0⟩, []⟩).2.2.calls ∧
    Call.Gravity ((scripted [1, 1, 1, 0, 0]).Clear
        ((scripted [1, 1, 1, 0, 0]).GenScreen 1 ⟨[5, 0], 0, 0⟩).1
        (game0001.freeFirstHit (scripted [1, 1, 1, 0, 0]) (SpinRequest.mk 2).BetMult
          (fixed0001.mk 2 1 3 10 [4, 5, 6] [7, 8, 9] [0, 1, 0] rfl) ⟨⟨[5, 0], 0, 0⟩, []⟩))
        ((scripted [1, 1, 1, 0, 0]).Cols 1) ((scripted [1, 1, 1, 0, 0]).Rows 1)
        (List.replicate
          (fixed0001.mk 2 1 3 10 [4, 5, 6] [7, 8, 9] [0, 1, 0] rfl).screenFillPos.length 0) ∈
      (game0001.freeRound (scripted [1, 1, 1, 0, 0]) (SpinRequest.mk 2).BetMult
        (fixed0001.mk 2 1 3 10 [4, 5, 6] [7, 8, 9] [0, 1, 0] rfl)
        ⟨⟨[5, 0], 0, 0⟩, []⟩).2.calls := by
  have T := scratch_zeroed (scripted [1, 1, 1, 0, 0]) 1
    ⟨fixed0001.mk 2 1 3 10 [4, 5, 6] [7, 8, 9] [0, 1, 0] rfl, (demoCascade 2 1).ext⟩ ⟨2⟩
    ⟨[5, 0], 0, 0⟩ (fixed0001.mk 2 1 3 10 [4, 5, 6] [7, 8, 9] [0, 1, 0] rfl)
  have hw : game0001.baseFirstWin (scripted [1, 1, 1, 0, 0])
      ⟨fixed0001.mk 2 1 3 10 [4, 5, 6] [7, 8, 9] [0, 1, 0] rfl, (demoCascade 2 1).ext⟩ ⟨2⟩
      ⟨⟨[5, 0], 0, 0⟩, []⟩ ≠ 0 := by decide
  exact ⟨T.1.1, T.1.2.1, by decide, hw, T.2.2.2.1 (by decide) hw,
    T.2.2.2.2 (by decide) (by decide)⟩

/-! ## Order of the transforms and labels of the actions -/

theorem actLabels_append (l1 l2 : List (Call R S)) :
    actLabels (l1 ++ l2) = actLabels l1 ++ actLabels l2 := by
  simp [actLabels, List.filterMap_append]

theorem actLabels_of_isPick (l : List (Call R S)) (h : ∀ c ∈ l, Call.isPick c = true) :
    actLabels l = [] ∧ l.filter Call.isTransform = [] := by
  induction l with
  | nil => exact ⟨rfl, rfl⟩
  | cons c cs ih =>
    have hc := h c (List.mem_cons_self c cs)
    have ih2 := ih (fun d hd => h d (List.mem_cons_of_mem c hd))
    cases c with
    | Pick m i v =>
      constructor
      · have : actLabels (Call.Pick m i v :: cs) = actLabels cs := by
          simp [actLabels, List.filterMap_cons, Call.label?]
        rw [this]
        exact ih2.1
      · have : (Call.Pick m i v :: cs).filter Call.isTransform = cs.filter Call.isTransform := by
          simp [List.filter_cons, Call.isTransform]
        rw [this]
        exact ih2.2
    | _ => simp [Call.isPick] at hc

theorem CascadeTrace.pass_labels {m : Nat} {b : Int} {n : Nat} {new : List (Call R S)}
    (h : CascadeTrace E m b n new) :
    ∃ k, k ≤ n ∧ actLabels new = passLabels k ∧
      TransformRuns E m (new.filter Call.isTransform) := by
  induction h with
  | cap => exact ⟨0, le_refl _, rfl, TransformRuns.done⟩
  | stop n screen hit =>
    exact ⟨0, Nat.zero_le _, rfl, by
      simp only [zeroPass, List.filter_cons, Call.isTransform]
      exact TransformRuns.done⟩
  | step n screen hit win pos idx rest hw _ ih =>
    obtain ⟨k, hk, hl, ht⟩ := ih
    refine ⟨k + 1, by omega, ?_, ?_⟩
    · rw [actLabels_append, hl]
      rfl
    · rw [List.filter_append]
      exact TransformRuns.pass screen hit pos idx _ ht

theorem BaseTail.tail_labels {ret : Option R} {tail : List (Call R S)} (h : BaseTail ret tail) :
    (actLabels tail = [] ∨ actLabels tail = ["trigger"]) ∧
    tail.filter Call.isTransform = [] := by
  rcases h with ⟨_, rfl⟩ | ⟨res, t, mid, _, rfl, rfl | ⟨e, rfl⟩ | ⟨v, e, rfl⟩⟩
  · exact ⟨Or.inl rfl, rfl⟩
  · exact ⟨Or.inl rfl, rfl⟩
  · exact ⟨Or.inr rfl, rfl⟩
  · exact ⟨Or.inr rfl, rfl⟩

/-- C16: within one round of `game0001` every winning pass runs the transforms in the
order `Clear`, `Gravity`, `FillScreen`, each once, and `FillScreen` receives the
`screenFillPos` that `Gravity` returned: this is the log of the pass body
`cascadeStep`, and the transform calls of a whole round form such triples
(`TransformRuns`).  The labels of the actions of a round are "gen_screen", then `k`
times "win", "clear", "gravity", "fillscreen" with `k` at most the number of loop
iterations (`MaxStep` when it is not negative), then in base mode nothing or one
"trigger". -/
theorem transform_order (scatter : SymbolType) (g : game0001) (r : SpinRequest) (w : σ) :
    (∀ (m : Nat) (hit : List Int) (screen : Screen) (fix : fixed0001) (run : Run σ R S),
      (game0001.cascadeStep E m hit screen fix run).2.2.calls = run.calls ++
        [ Call.AddAct m .FinishAct "win" none none,
          Call.Clear screen hit,
          Call.AddAct m .FinishStep "clear" (some (E.Clear screen hit)) none,
          Call.Gravity (E.Clear screen hit) (E.Cols m) (E.Rows m) fix.screenFillPos,
          Call.AddAct m .FinishStep "gravity"
            (some (E.Gravity (E.Clear screen hit) (E.Cols m) (E.Rows m) fix.screenFillPos).1)
            none,
          Call.FillScreen
            (E.Gravity (E.Clear screen hit) (E.Cols m) (E.Rows m) fix.screenFillPos).1 m
            (E.Gravity (E.Clear screen hit) (E.Cols m) (E.Rows m) fix.screenFillPos).2
            fix.fillReelsIdx (E.Cols m),
          Call.AddAct m .FinishStep "fillscreen"
            (some (E.FillScreen
              (E.Gravity (E.Clear screen hit) (E.Cols m) (E.Rows m) fix.screenFillPos).1 m
              (E.Gravity (E.Clear screen hit) (E.Cols m) (E.Rows m) fix.screenFillPos).2
              fix.fillReelsIdx (E.Cols m)).1) none ]) ∧
    (TransformRuns E 0
        ((game0001.getBaseResult E scatter g r ⟨w, []⟩).2.2.calls.filter Call.isTransform) ∧
     ∃ k trig, k ≤ g.fixed.MaxStep.toNat ∧ (0 ≤ g.fixed.MaxStep → (k : Int) ≤ g.fixed.MaxStep) ∧
       (trig = [] ∨ trig = ["trigger"]) ∧
       actLabels (game0001.getBaseResult E scatter g r ⟨w, []⟩).2.2.calls =
         "gen_screen" :: (passLabels k ++ trig)) ∧
    (TransformRuns E 1
        ((game0001.freeRound E r.BetMult g.fixed ⟨w, []⟩).2.calls.filter Call.isTransform) ∧
     ∃ k, k ≤ g.fixed.MaxStep.toNat ∧ (0 ≤ g.fixed.MaxStep → (k : Int) ≤ g.fixed.MaxStep) ∧
       actLabels (game0001.freeRound E r.BetMult g.fixed ⟨w, []⟩).2.calls =
         "gen_screen" :: passLabels k) := by
  refine ⟨?_, ?_, ?_⟩
  · intro m hit screen fix run
    rw [game0001.cascadeStep_calls E m hit screen fix run 0 0]
    rfl
  · obtain ⟨picks, casc, tail, hp, hc, ht, e⟩ :=
      game0001.getBaseResult_calls_cascade E scatter g r ⟨w, []⟩
    obtain ⟨k, hk, hl, htr⟩ := CascadeTrace.pass_labels E hc
    obtain ⟨hp1, hp2⟩ := actLabels_of_isPick picks hp
    obtain ⟨ht1, ht2⟩ := BaseTail.tail_labels ht
    rw [e]
    constructor
    · have hfl : ([] ++ (Call.GenScreen 0 (Run.GenScreen E ⟨w, []⟩ 0).1 ::
          Call.AddAct 0 .FinishAct "gen_screen" (some (Run.GenScreen E ⟨w, []⟩ 0).1) none ::
          (picks ++ casc ++ tail))).filter Call.isTransform = casc.filter Call.isTransform := by
        simp [List.filter_cons, List.filter_append, Call.isTransform, hp2, ht2]
      rw [hfl]
      exact htr
    · refine ⟨k, actLabels tail, hk, fun h0 => by omega, ht1, ?_⟩
      simp only [List.nil_append]
      show actLabels ([_, _] ++ (picks ++ casc ++ tail)) = _
      rw [actLabels_append, actLabels_append, actLabels_append, hp1, hl]
      rfl
  · obtain ⟨picks, casc, hp, hc, e⟩ := game0001.freeRound_calls_cascade E r.BetMult g.fixed
      ⟨w, []⟩
    obtain ⟨k, hk, hl, htr⟩ := CascadeTrace.pass_labels E hc
    obtain ⟨hp1, hp2⟩ := actLabels_of_isPick picks hp
    rw [e]
    constructor
    · have hfl : ([] ++ (Call.GenScreen 1 (Run.GenScreen E ⟨w, []⟩ 1).1 ::
          Call.AddAct 1 .FinishAct "gen_screen" (some (Run.GenScreen E ⟨w, []⟩ 1).1) none ::
          (picks ++ casc ++ [Call.FinishRound 1]))).filter Call.isTransform =
          casc.filter Call.isTransform := by
        simp [List.filter_cons, List.filter_append, Call.isTransform, hp2]
      rw [hfl]
      exact htr
    · refine ⟨k, hk, fun h0 => by omega, ?_⟩
      simp only [List.nil_append]
      show actLabels ([_, _] ++ (picks ++ casc ++ [Call.FinishRound 1])) = _
      rw [actLabels_append, actLabels_append, actLabels_append, hp1, hl]
      simp [actLabels, Call.label?]

theorem transform_order_witness :
    (0 : Int) ≤ (demoCascade 2 1).fixed.MaxStep ∧
    (∃ k trig, k ≤ (demoCascade 2 1).fixed.MaxStep.toNat ∧
       ((0 : Int) ≤ (demoCascade 2 1).fixed.MaxStep →
          (k : Int) ≤ (demoCascade 2 1).fixed.MaxStep) ∧
       (trig = [] ∨ trig = ["trigger"]) ∧
       actLabels (game0001.getBaseResult (scripted [1, 1, 1, 0, 0]) 1 (demoCascade 2 1) ⟨2⟩
         ⟨⟨[5, 5], 0, 0⟩, []⟩).2.2.calls = "gen_screen" :: (passLabels k ++ trig)) ∧
    actLabels (game0001.getBaseResult (scripted [1, 1, 1, 0, 0]) 1 (demoCascade 2 1) ⟨2⟩
         ⟨⟨[5, 5], 0, 0⟩, []⟩).2.2.calls =
      ["gen_screen", "win", "clear", "gravity", "fillscreen", "win", "clear", "gravity",
       "fillscreen", "trigger"] := by
  have T := transform_order (scripted [1, 1, 1, 0, 0]) 1 (demoCascade 2 1) ⟨2⟩
    ⟨[5, 5], 0, 0⟩
  exact ⟨by decide, T.2.1.2, by decide⟩

/-! ## Rounds with zero win on the first pass -/

theorem game0001.getBaseResult_panic (scatter : SymbolType) (g : game0001) (r : SpinRequest)
    (run : Run σ R S)
    (ht : (game0001.trigger scatter g (game0001.baseFinalScreen E g r run)).1 = none) :
    (game0001.getBaseResult E scatter g r run).1 = none ∧
    (game0001.getBaseResult E scatter g r run).2.2.calls =
      (game0001.cascade E 0 r.BetMult g.fixed.MaxStep.toNat (run.GenScreen E 0).1
        (game0001.basePicks E g run).1 (game0001.basePicks E g run).2).2.2.calls := by
  obtain ⟨idx, pos, hl, e⟩ := game0001.cascade_fixed E 0 r.BetMult g.fixed.MaxStep.toNat
    (run.GenScreen E 0).1 (game0001.basePicks E g run).1 (game0001.basePicks E g run).2
  have hx := game0001.trigger_of_fields scatter
    { g with fixed := (game0001.cascade E 0 r.BetMult g.fixed.MaxStep.toNat (run.GenScreen E 0).1
        (game0001.basePicks E g run).1 (game0001.basePicks E g run).2).2.1 } g
    (game0001.baseFinalScreen E g r run) (by rw [e]; rfl) (by rw [e]; rfl) rfl
  rw [← hx.1] at ht
  unfold game0001.getBaseResult
  unfold game0001.baseFinalScreen game0001.basePicks at ht
  unfold game0001.basePicks
  simp only [] at ht ⊢
  split
  · exact ⟨rfl, rfl⟩
  · rename_i t2 g2 heq
    rw [heq] at ht
    cases ht

theorem game0001.getBaseResult_labels (scatter : SymbolType) (g : game0001) (r : SpinRequest)
    (run : Run σ R S) :
    actLabels (game0001.getBaseResult E scatter g r run).2.2.calls =
      actLabels (game0001.cascade E 0 r.BetMult g.fixed.MaxStep.toNat (run.GenScreen E 0).1
        (game0001.basePicks E g run).1 (game0001.basePicks E g run).2).2.2.calls ++
      (if (game0001.trigger scatter g (game0001.baseFinalScreen E g r run)).1 = some 1
        then ["trigger"] else []) := by
  rcases hcode : (game0001.trigger scatter g (game0001.baseFinalScreen E g r run)).1 with _ | t
  · rw [(game0001.getBaseResult_panic E scatter g r run hcode).2]
    simp
  · obtain ⟨res, _, e⟩ := game0001.getBaseResult_end E scatter g r run t hcode
    rw [e, actLabels_append]
    rcases game0001.trigger_code_cases scatter g _ t hcode with h0 | h1
    · subst h0
      simp [game0001.baseEnd, actLabels, Call.label?]
    · subst h1
      simp [game0001.baseEnd, actLabels, Call.label?]

theorem game0000.getBaseResult_labels_normal (scatter : SymbolType) (g : game0000) (b : Int)
    (run : Run σ R S) :
    actLabels (game0000.getBaseResult E scatter g b run).2.2.calls =
      actLabels run.calls ++ actLabels (game0000.roundHead E 0 b run) ++
      (if (game0000.trigger scatter g (run.GenScreen E 0).1).1 = some 1
        then ["trigger"] else []) := by
  have hc := game0000.trigger_congr_normal scatter { fixed := g.fixed, ext := g.ext.Reset } g
    (run.GenScreen E 0).1 rfl rfl
  rw [← hc]
  unfold game0000.getBaseResult game0000.roundHead game0000.roundWin
  simp only []
  split
  · rename_i g2 heq
    rw [heq]
    split_ifs <;> simp_all [actLabels, Call.label?, List.filterMap_append]
  · rename_i t g2 heq
    have h01 : t = 0 ∨ t = 1 := by
      have h := heq
      unfold game0000.trigger at h
      simp only [] at h
      split at h
      · cases h
      · split at h
        · right
          exact (Option.some.inj (congrArg Prod.fst h)).symm
        · left
          exact (Option.some.inj (congrArg Prod.fst h)).symm
    rw [heq]
    rcases h01 with h0 | h1
    · subst h0
      split_ifs <;> simp_all [actLabels, Call.label?, List.filterMap_append]
    · subst h1
      split_ifs <;> simp_all [actLabels, Call.label?, List.filterMap_append]

/-- C17 fails as stated for base rounds: in these two runs the first (and only)
evaluation pass reads win 0 and the screen holds three scatters, so the round records
the screen action and then a "trigger" action. -/
theorem zero_win_actions_counterexample :
    game0001.baseFirstWin (scripted [1, 1, 1, 0, 0]) (demoCascade 5 1) ⟨2⟩
      ⟨⟨[0], 0, 0⟩, []⟩ = 0 ∧
    actLabels (game0001.getBaseResult (scripted [1, 1, 1, 0, 0]) 1 (demoCascade 5 1) ⟨2⟩
      ⟨⟨[0], 0, 0⟩, []⟩).2.2.calls = ["gen_screen", "trigger"] ∧
    game0000.roundWin (scripted [1, 1, 1, 0, 0]) 0 2 ⟨⟨[0], 0, 0⟩, []⟩ = 0 ∧
    actLabels (game0000.getBaseResult (scripted [1, 1, 1, 0, 0]) 1 (demoNormal 1) 2
      ⟨⟨[0], 0, 0⟩, []⟩).2.2.calls = ["screen", "trigger"] := by
  refine ⟨?_, ?_, ?_, ?_⟩ <;> decide

/-- C17 (amended): a round whose first evaluation pass reads win 0 records no win
action (and no clear, gravity or fillscreen action).  The actions of a free round of
either logic are then exactly the one screen action; the actions of a base round are
the screen action, followed by the "trigger" action exactly when the trigger
evaluation on the generated screen returns 1. -/
theorem zero_win_actions (scatter : SymbolType) (g0 : game0000) (g1 : game0001)
    (r : SpinRequest) (w : σ) :
    (game0000.roundWin E 0 r.BetMult ⟨w, []⟩ = 0 →
      actLabels (game0000.getBaseResult E scatter g0 r.BetMult ⟨w, []⟩).2.2.calls =
        "screen" :: (if (game0000.trigger scatter g0 (E.GenScreen 0 w).1).1 = some 1
          then ["trigger"] else [])) ∧
    (game0000.roundWin E 1 r.BetMult ⟨w, []⟩ = 0 →
      actLabels (game0000.freeRound E r.BetMult ⟨w, []⟩).calls = ["screen"]) ∧
    (0 < g1.fixed.MaxStep → game0001.baseFirstWin E g1 r ⟨w, []⟩ = 0 →
      actLabels (game0001.getBaseResult E scatter g1 r ⟨w, []⟩).2.2.calls =
        "gen_screen" :: (if (game0001.trigger scatter g1 (E.GenScreen 0 w).1).1 = some 1
          then ["trigger"] else [])) ∧
    (0 < g1.fixed.MaxStep → game0001.freeFirstWin E r.BetMult g1.fixed ⟨w, []⟩ = 0 →
      actLabels (game0001.freeRound E r.BetMult g1.fixed ⟨w, []⟩).2.calls = ["gen_screen"]) := by
  refine ⟨?_, ?_, ?_, ?_⟩
  · intro hz
    rw [game0000.getBaseResult_labels_normal]
    have hh : actLabels (game0000.roundHead E 0 r.BetMult ⟨w, []⟩) = ["screen"] := by
      unfold game0000.roundHead
      rw [hz]
      simp [actLabels, Call.label?]
    rw [hh]
    rfl
  · intro hz
    rw [game0000.freeRound_calls_normal]
    have hh : actLabels (game0000.roundHead E 1 r.BetMult ⟨w, []⟩) = ["screen"] := by
      unfold game0000.roundHead
      rw [hz]
      simp [actLabels, Call.label?]
    rw [actLabels_append, actLabels_append, hh]
    rfl
  · intro hm hz
    obtain ⟨k, hk⟩ : ∃ k, g1.fixed.MaxStep.toNat = k + 1 :=
      ⟨g1.fixed.MaxStep.toNat - 1, by omega⟩
    have hs := (game0001.getBaseResult_first_zero E scatter g1 r ⟨w, []⟩ hm hz).1
    have hc := game0001.cascade_zero E 0 r.BetMult k (E.GenScreen 0 w).1
      (game0001.basePicks E g1 ⟨w, []⟩).1 (game0001.basePicks E g1 ⟨w, []⟩).2 hz
    obtain ⟨picks, hp1, hp2⟩ := game0001.pickReels_calls E 0 (game0001.resetIdx g1.fixed)
      (((⟨w, []⟩ : Run σ R S).GenScreen E 0).2.AddAct E 0 .FinishAct "gen_screen"
        (some ((⟨w, []⟩ : Run σ R S).GenScreen E 0).1) none)
    have hp : (game0001.basePicks E g1 ⟨w, []⟩).2.calls = _ := hp1
    rw [game0001.getBaseResult_labels, hs]
    show actLabels (game0001.cascade E 0 r.BetMult g1.fixed.MaxStep.toNat (E.GenScreen 0 w).1
      (game0001.basePicks E g1 ⟨w, []⟩).1 (game0001.basePicks E g1 ⟨w, []⟩).2).2.2.calls ++ _ = _
    rw [hk, hc, hp]
    simp only [actLabels_append, (actLabels_of_isPick picks hp2).1]
    simp [actLabels, Call.label?, zeroPass, Run.GenScreen]
  · intro hm hz
    obtain ⟨k, hk⟩ : ∃ k, g1.fixed.MaxStep.toNat = k + 1 :=
      ⟨g1.fixed.MaxStep.toNat - 1, by omega⟩
    have hc := game0001.cascade_zero E 1 r.BetMult k (E.GenScreen 1 w).1
      (game0001.freePicks E g1.fixed ⟨w, []⟩).1 (game0001.freePicks E g1.fixed ⟨w, []⟩).2 hz
    obtain ⟨picks, hp1, hp2⟩ := game0001.pickReels_calls E 1 (game0001.resetIdx g1.fixed)
      (((⟨w, []⟩ : Run σ R S).GenScreen E 1).2.AddAct E 1 .FinishAct "gen_screen"
        (some ((⟨w, []⟩ : Run σ R S).GenScreen E 1).1) none)
    have hp : (game0001.freePicks E g1.fixed ⟨w, []⟩).2.calls = _ := hp1
    rw [game0001.freeRound_eq]
    show actLabels ((game0001.cascade E 1 r.BetMult g1.fixed.MaxStep.toNat (E.GenScreen 1 w).1
      (game0001.freePicks E g1.fixed ⟨w, []⟩).1
      (game0001.freePicks E g1.fixed ⟨w, []⟩).2).2.2.FinishRound E 1).calls = _
    rw [Run.FinishRound_calls, hk, hc]
    show actLabels (((game0001.freePicks E g1.fixed ⟨w, []⟩).2.calls ++ _) ++ _) = _
    rw [hp]
    simp only [actLabels_append, (actLabels_of_isPick picks hp2).1]
    simp [actLabels, Call.label?, zeroPass, Run.GenScreen]

theorem zero_win_actions_witness :
    game0000.roundWin (scripted [1, 0, 1, 0, 0]) 0 (SpinRequest.mk 2).BetMult
      ⟨⟨[0], 0, 0⟩, []⟩ = 0 ∧
    (0 : Int) < (demoCascade 5 1).fixed.MaxStep ∧
    game0001.baseFirstWin (scripted [1, 0, 1, 0, 0]) (demoCascade 5 1) ⟨2⟩
      ⟨⟨[0], 0, 0⟩, []⟩ = 0 ∧
    actLabels (game0000.getBaseResult (scripted [1, 0, 1, 0, 0]) 1 (demoNormal 1)
        (SpinRequest.mk 2).BetMult ⟨⟨[0], 0, 0⟩, []⟩).2.2.calls =
      "screen" :: (if (game0000.trigger 1 (demoNormal 1)
          ((scripted [1, 0, 1, 0, 0]).GenScreen 0 ⟨[0], 0, 0⟩).1).1 = some 1
        then ["trigger"] else []) ∧
    actLabels (game0000.freeRound (scripted [1, 0, 1, 0, 0]) (SpinRequest.mk 2).BetMult
        ⟨⟨[0], 0, 0⟩, []⟩).calls = ["screen"] ∧
    actLabels (game0001.getBaseResult (scripted [1, 0, 1, 0, 0]) 1 (demoCascade 5 1) ⟨2⟩
        ⟨⟨[0], 0, 0⟩, []⟩).2.2.calls =
      "gen_screen" :: (if (game0001.trigger 1 (demoCascade 5 1)
          ((scripted [1, 0, 1, 0, 0]).GenScreen 0 ⟨[0], 0, 0⟩).1).1 = some 1
        then ["trigger"] else []) ∧
    actLabels (game0001.freeRound (scripted [1, 0, 1, 0, 0]) (SpinRequest.mk 2).BetMult
        (demoCascade 5 1).fixed ⟨⟨[0], 0, 0⟩, []⟩).2.calls = ["gen_screen"] := by
  have T := zero_win_actions (scripted [1, 0, 1, 0, 0]) 1 (demoNormal 1) (demoCascade 5 1)
    ⟨2⟩ ⟨[0], 0, 0⟩
  have h0 : game0000.roundWin (scripted [1, 0, 1, 0, 0]) 0 (SpinRequest.mk 2).BetMult
      ⟨⟨[0], 0, 0⟩, []⟩ = 0 := by decide
  have h1 : game0001.baseFirstWin (scripted [1, 0, 1, 0, 0]) (demoCascade 5 1) ⟨2⟩
      ⟨⟨[0], 0, 0⟩, []⟩ = 0 := by decide
  exact ⟨h0, by decide, h1, T.1 h0, T.2.1 (by decide), T.2.2.1 (by decide) h1,
    T.2.2.2 (by decide) (by decide)⟩

/-- C18 fails as stated for "demo_normal": on a screen with three scatters the base
round leaves the extension state triggered with count 3 and hits 0, 1, 2, and the
free mode that follows leaves it cleared. -/
theorem free_mode_ext_counterexample :
    (game0000.baseOf (scripted [1, 1, 1, 0, 0]) 1 (demoNormal 2) ⟨2⟩ ⟨[0], 0, 0⟩).2.1.ext =
      { Triggered := true, ScatterCount := 3, ScatterHitMap := [0, 1, 2], isSim := false } ∧
    (game0000.freeOf (scripted [1, 1, 1, 0, 0]) 1 (demoNormal 2) ⟨2⟩ ⟨[0], 0, 0⟩ 1).2.1.ext =
      { Triggered := false, ScatterCount := 0, ScatterHitMap := [], isSim := false } := by
  refine ⟨?_, ?_⟩ <;> decide

/-- C18 (amended): `getFreeResult` of "demo_cascade" leaves the extension state exactly
as it found it, so after free mode it is as the base round left it; `getFreeResult` of
"demo_normal" resets it (Triggered false, ScatterCount 0, empty hit list, isSim kept),
whatever the base round left.  Both hold for every free round count and every run.
Hence a spin of "demo_cascade" ends with the extension state of its base round, and a
spin of "demo_normal" that runs free mode ends with the cleared one. -/
theorem free_mode_ext (scatter : SymbolType) (g0 : game0000) (g1 : game0001)
    (r : SpinRequest) (run0 run1 : Run σ R S) (w : σ) (base : R) :
    (game0001.getFreeResult E g1 r run1).2.1.ext = g1.ext ∧
    (game0001.freeOf E scatter g1 r w base).2.1.ext =
      (game0001.baseOf E scatter g1 r w).2.1.ext ∧
    (game0000.getFreeResult E g0 r.BetMult run0).2.1.ext =
      { Triggered := false, ScatterCount := 0, ScatterHitMap := [],
        isSim := g0.ext.isSim } ∧
    (game0000.freeOf E scatter g0 r w base).2.1.ext =
      { Triggered := false, ScatterCount := 0, ScatterHitMap := [],
        isSim := (game0000.baseOf E scatter g0 r w).2.1.ext.isSim } ∧
    (game0001.GetResult E scatter g1 r ⟨w, []⟩).2.1.ext =
      (game0001.baseOf E scatter g1 r w).2.1.ext ∧
    ((game0000.baseOf E scatter g0 r w).1 = some base →
      E.Trigger base (game0000.appended E scatter g0 r w base).world ≠ 0 →
      (game0000.GetResult E scatter g0 r ⟨w, []⟩).2.1.ext =
        { Triggered := false, ScatterCount := 0, ScatterHitMap := [],
          isSim := (game0000.baseOf E scatter g0 r w).2.1.ext.isSim }) := by
  refine ⟨rfl, rfl, rfl, rfl, ?_, ?_⟩
  · unfold game0001.GetResult game0001.baseOf
    simp only []
    rcases game0001.getBaseResult E scatter g1 r
      ((⟨w, []⟩ : Run σ R S).StartNewSpin E r).2 with ⟨_ | b, g, run⟩
    · rfl
    · simp only []
      split_ifs <;> rfl
  · intro hb ht
    unfold game0000.appended at ht
    unfold game0000.GetResult
    unfold game0000.baseOf at hb ht ⊢
    simp only []
    rcases hx : game0000.getBaseResult E scatter g0 r.BetMult
      ((⟨w, []⟩ : Run σ R S).StartNewSpin E r).2 with ⟨_ | b, g, run⟩
    · rw [hx] at hb
      cases hb
    · rw [hx] at hb ht
      cases hb
      simp only []
      split_ifs with hq
      · rfl
      · exact absurd ht hq

theorem free_mode_ext_witness :
    (game0000.baseOf (scripted [1, 1, 1, 0, 0]) 1 (demoNormal 2) ⟨2⟩ ⟨[0], 0, 0⟩).1 = some 1 ∧
    (scripted [1, 1, 1, 0, 0]).Trigger 1
      (game0000.appended (scripted [1, 1, 1, 0, 0]) 1 (demoNormal 2) ⟨2⟩ ⟨[0], 0, 0⟩ 1).world
        ≠ 0 ∧
    (game0000.GetResult (scripted [1, 1, 1, 0, 0]) 1 (demoNormal 2) ⟨2⟩
        ⟨⟨[0], 0, 0⟩, []⟩).2.1.ext =
      { Triggered := false, ScatterCount := 0, ScatterHitMap := [], isSim := false } ∧
    (game0001.GetResult (scripted [1, 1, 1, 0, 0]) 1 (demoCascade 3 2) ⟨2⟩
        ⟨⟨[0], 0, 0⟩, []⟩).2.1.ext =
      { Triggered := true, ScatterCount := 3, ScatterHitMap := [0, 1, 2], isSim := false } := by
  have T := free_mode_ext (scripted [1, 1, 1, 0, 0]) 1 (demoNormal 2) (demoCascade 3 2) ⟨2⟩
    ⟨⟨[0], 0, 0⟩, []⟩ ⟨⟨[0], 0, 0⟩, []⟩ ⟨[0], 0, 0⟩ 1
  have hb : (game0000.baseOf (scripted [1, 1, 1, 0, 0]) 1 (demoNormal 2) ⟨2⟩
      ⟨[0], 0, 0⟩).1 = some 1 := by decide
  have ht : (scripted [1, 1, 1, 0, 0]).Trigger 1
      (game0000.appended (scripted [1, 1, 1, 0, 0]) 1 (demoNormal 2) ⟨2⟩
        ⟨[0], 0, 0⟩ 1).world ≠ 0 := by decide
  exact ⟨hb, ht, (T.2.2.2.2.2 hb ht).trans (by decide), T.2.2.2.2.1.trans (by decide)⟩

/-- Two fixed configurations with equal fields are equal. -/
theorem fixed0001.eq_of_fields (a b : fixed0001) (h1 : a.MaxStep = b.MaxStep)
    (h2 : a.FreeRounds = b.FreeRounds) (h3 : a.Trigger = b.Trigger)
    (h4 : a.ScatterPay = b.ScatterPay) (h5 : a.fillReelsIdx = b.fillReelsIdx)
    (h6 : a.screenFillPos = b.screenFillPos) (h7 : a.symbolTypes = b.symbolTypes) :
    a = b := by
  cases a
  cases b
  simp only at h1 h2 h3 h4 h5 h6 h7
  subst h1 h2 h3 h4 h5 h6 h7
  rfl

/-- What `resetIdx` returns depends on the configured fields and on the lengths of
the scratch buffers only. -/
theorem game0001.resetIdx_congr (a b : fixed0001) (h1 : a.MaxStep = b.MaxStep)
    (h2 : a.FreeRounds = b.FreeRounds) (h3 : a.Trigger = b.Trigger)
    (h4 : a.ScatterPay = b.ScatterPay) (h7 : a.symbolTypes = b.symbolTypes)
    (hi : a.fillReelsIdx.length = b.fillReelsIdx.length)
    (hp : a.screenFillPos.length = b.screenFillPos.length) :
    game0001.resetIdx a = game0001.resetIdx b := by
  apply fixed0001.eq_of_fields
  · exact h1
  · exact h2
  · exact h3
  · exact h4
  · rw [(game0001.resetIdx_zero a).2, (game0001.resetIdx_zero b).2, hi]
  · rw [(game0001.resetIdx_zero a).1, (game0001.resetIdx_zero b).1, hp]
  · exact h7

/-- The base round of "demo_cascade" does not depend on what the extension state and
the scratch buffers held before. -/
theorem game0001.getBaseResult_congr (scatter : SymbolType) (a b : game0001) (r : SpinRequest)
    (run : Run σ R S) (h1 : a.fixed.MaxStep = b.fixed.MaxStep)
    (h2 : a.fixed.FreeRounds = b.fixed.FreeRounds) (h3 : a.fixed.Trigger = b.fixed.Trigger)
    (h4 : a.fixed.ScatterPay = b.fixed.ScatterPay)
    (h7 : a.fixed.symbolTypes = b.fixed.symbolTypes)
    (hi : a.fixed.fillReelsIdx.length = b.fixed.fillReelsIdx.length)
    (hp : a.fixed.screenFillPos.length = b.fixed.screenFillPos.length)
    (hs : a.ext.isSim = b.ext.isSim) :
    game0001.getBaseResult E scatter a r run = game0001.getBaseResult E scatter b r run := by
  unfold game0001.getBaseResult
  simp only []
  rw [game0001.resetIdx_congr a.fixed b.fixed h1 h2 h3 h4 h7 hi hp, h1]
  have key : ∀ (f : fixed0001) (s : Screen),
      game0001.trigger scatter ⟨f, a.ext⟩ s = game0001.trigger scatter ⟨f, b.ext⟩ s :=
    fun f s => game0001.trigger_congr_cascade scatter ⟨f, a.ext⟩ ⟨f, b.ext⟩ s rfl hs
  rw [key]

/-- The base round of "demo_normal" does not depend on what the extension state held
before. -/
theorem game0000.getBaseResult_congr_normal (scatter : SymbolType) (a b : game0000) (m : Int)
    (run : Run σ R S) (hf : a.fixed = b.fixed) (hs : a.ext.isSim = b.ext.isSim) :
    game0000.getBaseResult E scatter a m run = game0000.getBaseResult E scatter b m run := by
  unfold game0000.getBaseResult
  simp only []
  rw [game0000.trigger_congr_normal scatter (game0000.mk a.fixed a.ext.Reset)
    (game0000.mk b.fixed b.ext.Reset) _ hf hs]

/-- C19: `GetResult` is a function of the configured fields, the lengths of the
scratch buffers, the simulation flag, the request and the responses of the external
services.  For two "demo_normal" units with the same fixed configuration and the same
isSim, and for two "demo_cascade" units with the same configured fields, the same
buffer lengths and the same isSim, whatever their extension state and buffers held
before, `GetResult` on the same request and the same SDK returns the same result, the
same log of external calls with the same arguments, and the same final unit
(extension state and scratch buffers). -/
theorem getResult_deterministic (scatter : SymbolType) (g0 g0b : game0000)
    (g1 g1b : game0001) (r : SpinRequest) (run : Run σ R S) :
    (g0.fixed = g0b.fixed → g0.ext.isSim = g0b.ext.isSim →
      game0000.GetResult E scatter g0 r run = game0000.GetResult E scatter g0b r run) ∧
    (g1.fixed.MaxStep = g1b.fixed.MaxStep → g1.fixed.FreeRounds = g1b.fixed.FreeRounds →
      g1.fixed.Trigger = g1b.fixed.Trigger → g1.fixed.ScatterPay = g1b.fixed.ScatterPay →
      g1.fixed.symbolTypes = g1b.fixed.symbolTypes →
      g1.fixed.fillReelsIdx.length = g1b.fixed.fillReelsIdx.length →
      g1.fixed.screenFillPos.length = g1b.fixed.screenFillPos.length →
      g1.ext.isSim = g1b.ext.isSim →
      game0001.GetResult E scatter g1 r run = game0001.GetResult E scatter g1b r run) := by
  constructor
  · intro hf hs
    unfold game0000.GetResult
    simp only []
    rw [game0000.getBaseResult_congr_normal E scatter g0 g0b r.BetMult _ hf hs]
  · intro h1 h2 h3 h4 h7 hi hp hs
    unfold game0001.GetResult
    simp only []
    rw [game0001.getBaseResult_congr E scatter g1 g1b r _ h1 h2 h3 h4 h7 hi hp hs]

theorem getResult_deterministic_witness :
    game0000.GetResult (scripted [1, 1, 1, 0, 0]) 1 (demoNormal 2) ⟨2⟩ ⟨⟨[5, 0], 0, 0⟩, []⟩ =
      game0000.GetResult (scripted [1, 1, 1, 0, 0]) 1
        (game0000.mk (demoNormal 2).fixed ⟨true, 9, [4, 4], false⟩) ⟨2⟩
        ⟨⟨[5, 0], 0, 0⟩, []⟩ ∧
    game0001.GetResult (scripted [1, 1, 1, 0, 0]) 1 (demoCascade 3 2) ⟨2⟩
        ⟨⟨[5, 0], 0, 0⟩, []⟩ =
      game0001.GetResult (scripted [1, 1, 1, 0, 0]) 1
        (game0001.mk ⟨3, 2, 3, 10, [7, 8, 9], [1, 2, 3], [0, 1, 0], rfl⟩
          ⟨true, 9, [4, 4], false⟩) ⟨2⟩ ⟨⟨[5, 0], 0, 0⟩, []⟩ :=
  ⟨(getResult_deterministic (scripted [1, 1, 1, 0, 0]) 1 (demoNormal 2)
      (game0000.mk (demoNormal 2).fixed ⟨true, 9, [4, 4], false⟩) (demoCascade 3 2)
      (game0001.mk ⟨3, 2, 3, 10, [7, 8, 9], [1, 2, 3], [0, 1, 0], rfl⟩
        ⟨true, 9, [4, 4], false⟩) ⟨2⟩ ⟨⟨[5, 0], 0, 0⟩, []⟩).1 rfl rfl,
   (getResult_deterministic (scripted [1, 1, 1, 0, 0]) 1 (demoNormal 2)
      (game0000.mk (demoNormal 2).fixed ⟨true, 9, [4, 4], false⟩) (demoCascade 3 2)
      (game0001.mk ⟨3, 2, 3, 10, [7, 8, 9], [1, 2, 3], [0, 1, 0], rfl⟩
        ⟨true, 9, [4, 4], false⟩) ⟨2⟩ ⟨⟨[5, 0], 0, 0⟩, []⟩).2 rfl rfl rfl rfl rfl rfl rfl rfl⟩

end Claims2

/-- C20: construction fails exactly when decoding fails.  Both constructors return the
decoding error (and no unit) when `DecodeFixed` returns an error, and return an error
only then, with that error.  When decoding succeeds on a game handle that has a mode
setting at index 0 with a non-negative screen size (and, for "demo_cascade", a
non-negative number of columns), they return a unit and no error: its extension state
is the initial one (Triggered false, ScatterCount 0, empty hit list, isSim the
requested flag), its configured fields are the decoded ones, its symbol table is the
one of mode 0, and the scratch buffers of "demo_cascade" hold `Columns` zeros. -/
theorem build_fails_iff_decode_fails {Y ε : Type}
    (d0 : GameSetting Y → Except ε fixed0000) (d1 : GameSetting Y → Except ε fixed0001)
    (gh : Game Y) :
    (∀ err, buildGame0000 d0 gh = some (.error err) ↔ d0 gh.GameSetting = .error err) ∧
    (∀ err, buildGame0001 d1 gh = some (.error err) ↔ d1 gh.GameSetting = .error err) ∧
    (∀ fix m, d0 gh.GameSetting = .ok fix → gh.GameSetting.GameModeSettings[0]? = some m →
      0 ≤ m.ScreenSetting.ScreenSize →
      buildGame0000 d0 gh = some (.ok
        { fixed := { FreeRound := fix.FreeRound, DemoB := fix.DemoB, DemoC := fix.DemoC,
                     symboltypes := m.SymbolSetting.SymbolTypes },
          ext := { Triggered := false, ScatterCount := 0, ScatterHitMap := [],
                   isSim := gh.IsSim } })) ∧
    (∀ fix m, d1 gh.GameSetting = .ok fix → gh.GameSetting.GameModeSettings[0]? = some m →
      0 ≤ m.ScreenSetting.ScreenSize → 0 ≤ m.ScreenSetting.Columns →
      ∃ g, buildGame0001 d1 gh = some (.ok g) ∧
        g.ext = { Triggered := false, ScatterCount := 0, ScatterHitMap := [],
                  isSim := gh.IsSim } ∧
        g.fixed.MaxStep = fix.MaxStep ∧ g.fixed.FreeRounds = fix.FreeRounds ∧
        g.fixed.Trigger = fix.Trigger ∧ g.fixed.ScatterPay = fix.ScatterPay ∧
        g.fixed.symbolTypes = m.SymbolSetting.SymbolTypes ∧
        g.fixed.fillReelsIdx = List.replicate m.ScreenSetting.Columns.toNat 0 ∧
        g.fixed.screenFillPos = List.replicate m.ScreenSetting.Columns.toNat 0) := by
  refine ⟨?_, ?_, ?_, ?_⟩
  · intro err
    unfold buildGame0000
    cases hd : d0 gh.GameSetting with
    | error e => simp
    | ok fix =>
      cases hm : gh.GameSetting.GameModeSettings[0]? with
      | none => simp
      | some m =>
        cases hn : game0000.newext m.ScreenSetting.ScreenSize gh.IsSim <;> simp [hn]
  · intro err
    unfold buildGame0001
    cases hd : d1 gh.GameSetting with
    | error e => simp
    | ok fix =>
      cases hm : gh.GameSetting.GameModeSettings[0]? with
      | none => simp
      | some m =>
        simp only []
        split
        · cases hn : game0001.newext m.ScreenSetting.ScreenSize gh.IsSim <;> simp
        · simp
  · intro fix m hd hm hs
    unfold buildGame0000
    simp [hd, hm, game0000.newext, not_lt.mpr hs]
  · intro fix m hd hm hs hc
    have hmk : makeInts m.ScreenSetting.Columns =
        some (List.replicate m.ScreenSetting.Columns.toNat 0) := by
      simp [makeInts, not_lt.mpr hc]
    unfold buildGame0001
    simp only [hd, hm]
    split
    · rename_i idx pos h1 h2
      have e1 : idx = List.replicate m.ScreenSetting.Columns.toNat 0 :=
        Option.some.inj (h1.symm.trans hmk)
      have e2 : pos = List.replicate m.ScreenSetting.Columns.toNat 0 :=
        Option.some.inj (h2.symm.trans hmk)
      subst e1 e2
      simp [game0001.newext, not_lt.mpr hs]
    · rename_i hx
      exact absurd hmk (fun h => hx _ _ h h)

theorem build_fails_iff_decode_fails_witness :
    buildGame0000 demoDecode0 (demoGame "" true) = some (.error "no fixed section") ∧
    buildGame0001 demoDecode1 (demoGame "" true) = some (.error "no fixed section") ∧
    buildGame0000 demoDecode0 (demoGame "x" true) = some (.ok
      { fixed := { FreeRound := 2, DemoB := [], DemoC := "x", symboltypes := [0, 1, 0] },
        ext := { Triggered := false, ScatterCount := 0, ScatterHitMap := [],
                 isSim := true } }) ∧
    (∃ g, buildGame0001 demoDecode1 (demoGame "x" true) = some (.ok g) ∧
      g.ext = { Triggered := false, ScatterCount := 0, ScatterHitMap := [],
                isSim := true } ∧
      g.fixed.fillReelsIdx = [0, 0, 0, 0, 0] ∧ g.fixed.screenFillPos = [0, 0, 0, 0, 0]) := by
  have T0 := build_fails_iff_decode_fails demoDecode0 demoDecode1 (demoGame "" true)
  have T1 := build_fails_iff_decode_fails demoDecode0 demoDecode1 (demoGame "x" true)
  refine ⟨(T0.1 _).2 rfl, (T0.2.1 _).2 rfl, ?_, ?_⟩
  · exact T1.2.2.1 ⟨2, [], "x", []⟩ ⟨⟨5, 15⟩, ⟨[0, 1, 0]⟩⟩ rfl rfl (by decide)
  · obtain ⟨g, hg, he, _, _, _, _, _, hi, hp⟩ :=
      T1.2.2.2 ⟨5, 2, 3, 10, [], [], [], rfl⟩ ⟨⟨5, 15⟩, ⟨[0, 1, 0]⟩⟩ rfl rfl
        (by decide) (by decide)
    exact ⟨g, hg, he, hi, hp⟩

/-! ## Flag handling of the two commands -/

/-- C21: `normSvrMode` returns the development run mode exactly when the value of
the `-mode` flag is the string "dev"; for every other string it returns the production
run mode, in particular for "prod", the empty string, "Dev", "DEV" and unknown values. -/
theorem normSvrMode_dev_iff (cfg : CmdSvr.config) :
    (cfg.normSvrMode = CmdSvr.RunMode.ModeDev ↔ cfg.Mode = "dev") ∧
    (cfg.normSvrMode = CmdSvr.RunMode.ModeProd ↔ cfg.Mode ≠ "dev") ∧
    (CmdSvr.config.mk cfg.Log "dev" cfg.SlotBufSize).normSvrMode = CmdSvr.RunMode.ModeDev ∧
    (CmdSvr.config.mk cfg.Log "prod" cfg.SlotBufSize).normSvrMode = CmdSvr.RunMode.ModeProd ∧
    (CmdSvr.config.mk cfg.Log "" cfg.SlotBufSize).normSvrMode = CmdSvr.RunMode.ModeProd ∧
    (CmdSvr.config.mk cfg.Log "Dev" cfg.SlotBufSize).normSvrMode = CmdSvr.RunMode.ModeProd ∧
    (CmdSvr.config.mk cfg.Log "DEV" cfg.SlotBufSize).normSvrMode = CmdSvr.RunMode.ModeProd ∧
    (CmdSvr.config.mk cfg.Log "dev " cfg.SlotBufSize).normSvrMode = CmdSvr.RunMode.ModeProd ∧
    (CmdSvr.config.mk cfg.Log "debug" cfg.SlotBufSize).normSvrMode =
      CmdSvr.RunMode.ModeProd := by
  have key : ∀ c : CmdSvr.config,
      c.normSvrMode = if c.Mode = "dev" then CmdSvr.RunMode.ModeDev
        else CmdSvr.RunMode.ModeProd := by
    intro c
    unfold CmdSvr.config.normSvrMode
    split
    · next h => rw [if_pos h]
    · next h => rw [if_neg (by rw [h]; decide)]
    · next h _ => rw [if_neg h]
  refine ⟨?_, ?_, ?_, ?_, ?_, ?_, ?_, ?_, ?_⟩
  · rw [key]
    by_cases h : cfg.Mode = "dev" <;> simp [h]
  · rw [key]
    by_cases h : cfg.Mode = "dev" <;> simp [h]
  all_goals (rw [key]; simp)

/-- C22: `valid` ends the process exactly when worker < 1, player < 1, spins < 1, or
player > 1 with bets < 1, and returns otherwise.  When it returns, the configuration
has worker >= 1, 1 <= player <= 100000, spins >= 1 and, if player > 1, bets >= 1 and
spins <= 15000; player is the old value capped to 100000, spins is the old value,
capped to 15000 when player > 1, and every other field is as before. -/
theorem valid_contract (cfg : CmdRun.config) :
    ((∃ msg, cfg.valid.2 = .error msg) ↔
      (cfg.worker < 1 ∨ cfg.player < 1 ∨ cfg.spins < 1 ∨ (cfg.player > 1 ∧ cfg.bets < 1))) ∧
    ((∃ c, cfg.valid.2 = .ok c) ↔
      ¬ (cfg.worker < 1 ∨ cfg.player < 1 ∨ cfg.spins < 1 ∨ (cfg.player > 1 ∧ cfg.bets < 1))) ∧
    (∀ c, cfg.valid.2 = .ok c →
      (c.worker ≥ 1 ∧ 1 ≤ c.player ∧ c.player ≤ 100000 ∧ c.spins ≥ 1 ∧
        (c.player > 1 → c.bets ≥ 1 ∧ c.spins ≤ 15000)) ∧
      c.player = min cfg.player 100000 ∧
      c.spins = (if cfg.player > 1 then min cfg.spins 15000 else cfg.spins) ∧
      c.name = cfg.name ∧ c.id = cfg.id ∧ c.worker = cfg.worker ∧ c.bets = cfg.bets ∧
      c.betMode = cfg.betMode ∧ c.seed = cfg.seed ∧ c.pprofmode = cfg.pprofmode) := by
  obtain ⟨name, id, worker, player, bets, spins, betMode, seed, pprofmode⟩ := cfg
  unfold CmdRun.config.valid
  simp only []
  by_cases h1 : worker < 1
  · simp [h1]
  by_cases h2 : player < 1
  · simp [h1, h2]
  by_cases hp : player > 1 <;> by_cases h3 : player > 100000 <;> by_cases h4 : bets < 1 <;>
    by_cases h5 : spins < 1 <;> by_cases h6 : spins > 15000 <;>
    simp [h1, h2, hp, h3, h4, h5, h6] <;> omega

theorem valid_contract_witness :
    (CmdRun.config.mk "" 0 4 250000 200 10000000 0 7 "").valid.2 =
      .ok (CmdRun.config.mk "" 0 4 100000 200 15000 0 7 "") ∧
    ((4 : Int) ≥ 1 ∧ (1 : Int) ≤ 100000 ∧ (100000 : Int) ≤ 100000 ∧ (15000 : Int) ≥ 1 ∧
      ((100000 : Int) > 1 → (200 : Int) ≥ 1 ∧ (15000 : Int) ≤ 15000)) :=
  ⟨rfl, ((valid_contract (CmdRun.config.mk "" 0 4 250000 200 10000000 0 7 "")).2.2
    (CmdRun.config.mk "" 0 4 100000 200 15000 0 7 "") rfl).1⟩

/-! ## Safety of the trigger evaluator -/

/-- The scan stops at the first cell whose symbol id is outside the table, with the
counters of the cells before it. -/
theorem scanLoop_abort (scatter : SymbolType) (symtype : List SymbolType) (pre : List Int)
    (x : Int) (post : List Int) (h : ScreenInTable symtype pre)
    (hx : ¬ (0 ≤ x ∧ x.toNat < symtype.length)) (i : Nat) (cnt : Int) (hits : List Int) :
    scanLoop scatter symtype (pre ++ x :: post) i (cnt, hits) =
      (false, (cnt + ((scatterPositions scatter symtype pre).length : Int),
               hits ++ (scatterPositions scatter symtype pre).map
                 (fun j => ((i + j : Nat) : Int)))) := by
  induction pre generalizing i cnt hits with
  | nil =>
    rw [List.nil_append]
    unfold scanLoop
    by_cases hneg : x < 0
    · simp [hneg, scatterPositions]
    · have hge : symtype.length ≤ x.toNat := by
        by_contra hc
        exact hx ⟨not_lt.mp hneg, not_le.mp hc⟩
      simp [hneg, List.getElem?_eq_none hge, scatterPositions]
  | cons y ys ih =>
    have hy := h y (List.mem_cons_self y ys)
    have hys : ScreenInTable symtype ys := fun z hz => h z (List.mem_cons_of_mem y hz)
    have hneg : ¬ y < 0 := not_lt.mpr hy.1
    have hlt : y.toNat < symtype.length := hy.2
    have hget : symtype[y.toNat]? = some symtype[y.toNat] := List.getElem?_eq_getElem hlt
    rw [scatterPositions_cons, List.cons_append]
    unfold scanLoop
    simp only [hneg, if_false, hget]
    by_cases ht : symtype[y.toNat] = scatter
    · have hs : isScatter scatter symtype y = true := by
        simp [isScatter, hy.1, hget, ht]
      simp only [ht, if_true, hs]
      rw [ih hys]
      simp [Function.comp_def, Nat.succ_eq_add_one]
      constructor
      · ring
      · intro a _; omega
    · have hs : isScatter scatter symtype y = false := by
        simp [isScatter, hget, ht]
      simp only [ht, if_false, hs]
      rw [ih hys]
      simp [Function.comp_def, Nat.succ_eq_add_one]
      intro a _; omega

/-- A screen outside the table has a first cell outside the table. -/
theorem ScreenInTable.first_outside (symtype : List SymbolType) (screen : Screen)
    (h : ¬ ScreenInTable symtype screen) :
    ∃ pre x post, screen = pre ++ x :: post ∧ ScreenInTable symtype pre ∧
      ¬ (0 ≤ x ∧ x.toNat < symtype.length) := by
  induction screen with
  | nil => exact absurd (fun x hx => absurd hx (List.not_mem_nil x)) h
  | cons y ys ih =>
    by_cases hy : 0 ≤ y ∧ y.toNat < symtype.length
    · have hys : ¬ ScreenInTable symtype ys := by
        intro hc
        apply h
        intro z hz
        rcases List.mem_cons.mp hz with rfl | hz
        · exact hy
        · exact hc z hz
      obtain ⟨pre, x, post, e, hp, hx⟩ := ih hys
      refine ⟨y :: pre, x, post, by rw [e, List.cons_append], ?_, hx⟩
      intro z hz
      rcases List.mem_cons.mp hz with rfl | hz
      · exact hy
      · exact hp z hz
    · exact ⟨[], y, ys, rfl, fun z hz => absurd hz (List.not_mem_nil z), hy⟩

/-- The positions of `scatterPositions` are cells of the screen, and there are at most
as many as cells. -/
theorem scatterPositions_bound (scatter : SymbolType) (symtype : List SymbolType)
    (screen : Screen) :
    (∀ p ∈ (scatterPositions scatter symtype screen).map Int.ofNat,
      0 ≤ p ∧ p < (screen.length : Int)) ∧
    (scatterPositions scatter symtype screen).length ≤ screen.length := by
  constructor
  · intro p hp
    obtain ⟨j, hj, rfl⟩ := List.mem_map.mp hp
    unfold scatterPositions at hj
    have hj2 : j < screen.length := List.mem_range.mp (List.mem_filter.mp hj).1
    exact ⟨Int.ofNat_nonneg j, Int.ofNat_lt.mpr hj2⟩
  · unfold scatterPositions
    calc ((List.range screen.length).filter _).length
        ≤ (List.range screen.length).length := List.length_filter_le _ _
      _ = screen.length := List.length_range _

theorem game0000.trigger_abort_normal (scatter : SymbolType) (g : game0000)
    (pre : List Int) (x : Int) (post : List Int)
    (h : ScreenInTable g.fixed.symboltypes pre)
    (hx : ¬ (0 ≤ x ∧ x.toNat < g.fixed.symboltypes.length)) :
    game0000.trigger scatter g (pre ++ x :: post) =
      (none, { g with ext :=
        { Triggered := false,
          ScatterCount := ((scatterPositions scatter g.fixed.symboltypes pre).length : Int),
          ScatterHitMap := (scatterPositions scatter g.fixed.symboltypes pre).map Int.ofNat,
          isSim := g.ext.isSim } }) := by
  unfold game0000.trigger
  simp only [ext0000.Reset, scanLoop_abort scatter _ pre x post h hx]
  simp

theorem game0001.trigger_abort_cascade (scatter : SymbolType) (g : game0001)
    (pre : List Int) (x : Int) (post : List Int)
    (h : ScreenInTable g.fixed.symbolTypes pre)
    (hx : ¬ (0 ≤ x ∧ x.toNat < g.fixed.symbolTypes.length)) :
    game0001.trigger scatter g (pre ++ x :: post) =
      (none, { g with ext :=
        { Triggered := false,
          ScatterCount := ((scatterPositions scatter g.fixed.symbolTypes pre).length : Int),
          ScatterHitMap := (scatterPositions scatter g.fixed.symbolTypes pre).map Int.ofNat,
          isSim := g.ext.isSim } }) := by
  unfold game0001.trigger
  simp only [ext0001.Reset, scanLoop_abort scatter _ pre x post h hx]
  simp

/-- C23: for every screen whose symbol ids all index into the classification table,
`trigger` of either logic returns a code (no index is out of range), every recorded hit
position is a cell index `0 <= p < len(screen)`, and `0 <= ScatterCount <= len(screen)`.
Conversely, if some symbol id lies outside the table, `trigger` returns no code: it
stops at the first such cell, with the hits and the count of the cells before it and
with Triggered false. -/
theorem trigger_safe (scatter : SymbolType) (screen : Screen) (g0 : game0000)
    (g1 : game0001) :
    ((ScreenInTable g0.fixed.symboltypes screen →
       (∃ t, (game0000.trigger scatter g0 screen).1 = some t) ∧
       (∀ p ∈ (game0000.trigger scatter g0 screen).2.ext.ScatterHitMap,
          0 ≤ p ∧ p < (screen.length : Int)) ∧
       0 ≤ (game0000.trigger scatter g0 screen).2.ext.ScatterCount ∧
       (game0000.trigger scatter g0 screen).2.ext.ScatterCount ≤ (screen.length : Int)) ∧
     (¬ ScreenInTable g0.fixed.symboltypes screen →
       (game0000.trigger scatter g0 screen).1 = none) ∧
     (∀ pre x post, screen = pre ++ x :: post → ScreenInTable g0.fixed.symboltypes pre →
       ¬ (0 ≤ x ∧ x.toNat < g0.fixed.symboltypes.length) →
       game0000.trigger scatter g0 screen =
         (none, { g0 with ext :=
           { Triggered := false,
             ScatterCount := ((scatterPositions scatter g0.fixed.symboltypes pre).length : Int),
             ScatterHitMap := (scatterPositions scatter g0.fixed.symboltypes pre).map Int.ofNat,
             isSim := g0.ext.isSim } }))) ∧
    ((ScreenInTable g1.fixed.symbolTypes screen →
       (∃ t, (game0001.trigger scatter g1 screen).1 = some t) ∧
       (∀ p ∈ (game0001.trigger scatter g1 screen).2.ext.ScatterHitMap,
          0 ≤ p ∧ p < (screen.length : Int)) ∧
       0 ≤ (game0001.trigger scatter g1 screen).2.ext.ScatterCount ∧
       (game0001.trigger scatter g1 screen).2.ext.ScatterCount ≤ (screen.length : Int)) ∧
     (¬ ScreenInTable g1.fixed.symbolTypes screen →
       (game0001.trigger scatter g1 screen).1 = none) ∧
     (∀ pre x post, screen = pre ++ x :: post → ScreenInTable g1.fixed.symbolTypes pre →
       ¬ (0 ≤ x ∧ x.toNat < g1.fixed.symbolTypes.length) →
       game0001.trigger scatter g1 screen =
         (none, { g1 with ext :=
           { Triggered := false,
             ScatterCount := ((scatterPositions scatter g1.fixed.symbolTypes pre).length : Int),
             ScatterHitMap := (scatterPositions scatter g1.fixed.symbolTypes pre).map Int.ofNat,
             isSim := g1.ext.isSim } }))) := by
  refine ⟨⟨?_, ?_, ?_⟩, ⟨?_, ?_, ?_⟩⟩
  · intro h
    have hb := scatterPositions_bound scatter g0.fixed.symboltypes screen
    rw [game0000.trigger_ok_normal scatter g0 screen h]
    exact ⟨⟨_, rfl⟩, hb.1, Int.ofNat_nonneg _, Int.ofNat_le.mpr hb.2⟩
  · intro h
    obtain ⟨pre, x, post, e, hp, hx⟩ := ScreenInTable.first_outside _ screen h
    rw [e, game0000.trigger_abort_normal scatter g0 pre x post hp hx]
  · intro pre x post e hp hx
    rw [e, game0000.trigger_abort_normal scatter g0 pre x post hp hx]
  · intro h
    have hb := scatterPositions_bound scatter g1.fixed.symbolTypes screen
    rw [game0001.trigger_ok_cascade scatter g1 screen h]
    exact ⟨⟨_, rfl⟩, hb.1, Int.ofNat_nonneg _, Int.ofNat_le.mpr hb.2⟩
  · intro h
    obtain ⟨pre, x, post, e, hp, hx⟩ := ScreenInTable.first_outside _ screen h
    rw [e, game0001.trigger_abort_cascade scatter g1 pre x post hp hx]
  · intro pre x post e hp hx
    rw [e, game0001.trigger_abort_cascade scatter g1 pre x post hp hx]

theorem trigger_safe_witness :
    ScreenInTable (demoNormal 1).fixed.symboltypes [1, 1, 1, 0, 0] ∧
    ((∃ t, (game0000.trigger 1 (demoNormal 1) [1, 1, 1, 0, 0]).1 = some t) ∧
      (∀ p ∈ (game0000.trigger 1 (demoNormal 1) [1, 1, 1, 0, 0]).2.ext.ScatterHitMap,
        0 ≤ p ∧ p < (([1, 1, 1, 0, 0] : Screen).length : Int)) ∧
      0 ≤ (game0000.trigger 1 (demoNormal 1) [1, 1, 1, 0, 0]).2.ext.ScatterCount ∧
      (game0000.trigger 1 (demoNormal 1) [1, 1, 1, 0, 0]).2.ext.ScatterCount ≤
        (([1, 1, 1, 0, 0] : Screen).length : Int)) ∧
    ¬ ScreenInTable (demoCascade 5 1).fixed.symbolTypes [1, 7, 1] ∧
    (game0001.trigger 1 (demoCascade 5 1) [1, 7, 1]).1 = none ∧
    game0000.trigger 1 (demoNormal 1) [1, -1, 1] =
      (none, { demoNormal 1 with ext :=
        { Triggered := false, ScatterCount := 1, ScatterHitMap := [0], isSim := false } }) := by
  have h1 : ScreenInTable (demoNormal 1).fixed.symboltypes [1, 1, 1, 0, 0] := by decide
  have h2 : ¬ ScreenInTable (demoCascade 5 1).fixed.symbolTypes [1, 7, 1] := by decide
  exact ⟨h1,
    (trigger_safe 1 [1, 1, 1, 0, 0] (demoNormal 1) (demoCascade 5 1)).1.1 h1,
    h2,
    (trigger_safe 1 [1, 7, 1] (demoNormal 1) (demoCascade 5 1)).2.2.1 h2,
    (trigger_safe 1 [1, -1, 1] (demoNormal 1) (demoCascade 5 1)).1.2.2 [1] (-1) [1] rfl
      (by decide) (by decide)⟩

end Problab
